import Mathlib

set_option maxRecDepth 100000

namespace Fxb

/-!
Shallow embedding of the fauxboy SM83 CPU core (src/src/cpu.cpp,
src/include/fauxboy/cpu.hpp, register.hpp, util.hpp) and proofs about it.

Modelling conventions:
* Machine bytes and words are Nat with explicit masking (% 256, % 65536 or
  the corresponding bitwise masks) at exactly the points where the C++ code
  stores into a uint8 or uint16.
* The Cpu structure holds the register file of class Cpu together with the
  borrowed bus memory (a total function over the 16-bit address space).
* Effects are modelled by the monad M: a state transformer that also
  accumulates the list of tick events (one per bus access or internal delay,
  exactly where Cpu::tick is invoked) and can stop with an error, mirroring
  the exceptions thrown by Cpu::execute / Cpu::executeExtended.  Each tick
  event records the register/memory state visible to the tick callback at
  that moment, since the callback may inspect registers and the last bus
  access.
-/


/-- Register file of class Cpu plus the borrowed bus memory.
A_ .. L_ are byte registers, SP_ and PC_ are 16-bit registers;
mem is the byte-addressable bus. -/
structure Cpu where
  a : Nat
  b : Nat
  c : Nat
  d : Nat
  e : Nat
  f : Nat
  h : Nat
  l : Nat
  sp : Nat
  pc : Nat
  mem : Nat → Nat

/-- Struct CpuState from cpu.hpp: the snapshot handed to Cpu::reset.
Its fields are uint8 (A..L) and uint16 (SP, PC) in the source. -/
structure CpuState where
  A : Nat := 0
  B : Nat := 0
  C : Nat := 0
  D : Nat := 0
  E : Nat := 0
  F : Nat := 0
  H : Nat := 0
  L : Nat := 0
  SP : Nat := 0
  PC : Nat := 0

/-- The two exception kinds thrown by the decoders:
IllegalOpcodeException and OpcodeNotImplementedException, each carrying
the (extended) opcode. -/
inductive Err where
  | illegalOpcode (opcode : Nat)
  | opcodeNotImplemented (opcode : Nat)
deriving DecidableEq

/-- What the bus last-access record shows at a tick: a read, a write
(with address and data), or an internal delay cycle. -/
inductive EvKind where
  | rd (addr val : Nat)
  | wr (addr val : Nat)
  | internal
deriving DecidableEq

/-- One invocation of the tick callback: the kind of cycle and the full
machine state the callback can observe at that moment. -/
structure Ev where
  kind : EvKind
  st : Cpu

/-- Effect monad for the CPU: state, tick-event trace, and the exceptions
of the source (which leave the state mutated up to the throw point). -/
def M (α : Type) : Type := Cpu → Except Err α × Cpu × List Ev

def M.pure {α : Type} (x : α) : M α := fun s => (Except.ok x, s, [])

def M.bind {α β : Type} (m : M α) (k : α → M β) : M β := fun s =>
  match m s with
  | (Except.ok x, s1, t1) =>
      match k x s1 with
      | (r, s2, t2) => (r, s2, t1 ++ t2)
  | (Except.error err, s1, t1) => (Except.error err, s1, t1)

instance : Monad M where
  pure := M.pure
  bind := M.bind

/-- Result component of running an action. -/
def runResult {α : Type} (m : M α) (s : Cpu) : Except Err α := (m s).1

/-- Final machine state after running an action. -/
def runState {α : Type} (m : M α) (s : Cpu) : Cpu := (m s).2.1

/-- Tick-event trace emitted while running an action. -/
def runTrace {α : Type} (m : M α) (s : Cpu) : List Ev := (m s).2.2

/-- Read the machine state without effects (used for register reads,
which involve no bus access and no tick in the source). -/
def readS {α : Type} (g : Cpu → α) : M α := fun s => (Except.ok (g s), s, [])

/-- Apply a pure update to the machine state (register writes). -/
def modS (g : Cpu → Cpu) : M Unit := fun s => (Except.ok (), g s, [])

/-- Cpu::tick for an internal delay cycle: one callback invocation, no bus
access. -/
def tick : M Unit := fun s => (Except.ok (), s, [⟨EvKind.internal, s⟩])

/-- Cpu::read: bus read (uint8 result) followed by one tick. -/
def busRead (addr : Nat) : M Nat := fun s =>
  (Except.ok (s.mem (addr % 65536) % 256), s,
    [⟨EvKind.rd (addr % 65536) (s.mem (addr % 65536) % 256), s⟩])

/-- Cpu::write: bus write followed by one tick (the callback sees the
updated memory). -/
def busWrite (addr v : Nat) : M Unit := fun s =>
  let s1 : Cpu := { s with mem := fun x => if x = addr % 65536 then v % 256 else s.mem x }
  (Except.ok (), s1, [⟨EvKind.wr (addr % 65536) (v % 256), s1⟩])

/-- Throwing an exception: the state mutations made so far stick. -/
def throwErr {α : Type} (err : Err) : M α := fun s => (Except.error err, s, [])

/-- Flag bit positions of enum class Cpu::Flag. -/
def CARRY : Nat := 0x10
def HALF_CARRY : Nat := 0x20
def NEGATIVE : Nat := 0x40
def ZERO : Nat := 0x80

/-- FlagRegister::setFlag on the raw byte:
value = ((value and not flag) or (flag * shouldSet)). -/
def setFlagVal (f flag : Nat) (shouldSet : Bool) : Nat :=
  (f &&& (0xFF ^^^ flag)) ||| (flag * (if shouldSet then 1 else 0))

/-- F_.setFlag. -/
def setFlag (flag : Nat) (shouldSet : Bool) : M Unit :=
  modS fun s => { s with f := setFlagVal s.f flag shouldSet }

/-- FlagRegister::isSet on a state. -/
def isSetF (s : Cpu) (flag : Nat) : Bool := (s.f &&& flag) != 0

/-- F_.isSet as an action (a pure register read). -/
def isSet (flag : Nat) : M Bool := readS fun s => isSetF s flag

/-- The seven byte registers that appear as ByteRegister targets. -/
inductive R8 where
  | A | B | C | D | E | H | L
deriving DecidableEq

def getR8 (r : R8) (s : Cpu) : Nat :=
  match r with
  | .A => s.a
  | .B => s.b
  | .C => s.c
  | .D => s.d
  | .E => s.e
  | .H => s.h
  | .L => s.l

/-- Write a byte register (uint8 storage truncates to a byte). -/
def setR8 (r : R8) (v : Nat) : M Unit :=
  modS fun s =>
    match r with
    | .A => { s with a := v % 256 }
    | .B => { s with b := v % 256 }
    | .C => { s with c := v % 256 }
    | .D => { s with d := v % 256 }
    | .E => { s with e := v % 256 }
    | .H => { s with h := v % 256 }
    | .L => { s with l := v % 256 }

def getReg (r : R8) : M Nat := readS (getR8 r)

/-- RegisterPairView operator(): (hi << 8) | lo. -/
def Cpu.af (s : Cpu) : Nat := (s.a <<< 8) ||| s.f
def Cpu.bc (s : Cpu) : Nat := (s.b <<< 8) ||| s.c
def Cpu.de (s : Cpu) : Nat := (s.d <<< 8) ||| s.e
def Cpu.hl (s : Cpu) : Nat := (s.h <<< 8) ||| s.l

/-- Write the F register as a whole (Register::operator=, uint8 storage). -/
def setF (v : Nat) : M Unit := modS fun s => { s with f := v % 256 }

/-- SP_ = v (uint16 storage). -/
def setSP (v : Nat) : M Unit := modS fun s => { s with sp := v % 65536 }

/-- PC_ = v (uint16 storage). -/
def setPC (v : Nat) : M Unit := modS fun s => { s with pc := v % 65536 }

/-- ++SP_ on the uint16 register. -/
def incSP : M Unit := modS fun s => { s with sp := (s.sp + 1) % 65536 }

/-- Decrement: --SP_ on the uint16 register. -/
def decSP : M Unit := modS fun s => { s with sp := (s.sp + 65535) % 65536 }

/-- SP_.setLower (fxb::setLower on a uint16). -/
def setSPlower (v : Nat) : M Unit :=
  modS fun s => { s with sp := (s.sp &&& 0xFF00) ||| (v % 256) }

/-- SP_.setUpper (fxb::setUpper on a uint16). -/
def setSPupper (v : Nat) : M Unit :=
  modS fun s => { s with sp := (s.sp &&& 0x00FF) ||| ((v % 256) <<< 8) }

/-- The sign extension performed by static_cast of a uint8 to int8 and
adding it to a 16-bit value: the value of the displacement modulo 2^16. -/
def sx8 (n : Nat) : Nat := if n % 256 < 128 then n % 256 else n % 256 + 0xFF00

/-- Cpu::reset: installs a CpuState snapshot verbatim into the registers
(the snapshot fields are uint8/uint16, hence the masks); the bus memory is
untouched and no tick is emitted. -/
def reset (st : CpuState) (m : Nat → Nat) : Cpu :=
  { a := st.A % 256, b := st.B % 256, c := st.C % 256, d := st.D % 256
  , e := st.E % 256, f := st.F % 256, h := st.H % 256, l := st.L % 256
  , sp := st.SP % 65536, pc := st.PC % 65536, mem := m }

/-- Well-formed machine state: registers fit their storage widths.
Every state reachable from Cpu::reset satisfies this. -/
def Wf (s : Cpu) : Prop :=
  s.a < 256 ∧ s.b < 256 ∧ s.c < 256 ∧ s.d < 256 ∧ s.e < 256 ∧ s.f < 256 ∧
    s.h < 256 ∧ s.l < 256 ∧ s.sp < 65536 ∧ s.pc < 65536

/-- Cpu::readNextByteAndAdvance: remember PC, increment it, then read the
old address (the fetch tick therefore happens after PC has advanced). -/
def readNextByteAndAdvance : M Nat := do
  let oldPC ← readS (·.pc)
  modS fun s => { s with pc := (s.pc + 1) % 65536 }
  busRead oldPC

/-- The 16-bit targets of INC/DEC: the three RegisterPairViews handled by
the RegisterPairView overload plus SP_ handled by the ShortRegister
overload (both overloads have identical bodies). -/
inductive R16 where
  | BC | DE | HL | SP
deriving DecidableEq

def get16 (t : R16) (s : Cpu) : Nat :=
  match t with
  | .BC => s.bc
  | .DE => s.de
  | .HL => s.hl
  | .SP => s.sp

/-- Low-byte write of a 16-bit target: the low ByteRegister of a pair view,
or setLower on SP_. -/
def set16lo (t : R16) (v : Nat) : M Unit :=
  match t with
  | .BC => setR8 .C v
  | .DE => setR8 .E v
  | .HL => setR8 .L v
  | .SP => setSPlower v

/-- High-byte write of a 16-bit target. -/
def set16hi (t : R16) (v : Nat) : M Unit :=
  match t with
  | .BC => setR8 .B v
  | .DE => setR8 .D v
  | .HL => setR8 .H v
  | .SP => setSPupper v

/-- Cpu::INC on a ShortRegister / RegisterPairView: compute value+1, write
the low byte, one internal tick, then write the high byte.  No flags. -/
def INC16 (t : R16) : M Unit := do
  let oldValue ← readS (get16 t)
  set16lo t (((oldValue + 1) % 65536) &&& 0xFF)
  tick
  set16hi t ((((oldValue + 1) % 65536) >>> 8) &&& 0xFF)

/-- Cpu::DEC on a ShortRegister / RegisterPairView (uint16 wraparound). -/
def DEC16 (t : R16) : M Unit := do
  let oldValue ← readS (get16 t)
  set16lo t (((oldValue + 65535) % 65536) &&& 0xFF)
  tick
  set16hi t ((((oldValue + 65535) % 65536) >>> 8) &&& 0xFF)

/-- Cpu::INC(ByteRegister&): 8-bit increment; Z, N, H updated, C preserved. -/
def INC8 (r : R8) : M Unit := do
  let oldValue ← getReg r
  setR8 r ((oldValue + 1) % 256)
  setFlag ZERO (((oldValue + 1) % 256) == 0)
  setFlag NEGATIVE false
  setFlag HALF_CARRY ((((oldValue &&& 0x0F) + 1) &&& 0x10) != 0)

/-- Cpu::DEC(ByteRegister&): 8-bit decrement; Z, N, H updated, C preserved. -/
def DEC8 (r : R8) : M Unit := do
  let oldValue ← getReg r
  setR8 r ((oldValue + 255) % 256)
  setFlag ZERO (((oldValue + 255) % 256) == 0)
  setFlag NEGATIVE true
  setFlag HALF_CARRY ((((oldValue + 255) % 256) &&& 0x0F) == 0x0F)

/-- Cpu::ADD(ByteRegister&, uint8): every call site passes A_ as the
target register.  The shift parameter is a byte. -/
def ADD8 (shift : Nat) : M Unit := do
  let oldValue ← getReg .A
  setR8 .A ((oldValue + shift) &&& 0xFF)
  setFlag ZERO (((oldValue + shift) &&& 0xFF) == 0)
  setFlag NEGATIVE false
  setFlag HALF_CARRY ((((oldValue &&& 0x0F) + (shift &&& 0x0F)) &&& 0xF0) != 0)
  setFlag CARRY (((oldValue + shift) &&& 0xFF00) != 0)

/-- Cpu::ADC(ByteRegister&, uint8): add with carry-in; target is always A_. -/
def ADC8 (shift : Nat) : M Unit := do
  let oldValue ← getReg .A
  let cin ← isSet CARRY
  setR8 .A ((oldValue + shift + (if cin then 1 else 0)) &&& 0xFF)
  setFlag ZERO (((oldValue + shift + (if cin then 1 else 0)) &&& 0xFF) == 0)
  setFlag NEGATIVE false
  setFlag HALF_CARRY
    ((((oldValue &&& 0x0F) + (shift &&& 0x0F) + (if cin then 1 else 0)) &&& 0xF0) != 0)
  setFlag CARRY (((oldValue + shift + (if cin then 1 else 0)) &&& 0xFF00) != 0)

/-- Cpu::SUB(ByteRegister&, uint8): target always A_; uint8 wraparound
subtraction (shift is a byte, hence the mod-256 reading of it). -/
def SUB8 (shift : Nat) : M Unit := do
  let oldValue ← getReg .A
  setR8 .A ((oldValue + 256 - shift % 256) % 256)
  setFlag ZERO (((oldValue + 256 - shift % 256) % 256) == 0)
  setFlag NEGATIVE true
  setFlag HALF_CARRY (decide ((shift &&& 0x0F) > (oldValue &&& 0x0F)))
  setFlag CARRY (decide (shift > oldValue))

/-- Cpu::SBC(ByteRegister&, uint8): subtract with carry-in; target always A_. -/
def SBC8 (shift : Nat) : M Unit := do
  let oldValue ← getReg .A
  let cin ← isSet CARRY
  setR8 .A ((oldValue + 512 - shift % 256 - (if cin then 1 else 0)) % 256)
  setFlag ZERO (((oldValue + 512 - shift % 256 - (if cin then 1 else 0)) % 256) == 0)
  setFlag NEGATIVE true
  setFlag HALF_CARRY (decide (((shift &&& 0x0F) + (if cin then 1 else 0)) > (oldValue &&& 0x0F)))
  setFlag CARRY (decide ((shift + (if cin then 1 else 0)) > oldValue))

/-- Cpu::AND(ByteRegister&, uint8): target always A_. -/
def AND8 (value : Nat) : M Unit := do
  let oldValue ← getReg .A
  setR8 .A (oldValue &&& value)
  setFlag ZERO ((oldValue &&& value) == 0)
  setFlag NEGATIVE false
  setFlag HALF_CARRY true
  setFlag CARRY false

/-- Cpu::XOR(ByteRegister&, uint8): target always A_. -/
def XOR8 (value : Nat) : M Unit := do
  let oldValue ← getReg .A
  setR8 .A (oldValue ^^^ value)
  setFlag ZERO ((oldValue ^^^ value) == 0)
  setFlag NEGATIVE false
  setFlag HALF_CARRY false
  setFlag CARRY false

/-- Cpu::OR(ByteRegister&, uint8): target always A_. -/
def OR8 (value : Nat) : M Unit := do
  let oldValue ← getReg .A
  setR8 .A (oldValue ||| value)
  setFlag ZERO ((oldValue ||| value) == 0)
  setFlag NEGATIVE false
  setFlag HALF_CARRY false
  setFlag CARRY false

/-- Cpu::CP(ByteRegister const&, uint8): compare, flags only; target
always A_. -/
def CP8 (shift : Nat) : M Unit := do
  let oldValue ← getReg .A
  setFlag ZERO (((oldValue + 256 - shift % 256) % 256) == 0)
  setFlag NEGATIVE true
  setFlag HALF_CARRY (decide ((shift &&& 0x0F) > (oldValue &&& 0x0F)))
  setFlag CARRY (decide (shift > oldValue))

/-- Cpu::ADD(RegisterPairView, uint16): the 16-bit ADD HL,rr; L written,
one internal tick, H written, then N, H, C updated (Z preserved). -/
def ADDHL (shift : Nat) : M Unit := do
  let oldValue ← readS (·.hl)
  setR8 .L ((oldValue + shift) &&& 0xFF)
  tick
  setR8 .H (((oldValue + shift) >>> 8) &&& 0xFF)
  setFlag NEGATIVE false
  setFlag HALF_CARRY ((((oldValue &&& 0x0FFF) + (shift &&& 0x0FFF)) &&& 0x1000) != 0)
  setFlag CARRY (((oldValue + shift) &&& 0x10000) != 0)

/-- Cpu::JR(bool): read the displacement; when branching, one internal
tick then PC = PC + signed displacement. -/
def JRc (shouldBranch : Bool) : M Unit := do
  let n ← readNextByteAndAdvance
  if shouldBranch then do
    tick
    let pc ← readS (·.pc)
    setPC (pc + sx8 n)
  else
    pure ()

/-- Cpu::JP(bool): read the little-endian target; when branching, one
internal tick then PC = target. -/
def JPc (shouldBranch : Bool) : M Unit := do
  let lo ← readNextByteAndAdvance
  let hi ← readNextByteAndAdvance
  if shouldBranch then do
    tick
    setPC ((hi <<< 8) ||| lo)
  else
    pure ()

/-- Cpu::CALL(bool): read the target; when branching: internal tick, push
PC high then low at a pre-decremented SP, jump. -/
def CALLc (shouldBranch : Bool) : M Unit := do
  let lo ← readNextByteAndAdvance
  let hi ← readNextByteAndAdvance
  if shouldBranch then do
    tick
    decSP
    busWrite (← readS (·.sp)) (← readS (fun s => (s.pc >>> 8) &&& 0xFF))
    decSP
    busWrite (← readS (·.sp)) (← readS (fun s => s.pc &&& 0xFF))
    setPC ((hi <<< 8) ||| lo)
  else
    pure ()

/-- Cpu::RET(): pop PC low then high at SP++, one internal tick, jump. -/
def RETu : M Unit := do
  let addrLo ← readS (·.sp)
  incSP
  let lo ← busRead addrLo
  let addrHi ← readS (·.sp)
  incSP
  let hi ← busRead addrHi
  tick
  setPC ((hi <<< 8) ||| lo)

/-- Cpu::RET(bool): one internal tick first, then the full RET if
branching (the condition value was computed by the caller from F, which
the tick cannot change). -/
def RETc (shouldBranch : Bool) : M Unit := do
  tick
  if shouldBranch then RETu else pure ()

/-- Cpu::RST(uint8): internal tick, push PC high then low, jump to the
fixed vector. -/
def RST (value : Nat) : M Unit := do
  tick
  decSP
  busWrite (← readS (·.sp)) (← readS (fun s => (s.pc >>> 8) &&& 0xFF))
  decSP
  busWrite (← readS (·.sp)) (← readS (fun s => s.pc &&& 0xFF))
  setPC value

/-- The RegisterPairView arguments of PUSH/POP (AF_, BC_, DE_, HL_). -/
inductive PR where
  | AF | BC | DE | HL
deriving DecidableEq

def prLoGet (p : PR) (s : Cpu) : Nat :=
  match p with
  | .AF => s.f
  | .BC => s.c
  | .DE => s.e
  | .HL => s.l

def prHiGet (p : PR) (s : Cpu) : Nat :=
  match p with
  | .AF => s.a
  | .BC => s.b
  | .DE => s.d
  | .HL => s.h

def prLoSet (p : PR) (v : Nat) : M Unit :=
  match p with
  | .AF => setF v
  | .BC => setR8 .C v
  | .DE => setR8 .E v
  | .HL => setR8 .L v

def prHiSet (p : PR) (v : Nat) : M Unit :=
  match p with
  | .AF => setR8 .A v
  | .BC => setR8 .B v
  | .DE => setR8 .D v
  | .HL => setR8 .H v

/-- RegisterPairView operator() on a PUSH/POP pair. -/
def prVal (p : PR) (s : Cpu) : Nat := (prHiGet p s <<< 8) ||| prLoGet p s

/-- Cpu::PUSH(RegisterPairView): internal tick, write high byte at --SP,
write low byte at --SP. -/
def PUSH (p : PR) : M Unit := do
  tick
  decSP
  busWrite (← readS (·.sp)) (← readS (prHiGet p))
  decSP
  busWrite (← readS (·.sp)) (← readS (prLoGet p))

/-- Cpu::POP(RegisterPairView): read low byte at SP++, then high byte at
SP++.  Called with BC_, DE_, HL_ (POP AF is the dedicated opcode body
POPAF below). -/
def POP (p : PR) : M Unit := do
  let addrLo ← readS (·.sp)
  incSP
  prLoSet p (← busRead addrLo)
  let addrHi ← readS (·.sp)
  incSP
  prHiSet p (← busRead addrHi)

/-- Body of opcode 0xF1 (POP AF): like POP but the byte loaded into F is
masked with 0xF0 before the assignment. -/
def POPAF : M Unit := do
  let addrLo ← readS (·.sp)
  incSP
  setF ((← busRead addrLo) &&& 0xF0)
  let addrHi ← readS (·.sp)
  incSP
  setR8 .A (← busRead addrHi)

/-- Result byte of Cpu::RLC. -/
def rlcRes (value : Nat) : Nat := ((value <<< 1) ||| ((value &&& 0x80) >>> 7)) &&& 0xFF

/-- Result byte of Cpu::RRC. -/
def rrcRes (value : Nat) : Nat := (value >>> 1) ||| ((value &&& 0x01) <<< 7)

/-- Result byte of Cpu::RL (carry-in becomes bit 0). -/
def rlRes (value : Nat) (cin : Bool) : Nat :=
  ((value <<< 1) ||| (if cin then 1 else 0)) &&& 0xFF

/-- Result byte of Cpu::RR (carry-in becomes bit 7). -/
def rrRes (value : Nat) (cin : Bool) : Nat :=
  (value >>> 1) ||| ((if cin then 1 else 0) <<< 7)

/-- Result byte of Cpu::SLA. -/
def slaRes (value : Nat) : Nat := (value <<< 1) &&& 0xFF

/-- Result byte of Cpu::SRA (bit 7 preserved). -/
def sraRes (value : Nat) : Nat := (value >>> 1) ||| (value &&& 0x80)

/-- Result byte of Cpu::SWAP. -/
def swapRes (value : Nat) : Nat := ((value &&& 0xF0) >>> 4) ||| ((value &&& 0x0F) <<< 4)

/-- Result byte of Cpu::SRL. -/
def srlRes (value : Nat) : Nat := value >>> 1

/-- Shared flag updates of the CB shift/rotate helpers:
Z = result==0, N = 0, H = 0, C = carry-out. -/
def shiftFlags (result : Nat) (carry : Bool) : M Unit := do
  setFlag ZERO (result == 0)
  setFlag NEGATIVE false
  setFlag HALF_CARRY false
  setFlag CARRY carry

/-- Cpu::RLC(ByteRegister&). -/
def RLCr (r : R8) : M Unit := do
  let value ← getReg r
  setR8 r (rlcRes value)
  shiftFlags (rlcRes value) ((value &&& 0x80) != 0)

/-- Cpu::RLC(Address): read-modify-write at the given address. -/
def RLCm (address : Nat) : M Unit := do
  let value ← busRead address
  shiftFlags (rlcRes value) ((value &&& 0x80) != 0)
  busWrite address (rlcRes value)

/-- Cpu::RRC(ByteRegister&). -/
def RRCr (r : R8) : M Unit := do
  let value ← getReg r
  setR8 r (rrcRes value)
  shiftFlags (rrcRes value) ((value &&& 0x01) != 0)

/-- Cpu::RRC(Address). -/
def RRCm (address : Nat) : M Unit := do
  let value ← busRead address
  shiftFlags (rrcRes value) ((value &&& 0x01) != 0)
  busWrite address (rrcRes value)

/-- Cpu::RL(ByteRegister&). -/
def RLr (r : R8) : M Unit := do
  let value ← getReg r
  let cin ← isSet CARRY
  setR8 r (rlRes value cin)
  shiftFlags (rlRes value cin) ((value &&& 0x80) != 0)

/-- Cpu::RL(Address). -/
def RLm (address : Nat) : M Unit := do
  let value ← busRead address
  let cin ← isSet CARRY
  shiftFlags (rlRes value cin) ((value &&& 0x80) != 0)
  busWrite address (rlRes value cin)

/-- Cpu::RR(ByteRegister&). -/
def RRr (r : R8) : M Unit := do
  let value ← getReg r
  let cin ← isSet CARRY
  setR8 r (rrRes value cin)
  shiftFlags (rrRes value cin) ((value &&& 0x01) != 0)

/-- Cpu::RR(Address). -/
def RRm (address : Nat) : M Unit := do
  let value ← busRead address
  let cin ← isSet CARRY
  shiftFlags (rrRes value cin) ((value &&& 0x01) != 0)
  busWrite address (rrRes value cin)

/-- Cpu::SLA(ByteRegister&). -/
def SLAr (r : R8) : M Unit := do
  let value ← getReg r
  setR8 r (slaRes value)
  shiftFlags (slaRes value) ((value &&& 0x80) != 0)

/-- Cpu::SLA(Address). -/
def SLAm (address : Nat) : M Unit := do
  let value ← busRead address
  shiftFlags (slaRes value) ((value &&& 0x80) != 0)
  busWrite address (slaRes value)

/-- Cpu::SRA(ByteRegister&). -/
def SRAr (r : R8) : M Unit := do
  let value ← getReg r
  setR8 r (sraRes value)
  shiftFlags (sraRes value) ((value &&& 0x01) != 0)

/-- Cpu::SRA(Address). -/
def SRAm (address : Nat) : M Unit := do
  let value ← busRead address
  shiftFlags (sraRes value) ((value &&& 0x01) != 0)
  busWrite address (sraRes value)

/-- Cpu::SWAP(ByteRegister&); carry is always cleared. -/
def SWAPr (r : R8) : M Unit := do
  let value ← getReg r
  setR8 r (swapRes value)
  shiftFlags (swapRes value) false

/-- Cpu::SWAP(Address). -/
def SWAPm (address : Nat) : M Unit := do
  let value ← busRead address
  shiftFlags (swapRes value) false
  busWrite address (swapRes value)

/-- Cpu::SRL(ByteRegister&). -/
def SRLr (r : R8) : M Unit := do
  let value ← getReg r
  setR8 r (srlRes value)
  shiftFlags (srlRes value) ((value &&& 0x01) != 0)

/-- Cpu::SRL(Address). -/
def SRLm (address : Nat) : M Unit := do
  let value ← busRead address
  shiftFlags (srlRes value) ((value &&& 0x01) != 0)
  busWrite address (srlRes value)

/-- Flag part of Cpu::BIT: Z = tested bit clear, N = 0, H = 1, C kept. -/
def BITflags (bit value : Nat) : M Unit := do
  setFlag ZERO ((value &&& (1 <<< bit)) == 0)
  setFlag NEGATIVE false
  setFlag HALF_CARRY true

/-- Cpu::BIT(int, ByteRegister const&). -/
def BITr (bit : Nat) (r : R8) : M Unit := do
  BITflags bit (← getReg r)

/-- Cpu::BIT(int, Address): reads the byte, no write-back. -/
def BITm (bit address : Nat) : M Unit := do
  BITflags bit (← busRead address)

/-- Cpu::RES(int, ByteRegister&): clear the bit, no flags. -/
def RESr (bit : Nat) (r : R8) : M Unit := do
  setR8 r ((← getReg r) &&& (0xFF ^^^ (1 <<< bit)))

/-- Cpu::RES(int, Address). -/
def RESm (bit address : Nat) : M Unit := do
  busWrite address ((← busRead address) &&& (0xFF ^^^ (1 <<< bit)))

/-- Cpu::SET(int, ByteRegister&): set the bit, no flags. -/
def SETr (bit : Nat) (r : R8) : M Unit := do
  setR8 r ((← getReg r) ||| (1 <<< bit))

/-- Cpu::SET(int, Address). -/
def SETm (bit address : Nat) : M Unit := do
  busWrite address ((← busRead address) ||| (1 <<< bit))

/-- Shift amount of the DAA subtraction branch (N set). -/
def daaSubShift (s : Cpu) : Nat :=
  (if isSetF s HALF_CARRY then 0x06 else 0) + (if isSetF s CARRY then 0x60 else 0)

/-- Result byte of the DAA subtraction branch: uint16 wraparound of
A - shift, truncated to the low byte. -/
def daaSubRes (s : Cpu) : Nat := ((s.a + 65536 - daaSubShift s) % 65536) &&& 0xFF

/-- Shift amount of the DAA addition branch (N clear). -/
def daaAddShift (s : Cpu) : Nat :=
  (if isSetF s HALF_CARRY || decide ((s.a &&& 0x0F) > 0x09) then 0x06 else 0)
    + (if isSetF s CARRY || decide (s.a > 0x99) then 0x60 else 0)

/-- Result byte of the DAA addition branch. -/
def daaAddRes (s : Cpu) : Nat := (s.a + daaAddShift s) &&& 0xFF

/-- Body of opcode 0x27 (DAA).  In the addition branch the carry flag is
forced to 1 (before A is updated) exactly when C was set or A > 0x99;
in the subtraction branch C is left alone.  Then A, Z and H are updated;
N is preserved. -/
def DAA : M Unit := do
  let s0 ← readS id
  if isSetF s0 NEGATIVE then do
    setR8 .A (daaSubRes s0)
    setFlag ZERO (daaSubRes s0 == 0)
    setFlag HALF_CARRY false
  else do
    if isSetF s0 CARRY || decide (s0.a > 0x99) then setFlag CARRY true else pure ()
    setR8 .A (daaAddRes s0)
    setFlag ZERO (daaAddRes s0 == 0)
    setFlag HALF_CARRY false

/-- Cases 0xCB00 .. 0xCB0F of the switch in Cpu::executeExtended;
the default is the switch's default. -/
def extRow0 (opcode : Nat) : M Unit :=
  match opcode with
  | 0xCB00 => RLCr .B
  | 0xCB01 => RLCr .C
  | 0xCB02 => RLCr .D
  | 0xCB03 => RLCr .E
  | 0xCB04 => RLCr .H
  | 0xCB05 => RLCr .L
  | 0xCB06 => do RLCm (← readS (·.hl))
  | 0xCB07 => RLCr .A
  | 0xCB08 => RRCr .B
  | 0xCB09 => RRCr .C
  | 0xCB0A => RRCr .D
  | 0xCB0B => RRCr .E
  | 0xCB0C => RRCr .H
  | 0xCB0D => RRCr .L
  | 0xCB0E => do RRCm (← readS (·.hl))
  | 0xCB0F => RRCr .A
  | _ => throwErr (Err.opcodeNotImplemented opcode)

/-- Cases 0xCB10 .. 0xCB1F of the switch in Cpu::executeExtended;
the default is the switch's default. -/
def extRow1 (opcode : Nat) : M Unit :=
  match opcode with
  | 0xCB10 => RLr .B
  | 0xCB11 => RLr .C
  | 0xCB12 => RLr .D
  | 0xCB13 => RLr .E
  | 0xCB14 => RLr .H
  | 0xCB15 => RLr .L
  | 0xCB16 => do RLm (← readS (·.hl))
  | 0xCB17 => RLr .A
  | 0xCB18 => RRr .B
  | 0xCB19 => RRr .C
  | 0xCB1A => RRr .D
  | 0xCB1B => RRr .E
  | 0xCB1C => RRr .H
  | 0xCB1D => RRr .L
  | 0xCB1E => do RRm (← readS (·.hl))
  | 0xCB1F => RRr .A
  | _ => throwErr (Err.opcodeNotImplemented opcode)

/-- Cases 0xCB20 .. 0xCB2F of the switch in Cpu::executeExtended;
the default is the switch's default. -/
def extRow2 (opcode : Nat) : M Unit :=
  match opcode with
  | 0xCB20 => SLAr .B
  | 0xCB21 => SLAr .C
  | 0xCB22 => SLAr .D
  | 0xCB23 => SLAr .E
  | 0xCB24 => SLAr .H
  | 0xCB25 => SLAr .L
  | 0xCB26 => do SLAm (← readS (·.hl))
  | 0xCB27 => SLAr .A
  | 0xCB28 => SRAr .B
  | 0xCB29 => SRAr .C
  | 0xCB2A => SRAr .D
  | 0xCB2B => SRAr .E
  | 0xCB2C => SRAr .H
  | 0xCB2D => SRAr .L
  | 0xCB2E => do SRAm (← readS (·.hl))
  | 0xCB2F => SRAr .A
  | _ => throwErr (Err.opcodeNotImplemented opcode)

/-- Cases 0xCB30 .. 0xCB3F of the switch in Cpu::executeExtended;
the default is the switch's default. -/
def extRow3 (opcode : Nat) : M Unit :=
  match opcode with
  | 0xCB30 => SWAPr .B
  | 0xCB31 => SWAPr .C
  | 0xCB32 => SWAPr .D
  | 0xCB33 => SWAPr .E
  | 0xCB34 => SWAPr .H
  | 0xCB35 => SWAPr .L
  | 0xCB36 => do SWAPm (← readS (·.hl))
  | 0xCB37 => SWAPr .A
  | 0xCB38 => SRLr .B
  | 0xCB39 => SRLr .C
  | 0xCB3A => SRLr .D
  | 0xCB3B => SRLr .E
  | 0xCB3C => SRLr .H
  | 0xCB3D => SRLr .L
  | 0xCB3E => do SRLm (← readS (·.hl))
  | 0xCB3F => SRLr .A
  | _ => throwErr (Err.opcodeNotImplemented opcode)

/-- Cases 0xCB40 .. 0xCB4F of the switch in Cpu::executeExtended;
the default is the switch's default. -/
def extRow4 (opcode : Nat) : M Unit :=
  match opcode with
  | 0xCB40 => BITr 0 .B
  | 0xCB41 => BITr 0 .C
  | 0xCB42 => BITr 0 .D
  | 0xCB43 => BITr 0 .E
  | 0xCB44 => BITr 0 .H
  | 0xCB45 => BITr 0 .L
  | 0xCB46 => do BITm 0 (← readS (·.hl))
  | 0xCB47 => BITr 0 .A
  | 0xCB48 => BITr 1 .B
  | 0xCB49 => BITr 1 .C
  | 0xCB4A => BITr 1 .D
  | 0xCB4B => BITr 1 .E
  | 0xCB4C => BITr 1 .H
  | 0xCB4D => BITr 1 .L
  | 0xCB4E => do BITm 1 (← readS (·.hl))
  | 0xCB4F => BITr 1 .A
  | _ => throwErr (Err.opcodeNotImplemented opcode)

/-- Cases 0xCB50 .. 0xCB5F of the switch in Cpu::executeExtended;
the default is the switch's default. -/
def extRow5 (opcode : Nat) : M Unit :=
  match opcode with
  | 0xCB50 => BITr 2 .B
  | 0xCB51 => BITr 2 .C
  | 0xCB52 => BITr 2 .D
  | 0xCB53 => BITr 2 .E
  | 0xCB54 => BITr 2 .H
  | 0xCB55 => BITr 2 .L
  | 0xCB56 => do BITm 2 (← readS (·.hl))
  | 0xCB57 => BITr 2 .A
  | 0xCB58 => BITr 3 .B
  | 0xCB59 => BITr 3 .C
  | 0xCB5A => BITr 3 .D
  | 0xCB5B => BITr 3 .E
  | 0xCB5C => BITr 3 .H
  | 0xCB5D => BITr 3 .L
  | 0xCB5E => do BITm 3 (← readS (·.hl))
  | 0xCB5F => BITr 3 .A
  | _ => throwErr (Err.opcodeNotImplemented opcode)

/-- Cases 0xCB60 .. 0xCB6F of the switch in Cpu::executeExtended;
the default is the switch's default. -/
def extRow6 (opcode : Nat) : M Unit :=
  match opcode with
  | 0xCB60 => BITr 4 .B
  | 0xCB61 => BITr 4 .C
  | 0xCB62 => BITr 4 .D
  | 0xCB63 => BITr 4 .E
  | 0xCB64 => BITr 4 .H
  | 0xCB65 => BITr 4 .L
  | 0xCB66 => do BITm 4 (← readS (·.hl))
  | 0xCB67 => BITr 4 .A
  | 0xCB68 => BITr 5 .B
  | 0xCB69 => BITr 5 .C
  | 0xCB6A => BITr 5 .D
  | 0xCB6B => BITr 5 .E
  | 0xCB6C => BITr 5 .H
  | 0xCB6D => BITr 5 .L
  | 0xCB6E => do BITm 5 (← readS (·.hl))
  | 0xCB6F => BITr 5 .A
  | _ => throwErr (Err.opcodeNotImplemented opcode)

/-- Cases 0xCB70 .. 0xCB7F of the switch in Cpu::executeExtended;
the default is the switch's default. -/
def extRow7 (opcode : Nat) : M Unit :=
  match opcode with
  | 0xCB70 => BITr 6 .B
  | 0xCB71 => BITr 6 .C
  | 0xCB72 => BITr 6 .D
  | 0xCB73 => BITr 6 .E
  | 0xCB74 => BITr 6 .H
  | 0xCB75 => BITr 6 .L
  | 0xCB76 => do BITm 6 (← readS (·.hl))
  | 0xCB77 => BITr 6 .A
  | 0xCB78 => BITr 7 .B
  | 0xCB79 => BITr 7 .C
  | 0xCB7A => BITr 7 .D
  | 0xCB7B => BITr 7 .E
  | 0xCB7C => BITr 7 .H
  | 0xCB7D => BITr 7 .L
  | 0xCB7E => do BITm 7 (← readS (·.hl))
  | 0xCB7F => BITr 7 .A
  | _ => throwErr (Err.opcodeNotImplemented opcode)

/-- Cases 0xCB80 .. 0xCB8F of the switch in Cpu::executeExtended;
the default is the switch's default. -/
def extRow8 (opcode : Nat) : M Unit :=
  match opcode with
  | 0xCB80 => RESr 0 .B
  | 0xCB81 => RESr 0 .C
  | 0xCB82 => RESr 0 .D
  | 0xCB83 => RESr 0 .E
  | 0xCB84 => RESr 0 .H
  | 0xCB85 => RESr 0 .L
  | 0xCB86 => do RESm 0 (← readS (·.hl))
  | 0xCB87 => RESr 0 .A
  | 0xCB88 => RESr 1 .B
  | 0xCB89 => RESr 1 .C
  | 0xCB8A => RESr 1 .D
  | 0xCB8B => RESr 1 .E
  | 0xCB8C => RESr 1 .H
  | 0xCB8D => RESr 1 .L
  | 0xCB8E => do RESm 1 (← readS (·.hl))
  | 0xCB8F => RESr 1 .A
  | _ => throwErr (Err.opcodeNotImplemented opcode)

/-- Cases 0xCB90 .. 0xCB9F of the switch in Cpu::executeExtended;
the default is the switch's default. -/
def extRow9 (opcode : Nat) : M Unit :=
  match opcode with
  | 0xCB90 => RESr 2 .B
  | 0xCB91 => RESr 2 .C
  | 0xCB92 => RESr 2 .D
  | 0xCB93 => RESr 2 .E
  | 0xCB94 => RESr 2 .H
  | 0xCB95 => RESr 2 .L
  | 0xCB96 => do RESm 2 (← readS (·.hl))
  | 0xCB97 => RESr 2 .A
  | 0xCB98 => RESr 3 .B
  | 0xCB99 => RESr 3 .C
  | 0xCB9A => RESr 3 .D
  | 0xCB9B => RESr 3 .E
  | 0xCB9C => RESr 3 .H
  | 0xCB9D => RESr 3 .L
  | 0xCB9E => do RESm 3 (← readS (·.hl))
  | 0xCB9F => RESr 3 .A
  | _ => throwErr (Err.opcodeNotImplemented opcode)

/-- Cases 0xCBA0 .. 0xCBAF of the switch in Cpu::executeExtended;
the default is the switch's default. -/
def extRowA (opcode : Nat) : M Unit :=
  match opcode with
  | 0xCBA0 => RESr 4 .B
  | 0xCBA1 => RESr 4 .C
  | 0xCBA2 => RESr 4 .D
  | 0xCBA3 => RESr 4 .E
  | 0xCBA4 => RESr 4 .H
  | 0xCBA5 => RESr 4 .L
  | 0xCBA6 => do RESm 4 (← readS (·.hl))
  | 0xCBA7 => RESr 4 .A
  | 0xCBA8 => RESr 5 .B
  | 0xCBA9 => RESr 5 .C
  | 0xCBAA => RESr 5 .D
  | 0xCBAB => RESr 5 .E
  | 0xCBAC => RESr 5 .H
  | 0xCBAD => RESr 5 .L
  | 0xCBAE => do RESm 5 (← readS (·.hl))
  | 0xCBAF => RESr 5 .A
  | _ => throwErr (Err.opcodeNotImplemented opcode)

/-- Cases 0xCBB0 .. 0xCBBF of the switch in Cpu::executeExtended;
the default is the switch's default. -/
def extRowB (opcode : Nat) : M Unit :=
  match opcode with
  | 0xCBB0 => RESr 6 .B
  | 0xCBB1 => RESr 6 .C
  | 0xCBB2 => RESr 6 .D
  | 0xCBB3 => RESr 6 .E
  | 0xCBB4 => RESr 6 .H
  | 0xCBB5 => RESr 6 .L
  | 0xCBB6 => do RESm 6 (← readS (·.hl))
  | 0xCBB7 => RESr 6 .A
  | 0xCBB8 => RESr 7 .B
  | 0xCBB9 => RESr 7 .C
  | 0xCBBA => RESr 7 .D
  | 0xCBBB => RESr 7 .E
  | 0xCBBC => RESr 7 .H
  | 0xCBBD => RESr 7 .L
  | 0xCBBE => do RESm 7 (← readS (·.hl))
  | 0xCBBF => RESr 7 .A
  | _ => throwErr (Err.opcodeNotImplemented opcode)

/-- Cases 0xCBC0 .. 0xCBCF of the switch in Cpu::executeExtended;
the default is the switch's default. -/
def extRowC (opcode : Nat) : M Unit :=
  match opcode with
  | 0xCBC0 => SETr 0 .B
  | 0xCBC1 => SETr 0 .C
  | 0xCBC2 => SETr 0 .D
  | 0xCBC3 => SETr 0 .E
  | 0xCBC4 => SETr 0 .H
  | 0xCBC5 => SETr 0 .L
  | 0xCBC6 => do SETm 0 (← readS (·.hl))
  | 0xCBC7 => SETr 0 .A
  | 0xCBC8 => SETr 1 .B
  | 0xCBC9 => SETr 1 .C
  | 0xCBCA => SETr 1 .D
  | 0xCBCB => SETr 1 .E
  | 0xCBCC => SETr 1 .H
  | 0xCBCD => SETr 1 .L
  | 0xCBCE => do SETm 1 (← readS (·.hl))
  | 0xCBCF => SETr 1 .A
  | _ => throwErr (Err.opcodeNotImplemented opcode)

/-- Cases 0xCBD0 .. 0xCBDF of the switch in Cpu::executeExtended;
the default is the switch's default. -/
def extRowD (opcode : Nat) : M Unit :=
  match opcode with
  | 0xCBD0 => SETr 2 .B
  | 0xCBD1 => SETr 2 .C
  | 0xCBD2 => SETr 2 .D
  | 0xCBD3 => SETr 2 .E
  | 0xCBD4 => SETr 2 .H
  | 0xCBD5 => SETr 2 .L
  | 0xCBD6 => do SETm 2 (← readS (·.hl))
  | 0xCBD7 => SETr 2 .A
  | 0xCBD8 => SETr 3 .B
  | 0xCBD9 => SETr 3 .C
  | 0xCBDA => SETr 3 .D
  | 0xCBDB => SETr 3 .E
  | 0xCBDC => SETr 3 .H
  | 0xCBDD => SETr 3 .L
  | 0xCBDE => do SETm 3 (← readS (·.hl))
  | 0xCBDF => SETr 3 .A
  | _ => throwErr (Err.opcodeNotImplemented opcode)

/-- Cases 0xCBE0 .. 0xCBEF of the switch in Cpu::executeExtended;
the default is the switch's default. -/
def extRowE (opcode : Nat) : M Unit :=
  match opcode with
  | 0xCBE0 => SETr 4 .B
  | 0xCBE1 => SETr 4 .C
  | 0xCBE2 => SETr 4 .D
  | 0xCBE3 => SETr 4 .E
  | 0xCBE4 => SETr 4 .H
  | 0xCBE5 => SETr 4 .L
  | 0xCBE6 => do SETm 4 (← readS (·.hl))
  | 0xCBE7 => SETr 4 .A
  | 0xCBE8 => SETr 5 .B
  | 0xCBE9 => SETr 5 .C
  | 0xCBEA => SETr 5 .D
  | 0xCBEB => SETr 5 .E
  | 0xCBEC => SETr 5 .H
  | 0xCBED => SETr 5 .L
  | 0xCBEE => do SETm 5 (← readS (·.hl))
  | 0xCBEF => SETr 5 .A
  | _ => throwErr (Err.opcodeNotImplemented opcode)

/-- Cases 0xCBF0 .. 0xCBFF of the switch in Cpu::executeExtended;
the default is the switch's default. -/
def extRowF (opcode : Nat) : M Unit :=
  match opcode with
  | 0xCBF0 => SETr 6 .B
  | 0xCBF1 => SETr 6 .C
  | 0xCBF2 => SETr 6 .D
  | 0xCBF3 => SETr 6 .E
  | 0xCBF4 => SETr 6 .H
  | 0xCBF5 => SETr 6 .L
  | 0xCBF6 => do SETm 6 (← readS (·.hl))
  | 0xCBF7 => SETr 6 .A
  | 0xCBF8 => SETr 7 .B
  | 0xCBF9 => SETr 7 .C
  | 0xCBFA => SETr 7 .D
  | 0xCBFB => SETr 7 .E
  | 0xCBFC => SETr 7 .H
  | 0xCBFD => SETr 7 .L
  | 0xCBFE => do SETm 7 (← readS (·.hl))
  | 0xCBFF => SETr 7 .A
  | _ => throwErr (Err.opcodeNotImplemented opcode)

/-- Cpu::executeExtended: the 256-way switch over the CB-prefixed extended
opcodes.  The flat switch of the source is split here by the high nibble
into the sixteen extRow functions; the per-opcode bodies are verbatim and
every opcode (also every out-of-range one) reaches exactly the same case
or default as in the flat switch. -/
def executeExtended (opcode : Nat) : M Unit :=
  match opcode >>> 4 with
  | 0xCB0 => extRow0 opcode
  | 0xCB1 => extRow1 opcode
  | 0xCB2 => extRow2 opcode
  | 0xCB3 => extRow3 opcode
  | 0xCB4 => extRow4 opcode
  | 0xCB5 => extRow5 opcode
  | 0xCB6 => extRow6 opcode
  | 0xCB7 => extRow7 opcode
  | 0xCB8 => extRow8 opcode
  | 0xCB9 => extRow9 opcode
  | 0xCBA => extRowA opcode
  | 0xCBB => extRowB opcode
  | 0xCBC => extRowC opcode
  | 0xCBD => extRowD opcode
  | 0xCBE => extRowE opcode
  | 0xCBF => extRowF opcode
  | _ => throwErr (Err.opcodeNotImplemented opcode)

/-- Cases 0x00 .. 0x0F of the switch in Cpu::execute; the default
is the switch's default. -/
def execRow0 (opcode : Nat) : M Unit :=
  match opcode with
  | 0x00 => pure ()
  | 0x01 => do prLoSet .BC (← readNextByteAndAdvance); prHiSet .BC (← readNextByteAndAdvance)
  | 0x02 => do busWrite (← readS (·.bc)) (← getReg .A)
  | 0x03 => INC16 .BC
  | 0x04 => INC8 .B
  | 0x05 => DEC8 .B
  | 0x06 => do setR8 .B (← readNextByteAndAdvance)
  | 0x07 => do
      let value ← getReg .A
      setR8 .A (rlcRes value)
      setFlag ZERO false
      setFlag NEGATIVE false
      setFlag HALF_CARRY false
      setFlag CARRY ((value &&& 0x80) != 0)
  | 0x08 => do
      let lo ← readNextByteAndAdvance
      let hi ← readNextByteAndAdvance
      busWrite ((hi <<< 8) ||| lo) (← readS (fun s => s.sp &&& 0xFF))
      busWrite (((hi <<< 8) ||| lo) + 1) (← readS (fun s => (s.sp >>> 8) &&& 0xFF))
  | 0x09 => do ADDHL (← readS (·.bc))
  | 0x0A => do setR8 .A (← busRead (← readS (·.bc)))
  | 0x0B => DEC16 .BC
  | 0x0C => INC8 .C
  | 0x0D => DEC8 .C
  | 0x0E => do setR8 .C (← readNextByteAndAdvance)
  | 0x0F => do
      let value ← getReg .A
      setR8 .A (rrcRes value)
      setFlag ZERO false
      setFlag NEGATIVE false
      setFlag HALF_CARRY false
      setFlag CARRY ((value &&& 0x01) != 0)
  | _ => throwErr (Err.opcodeNotImplemented opcode)

/-- Cases 0x10 .. 0x1F of the switch in Cpu::execute; the default
is the switch's default. -/
def execRow1 (opcode : Nat) : M Unit :=
  match opcode with
  | 0x10 => do tick; tick
  | 0x11 => do prLoSet .DE (← readNextByteAndAdvance); prHiSet .DE (← readNextByteAndAdvance)
  | 0x12 => do busWrite (← readS (·.de)) (← getReg .A)
  | 0x13 => INC16 .DE
  | 0x14 => INC8 .D
  | 0x15 => DEC8 .D
  | 0x16 => do setR8 .D (← readNextByteAndAdvance)
  | 0x17 => do
      let value ← getReg .A
      let cin ← isSet CARRY
      setR8 .A (rlRes value cin)
      setFlag ZERO false
      setFlag NEGATIVE false
      setFlag HALF_CARRY false
      setFlag CARRY ((value &&& 0x80) != 0)
  | 0x18 => JRc true
  | 0x19 => do ADDHL (← readS (·.de))
  | 0x1A => do setR8 .A (← busRead (← readS (·.de)))
  | 0x1B => DEC16 .DE
  | 0x1C => INC8 .E
  | 0x1D => DEC8 .E
  | 0x1E => do setR8 .E (← readNextByteAndAdvance)
  | 0x1F => do
      let value ← getReg .A
      let cin ← isSet CARRY
      setR8 .A (rrRes value cin)
      setFlag ZERO false
      setFlag NEGATIVE false
      setFlag HALF_CARRY false
      setFlag CARRY ((value &&& 0x01) != 0)
  | _ => throwErr (Err.opcodeNotImplemented opcode)

/-- Cases 0x20 .. 0x2F of the switch in Cpu::execute; the default
is the switch's default. -/
def execRow2 (opcode : Nat) : M Unit :=
  match opcode with
  | 0x20 => do JRc (!(← isSet ZERO))
  | 0x21 => do prLoSet .HL (← readNextByteAndAdvance); prHiSet .HL (← readNextByteAndAdvance)
  | 0x22 => do
      let address ← readS (·.hl)
      setR8 .L (((address + 1) % 65536) &&& 0xFF)
      setR8 .H ((((address + 1) % 65536) >>> 8) &&& 0xFF)
      busWrite address (← getReg .A)
  | 0x23 => INC16 .HL
  | 0x24 => INC8 .H
  | 0x25 => DEC8 .H
  | 0x26 => do setR8 .H (← readNextByteAndAdvance)
  | 0x27 => DAA
  | 0x28 => do JRc (← isSet ZERO)
  | 0x29 => do ADDHL (← readS (·.hl))
  | 0x2A => do
      let address ← readS (·.hl)
      setR8 .L (((address + 1) % 65536) &&& 0xFF)
      setR8 .H ((((address + 1) % 65536) >>> 8) &&& 0xFF)
      setR8 .A (← busRead address)
  | 0x2B => DEC16 .HL
  | 0x2C => INC8 .L
  | 0x2D => DEC8 .L
  | 0x2E => do setR8 .L (← readNextByteAndAdvance)
  | 0x2F => do
      setR8 .A ((← getReg .A) ^^^ 0xFF)
      setFlag NEGATIVE true
      setFlag HALF_CARRY true
  | _ => throwErr (Err.opcodeNotImplemented opcode)

/-- Cases 0x30 .. 0x3F of the switch in Cpu::execute; the default
is the switch's default. -/
def execRow3 (opcode : Nat) : M Unit :=
  match opcode with
  | 0x30 => do JRc (!(← isSet CARRY))
  | 0x31 => do setSPlower (← readNextByteAndAdvance); setSPupper (← readNextByteAndAdvance)
  | 0x32 => do
      let address ← readS (·.hl)
      setR8 .L (((address + 65535) % 65536) &&& 0xFF)
      setR8 .H ((((address + 65535) % 65536) >>> 8) &&& 0xFF)
      busWrite address (← getReg .A)
  | 0x33 => INC16 .SP
  | 0x34 => do
      let address ← readS (·.hl)
      let value ← busRead address
      setFlag ZERO (((value + 1) % 256) == 0)
      setFlag NEGATIVE false
      setFlag HALF_CARRY ((((value &&& 0x0F) + 1) &&& 0x10) != 0)
      busWrite address ((value + 1) % 256)
  | 0x35 => do
      let address ← readS (·.hl)
      let value ← busRead address
      setFlag ZERO (((value + 255) % 256) == 0)
      setFlag NEGATIVE true
      setFlag HALF_CARRY ((((value + 255) % 256) &&& 0x0F) == 0x0F)
      busWrite address ((value + 255) % 256)
  | 0x36 => do
      let value ← readNextByteAndAdvance
      busWrite (← readS (·.hl)) value
  | 0x37 => do
      setFlag NEGATIVE false
      setFlag HALF_CARRY false
      setFlag CARRY true
  | 0x38 => do JRc (← isSet CARRY)
  | 0x39 => do ADDHL (← readS (·.sp))
  | 0x3A => do
      let address ← readS (·.hl)
      setR8 .L (((address + 65535) % 65536) &&& 0xFF)
      setR8 .H ((((address + 65535) % 65536) >>> 8) &&& 0xFF)
      setR8 .A (← busRead address)
  | 0x3B => DEC16 .SP
  | 0x3C => INC8 .A
  | 0x3D => DEC8 .A
  | 0x3E => do setR8 .A (← readNextByteAndAdvance)
  | 0x3F => do
      setFlag NEGATIVE false
      setFlag HALF_CARRY false
      setFlag CARRY (!(← isSet CARRY))
  | _ => throwErr (Err.opcodeNotImplemented opcode)

/-- Cases 0x40 .. 0x4F of the switch in Cpu::execute; the default
is the switch's default. -/
def execRow4 (opcode : Nat) : M Unit :=
  match opcode with
  | 0x40 => do setR8 .B (← getReg .B)
  | 0x41 => do setR8 .B (← getReg .C)
  | 0x42 => do setR8 .B (← getReg .D)
  | 0x43 => do setR8 .B (← getReg .E)
  | 0x44 => do setR8 .B (← getReg .H)
  | 0x45 => do setR8 .B (← getReg .L)
  | 0x46 => do setR8 .B (← busRead (← readS (·.hl)))
  | 0x47 => do setR8 .B (← getReg .A)
  | 0x48 => do setR8 .C (← getReg .B)
  | 0x49 => do setR8 .C (← getReg .C)
  | 0x4A => do setR8 .C (← getReg .D)
  | 0x4B => do setR8 .C (← getReg .E)
  | 0x4C => do setR8 .C (← getReg .H)
  | 0x4D => do setR8 .C (← getReg .L)
  | 0x4E => do setR8 .C (← busRead (← readS (·.hl)))
  | 0x4F => do setR8 .C (← getReg .A)
  | _ => throwErr (Err.opcodeNotImplemented opcode)

/-- Cases 0x50 .. 0x5F of the switch in Cpu::execute; the default
is the switch's default. -/
def execRow5 (opcode : Nat) : M Unit :=
  match opcode with
  | 0x50 => do setR8 .D (← getReg .B)
  | 0x51 => do setR8 .D (← getReg .C)
  | 0x52 => do setR8 .D (← getReg .D)
  | 0x53 => do setR8 .D (← getReg .E)
  | 0x54 => do setR8 .D (← getReg .H)
  | 0x55 => do setR8 .D (← getReg .L)
  | 0x56 => do setR8 .D (← busRead (← readS (·.hl)))
  | 0x57 => do setR8 .D (← getReg .A)
  | 0x58 => do setR8 .E (← getReg .B)
  | 0x59 => do setR8 .E (← getReg .C)
  | 0x5A => do setR8 .E (← getReg .D)
  | 0x5B => do setR8 .E (← getReg .E)
  | 0x5C => do setR8 .E (← getReg .H)
  | 0x5D => do setR8 .E (← getReg .L)
  | 0x5E => do setR8 .E (← busRead (← readS (·.hl)))
  | 0x5F => do setR8 .E (← getReg .A)
  | _ => throwErr (Err.opcodeNotImplemented opcode)

/-- Cases 0x60 .. 0x6F of the switch in Cpu::execute; the default
is the switch's default. -/
def execRow6 (opcode : Nat) : M Unit :=
  match opcode with
  | 0x60 => do setR8 .H (← getReg .B)
  | 0x61 => do setR8 .H (← getReg .C)
  | 0x62 => do setR8 .H (← getReg .D)
  | 0x63 => do setR8 .H (← getReg .E)
  | 0x64 => do setR8 .H (← getReg .H)
  | 0x65 => do setR8 .H (← getReg .L)
  | 0x66 => do setR8 .H (← busRead (← readS (·.hl)))
  | 0x67 => do setR8 .H (← getReg .A)
  | 0x68 => do setR8 .L (← getReg .B)
  | 0x69 => do setR8 .L (← getReg .C)
  | 0x6A => do setR8 .L (← getReg .D)
  | 0x6B => do setR8 .L (← getReg .E)
  | 0x6C => do setR8 .L (← getReg .H)
  | 0x6D => do setR8 .L (← getReg .L)
  | 0x6E => do setR8 .L (← busRead (← readS (·.hl)))
  | 0x6F => do setR8 .L (← getReg .A)
  | _ => throwErr (Err.opcodeNotImplemented opcode)

/-- Cases 0x70 .. 0x7F of the switch in Cpu::execute; the default
is the switch's default. -/
def execRow7 (opcode : Nat) : M Unit :=
  match opcode with
  | 0x70 => do busWrite (← readS (·.hl)) (← getReg .B)
  | 0x71 => do busWrite (← readS (·.hl)) (← getReg .C)
  | 0x72 => do busWrite (← readS (·.hl)) (← getReg .D)
  | 0x73 => do busWrite (← readS (·.hl)) (← getReg .E)
  | 0x74 => do busWrite (← readS (·.hl)) (← getReg .H)
  | 0x75 => do busWrite (← readS (·.hl)) (← getReg .L)
  | 0x76 => do tick; tick
  | 0x77 => do busWrite (← readS (·.hl)) (← getReg .A)
  | 0x78 => do setR8 .A (← getReg .B)
  | 0x79 => do setR8 .A (← getReg .C)
  | 0x7A => do setR8 .A (← getReg .D)
  | 0x7B => do setR8 .A (← getReg .E)
  | 0x7C => do setR8 .A (← getReg .H)
  | 0x7D => do setR8 .A (← getReg .L)
  | 0x7E => do setR8 .A (← busRead (← readS (·.hl)))
  | 0x7F => do setR8 .A (← getReg .A)
  | _ => throwErr (Err.opcodeNotImplemented opcode)

/-- Cases 0x80 .. 0x8F of the switch in Cpu::execute; the default
is the switch's default. -/
def execRow8 (opcode : Nat) : M Unit :=
  match opcode with
  | 0x80 => do ADD8 (← getReg .B)
  | 0x81 => do ADD8 (← getReg .C)
  | 0x82 => do ADD8 (← getReg .D)
  | 0x83 => do ADD8 (← getReg .E)
  | 0x84 => do ADD8 (← getReg .H)
  | 0x85 => do ADD8 (← getReg .L)
  | 0x86 => do ADD8 (← busRead (← readS (·.hl)))
  | 0x87 => do ADD8 (← getReg .A)
  | 0x88 => do ADC8 (← getReg .B)
  | 0x89 => do ADC8 (← getReg .C)
  | 0x8A => do ADC8 (← getReg .D)
  | 0x8B => do ADC8 (← getReg .E)
  | 0x8C => do ADC8 (← getReg .H)
  | 0x8D => do ADC8 (← getReg .L)
  | 0x8E => do ADC8 (← busRead (← readS (·.hl)))
  | 0x8F => do ADC8 (← getReg .A)
  | _ => throwErr (Err.opcodeNotImplemented opcode)

/-- Cases 0x90 .. 0x9F of the switch in Cpu::execute; the default
is the switch's default. -/
def execRow9 (opcode : Nat) : M Unit :=
  match opcode with
  | 0x90 => do SUB8 (← getReg .B)
  | 0x91 => do SUB8 (← getReg .C)
  | 0x92 => do SUB8 (← getReg .D)
  | 0x93 => do SUB8 (← getReg .E)
  | 0x94 => do SUB8 (← getReg .H)
  | 0x95 => do SUB8 (← getReg .L)
  | 0x96 => do SUB8 (← busRead (← readS (·.hl)))
  | 0x97 => do SUB8 (← getReg .A)
  | 0x98 => do SBC8 (← getReg .B)
  | 0x99 => do SBC8 (← getReg .C)
  | 0x9A => do SBC8 (← getReg .D)
  | 0x9B => do SBC8 (← getReg .E)
  | 0x9C => do SBC8 (← getReg .H)
  | 0x9D => do SBC8 (← getReg .L)
  | 0x9E => do SBC8 (← busRead (← readS (·.hl)))
  | 0x9F => do SBC8 (← getReg .A)
  | _ => throwErr (Err.opcodeNotImplemented opcode)

/-- Cases 0xA0 .. 0xAF of the switch in Cpu::execute; the default
is the switch's default. -/
def execRowA (opcode : Nat) : M Unit :=
  match opcode with
  | 0xA0 => do AND8 (← getReg .B)
  | 0xA1 => do AND8 (← getReg .C)
  | 0xA2 => do AND8 (← getReg .D)
  | 0xA3 => do AND8 (← getReg .E)
  | 0xA4 => do AND8 (← getReg .H)
  | 0xA5 => do AND8 (← getReg .L)
  | 0xA6 => do AND8 (← busRead (← readS (·.hl)))
  | 0xA7 => do AND8 (← getReg .A)
  | 0xA8 => do XOR8 (← getReg .B)
  | 0xA9 => do XOR8 (← getReg .C)
  | 0xAA => do XOR8 (← getReg .D)
  | 0xAB => do XOR8 (← getReg .E)
  | 0xAC => do XOR8 (← getReg .H)
  | 0xAD => do XOR8 (← getReg .L)
  | 0xAE => do XOR8 (← busRead (← readS (·.hl)))
  | 0xAF => do XOR8 (← getReg .A)
  | _ => throwErr (Err.opcodeNotImplemented opcode)

/-- Cases 0xB0 .. 0xBF of the switch in Cpu::execute; the default
is the switch's default. -/
def execRowB (opcode : Nat) : M Unit :=
  match opcode with
  | 0xB0 => do OR8 (← getReg .B)
  | 0xB1 => do OR8 (← getReg .C)
  | 0xB2 => do OR8 (← getReg .D)
  | 0xB3 => do OR8 (← getReg .E)
  | 0xB4 => do OR8 (← getReg .H)
  | 0xB5 => do OR8 (← getReg .L)
  | 0xB6 => do OR8 (← busRead (← readS (·.hl)))
  | 0xB7 => do OR8 (← getReg .A)
  | 0xB8 => do CP8 (← getReg .B)
  | 0xB9 => do CP8 (← getReg .C)
  | 0xBA => do CP8 (← getReg .D)
  | 0xBB => do CP8 (← getReg .E)
  | 0xBC => do CP8 (← getReg .H)
  | 0xBD => do CP8 (← getReg .L)
  | 0xBE => do CP8 (← busRead (← readS (·.hl)))
  | 0xBF => do CP8 (← getReg .A)
  | _ => throwErr (Err.opcodeNotImplemented opcode)

/-- Cases 0xC0 .. 0xCF of the switch in Cpu::execute; the default
is the switch's default. -/
def execRowC (opcode : Nat) : M Unit :=
  match opcode with
  | 0xC0 => do RETc (!(← isSet ZERO))
  | 0xC1 => POP .BC
  | 0xC2 => do JPc (!(← isSet ZERO))
  | 0xC3 => JPc true
  | 0xC4 => do CALLc (!(← isSet ZERO))
  | 0xC5 => PUSH .BC
  | 0xC6 => do ADD8 (← readNextByteAndAdvance)
  | 0xC7 => RST 0x00
  | 0xC8 => do RETc (← isSet ZERO)
  | 0xC9 => RETu
  | 0xCA => do JPc (← isSet ZERO)
  | 0xCB => do
      let offsetPart ← readNextByteAndAdvance
      executeExtended ((0xCB <<< 8) ||| offsetPart)
  | 0xCC => do CALLc (← isSet ZERO)
  | 0xCD => CALLc true
  | 0xCE => do ADC8 (← readNextByteAndAdvance)
  | 0xCF => RST 0x08
  | _ => throwErr (Err.opcodeNotImplemented opcode)

/-- Cases 0xD0 .. 0xDF of the switch in Cpu::execute; the default
is the switch's default. -/
def execRowD (opcode : Nat) : M Unit :=
  match opcode with
  | 0xD0 => do RETc (!(← isSet CARRY))
  | 0xD1 => POP .DE
  | 0xD2 => do JPc (!(← isSet CARRY))
  | 0xD3 => throwErr (Err.illegalOpcode 0xD3)
  | 0xD4 => do CALLc (!(← isSet CARRY))
  | 0xD5 => PUSH .DE
  | 0xD6 => do SUB8 (← readNextByteAndAdvance)
  | 0xD7 => RST 0x10
  | 0xD8 => do RETc (← isSet CARRY)
  | 0xD9 => RETu
  | 0xDA => do JPc (← isSet CARRY)
  | 0xDB => throwErr (Err.illegalOpcode 0xDB)
  | 0xDC => do CALLc (← isSet CARRY)
  | 0xDD => throwErr (Err.illegalOpcode 0xDD)
  | 0xDE => do SBC8 (← readNextByteAndAdvance)
  | 0xDF => RST 0x18
  | _ => throwErr (Err.opcodeNotImplemented opcode)

/-- Cases 0xE0 .. 0xEF of the switch in Cpu::execute; the default
is the switch's default. -/
def execRowE (opcode : Nat) : M Unit :=
  match opcode with
  | 0xE0 => do
      let offset ← readNextByteAndAdvance
      busWrite (0xFF00 + offset) (← getReg .A)
  | 0xE1 => POP .HL
  | 0xE2 => do busWrite (0xFF00 + (← getReg .C)) (← getReg .A)
  | 0xE3 => throwErr (Err.illegalOpcode 0xE3)
  | 0xE4 => throwErr (Err.illegalOpcode 0xE4)
  | 0xE5 => PUSH .HL
  | 0xE6 => do AND8 (← readNextByteAndAdvance)
  | 0xE7 => RST 0x20
  | 0xE8 => do
      let shift ← readNextByteAndAdvance
      let oldValue ← readS (·.sp)
      tick
      setSPlower (((oldValue + sx8 shift) % 65536) &&& 0xFF)
      tick
      setSPupper ((((oldValue + sx8 shift) % 65536) >>> 8) &&& 0xFF)
      setFlag ZERO false
      setFlag NEGATIVE false
      setFlag HALF_CARRY (((oldValue ^^^ sx8 shift ^^^ ((oldValue + sx8 shift) % 65536)) &&& 0x10) == 0x10)
      setFlag CARRY (((oldValue ^^^ sx8 shift ^^^ ((oldValue + sx8 shift) % 65536)) &&& 0x100) == 0x100)
  | 0xE9 => do setPC (← readS (·.hl))
  | 0xEA => do
      let lo ← readNextByteAndAdvance
      let hi ← readNextByteAndAdvance
      busWrite ((hi <<< 8) ||| lo) (← getReg .A)
  | 0xEB => throwErr (Err.illegalOpcode 0xEB)
  | 0xEC => throwErr (Err.illegalOpcode 0xEC)
  | 0xED => throwErr (Err.illegalOpcode 0xED)
  | 0xEE => do XOR8 (← readNextByteAndAdvance)
  | 0xEF => RST 0x28
  | _ => throwErr (Err.opcodeNotImplemented opcode)

/-- Cases 0xF0 .. 0xFF of the switch in Cpu::execute; the default
is the switch's default. -/
def execRowF (opcode : Nat) : M Unit :=
  match opcode with
  | 0xF0 => do
      let offset ← readNextByteAndAdvance
      setR8 .A (← busRead (0xFF00 + offset))
  | 0xF1 => POPAF
  | 0xF2 => do setR8 .A (← busRead (0xFF00 + (← getReg .C)))
  | 0xF3 => pure ()
  | 0xF4 => throwErr (Err.illegalOpcode 0xF4)
  | 0xF5 => PUSH .AF
  | 0xF6 => do OR8 (← readNextByteAndAdvance)
  | 0xF7 => RST 0x30
  | 0xF8 => do
      let shift ← readNextByteAndAdvance
      let oldValue ← readS (·.sp)
      setR8 .L (((oldValue + sx8 shift) % 65536) &&& 0xFF)
      tick
      setR8 .H ((((oldValue + sx8 shift) % 65536) >>> 8) &&& 0xFF)
      setFlag ZERO false
      setFlag NEGATIVE false
      setFlag HALF_CARRY (((oldValue ^^^ sx8 shift ^^^ ((oldValue + sx8 shift) % 65536)) &&& 0x10) == 0x10)
      setFlag CARRY (((oldValue ^^^ sx8 shift ^^^ ((oldValue + sx8 shift) % 65536)) &&& 0x100) == 0x100)
  | 0xF9 => do tick; setSP (← readS (·.hl))
  | 0xFA => do
      let lo ← readNextByteAndAdvance
      let hi ← readNextByteAndAdvance
      setR8 .A (← busRead ((hi <<< 8) ||| lo))
  | 0xFB => pure ()
  | 0xFC => throwErr (Err.illegalOpcode 0xFC)
  | 0xFD => throwErr (Err.illegalOpcode 0xFD)
  | 0xFE => do CP8 (← readNextByteAndAdvance)
  | 0xFF => RST 0x38
  | _ => throwErr (Err.opcodeNotImplemented opcode)

/-- Cpu::execute: the 256-way switch over the primary opcodes.  The flat
switch of the source is split here by the high nibble into the sixteen
execRow functions; the per-opcode bodies are verbatim and every opcode
(also every out-of-range one) reaches exactly the same case or default
as in the flat switch (the reserved bytes throw IllegalOpcodeException). -/
def execute (opcode : Nat) : M Unit :=
  match opcode >>> 4 with
  | 0x0 => execRow0 opcode
  | 0x1 => execRow1 opcode
  | 0x2 => execRow2 opcode
  | 0x3 => execRow3 opcode
  | 0x4 => execRow4 opcode
  | 0x5 => execRow5 opcode
  | 0x6 => execRow6 opcode
  | 0x7 => execRow7 opcode
  | 0x8 => execRow8 opcode
  | 0x9 => execRow9 opcode
  | 0xA => execRowA opcode
  | 0xB => execRowB opcode
  | 0xC => execRowC opcode
  | 0xD => execRowD opcode
  | 0xE => execRowE opcode
  | 0xF => execRowF opcode
  | _ => throwErr (Err.opcodeNotImplemented opcode)

/-- Cpu::step: fetch one opcode byte and execute it. -/
def step : M Unit := do
  let opcode ← readNextByteAndAdvance
  execute opcode

/-- Invariant carried through every action of the core: the low nibble of
F is either exactly preserved or forced to zero, and the action never
fails with OpcodeNotImplementedException. -/
def Preserving {α : Type} (m : M α) : Prop :=
  ∀ s : Cpu,
    ((m s).2.1.f % 16 = 0 ∨ (m s).2.1.f % 16 = s.f % 16) ∧
      ∀ t : Nat, (m s).1 ≠ Except.error (Err.opcodeNotImplemented t)

/-- Carry-in value of ADC as a natural number. -/
def adcCin (s : Cpu) : Nat := if isSetF s CARRY then 1 else 0

/-- Memory holding 0x8F at 0x0100. -/
def oneOpMem8F : Nat → Nat := fun a => if a = 0x0100 then 0x8F else 0

/-- Concrete ADC scenario state: A=0x80, F=0x10, opcode 0x8F at 0x0100. -/
def adcS : Cpu :=
  reset { A := 0x80, F := 0x10, SP := 0xFFFE, PC := 0x0100 } oneOpMem8F

/-- The POP instruction body that matches a PUSH of pair p: opcode 0xF1
runs POPAF, the other three pairs run the generic POP. -/
def popInstr (p : PR) : M Unit :=
  match p with
  | .AF => POPAF
  | _ => POP p

/-- The all-zero bus used for concrete scenarios. -/
def zeroMem : Nat → Nat := fun _ => 0

/-- The eleven reserved opcode bytes of the SM83. -/
def illegalBytes : List Nat :=
  [0xD3, 0xDB, 0xDD, 0xE3, 0xE4, 0xEB, 0xEC, 0xED, 0xF4, 0xFC, 0xFD]

/-- A sample well-formed machine state used by the witnesses. -/
def sampleS : Cpu :=
  { a := 0x12, b := 0x34, c := 0x56, d := 0x78, e := 0x9A, f := 0xB0
  , h := 0xC0, l := 0xDE, sp := 0xFFF0, pc := 0x0100, mem := zeroMem }

/-- Memory with a single interesting byte at 0x0100. -/
def oneOpMem (op : Nat) : Nat → Nat := fun a => if a = 0x0100 then op else 0

/-- Sample state whose next opcode is HALT. -/
def haltS : Cpu := { sampleS with mem := oneOpMem 0x76 }

/-- Sample state whose next opcode is the reserved byte 0xD3. -/
def illS : Cpu := { sampleS with mem := oneOpMem 0xD3 }

/-- Opcode of INC rr for each 16-bit target. -/
def inc16op (t : R16) : Nat :=
  match t with
  | .BC => 0x03
  | .DE => 0x13
  | .HL => 0x23
  | .SP => 0x33

/-- Opcode of DEC rr for each 16-bit target. -/
def dec16op (t : R16) : Nat :=
  match t with
  | .BC => 0x0B
  | .DE => 0x1B
  | .HL => 0x2B
  | .SP => 0x3B

/-- Branch condition tested by the four RET cc opcodes. -/
def retccCond (op : Nat) (s : Cpu) : Bool :=
  match op with
  | 0xC0 => !(isSetF s ZERO)
  | 0xC8 => isSetF s ZERO
  | 0xD0 => !(isSetF s CARRY)
  | _ => isSetF s CARRY

/-- Sample state whose next opcode is LD (HL+),A. -/
def hlS : Cpu := { sampleS with mem := oneOpMem 0x22 }

/-- Sample state whose next opcode is ADD SP,e with displacement 5. -/
def addSpS : Cpu :=
  { sampleS with mem := fun a => if a = 0x0100 then 0xE8 else if a = 0x0101 then 0x05 else 0 }

/-- Sample state whose next opcode is RET NZ. -/
def retS : Cpu := { sampleS with mem := oneOpMem 0xC0 }

/-- Sample state whose next opcode is INC BC. -/
def inc16S : Cpu := { sampleS with mem := oneOpMem 0x03 }

theorem testBit_mod16 (x i : Nat) : (x % 16).testBit i = (decide (i < 4) && x.testBit i) := by
  simpa using Nat.testBit_mod_two_pow x 4 i

theorem land_mod16 (x y : Nat) : (x &&& y) % 16 = (x % 16) &&& (y % 16) := by
  apply Nat.eq_of_testBit_eq
  intro i
  simp only [testBit_mod16, Nat.testBit_and]
  cases decide (i < 4) <;> simp

theorem lor_mod16 (x y : Nat) : (x ||| y) % 16 = (x % 16) ||| (y % 16) := by
  apply Nat.eq_of_testBit_eq
  intro i
  simp only [testBit_mod16, Nat.testBit_or]
  cases decide (i < 4) <;> simp

theorem xor_mod16 (x y : Nat) : (x ^^^ y) % 16 = (x % 16) ^^^ (y % 16) := by
  apply Nat.eq_of_testBit_eq
  intro i
  simp only [testBit_mod16, Nat.testBit_xor]
  cases decide (i < 4) <;> simp

theorem land15 (x : Nat) : x % 16 &&& 15 = x % 16 := by
  have h := Nat.and_pow_two_sub_one_eq_mod (x % 16) 4
  norm_num at h
  omega

theorem setFlagVal_mod16 (f flag : Nat) (hflag : flag % 16 = 0) (b : Bool) :
    setFlagVal f flag b % 16 = f % 16 := by
  unfold setFlagVal
  rw [lor_mod16, land_mod16, xor_mod16, hflag]
  cases b
  · simp [land15]
  · simp [land15, hflag]

theorem pres_bind {α β : Type} {m : M α} {k : α → M β}
    (hm : Preserving m) (hk : ∀ x, Preserving (k x)) : Preserving (m >>= k) := by
  intro s
  rcases hx : m s with ⟨r, s1, t1⟩
  have h1 := hm s
  rw [hx] at h1
  cases r with
  | ok x =>
      rcases hy : k x s1 with ⟨r2, s2, t2⟩
      have h2 := hk x s1
      rw [hy] at h2
      have hrun : (m >>= k) s = (r2, s2, t1 ++ t2) := by
        show M.bind m k s = _
        simp [M.bind, hx, hy]
      rw [hrun]
      refine ⟨?_, fun t => h2.2 t⟩
      rcases h2.1 with h | h
      · exact Or.inl h
      · rcases h1.1 with h' | h'
        · exact Or.inl (h.trans h')
        · exact Or.inr (h.trans h')
  | error err =>
      have hrun : (m >>= k) s = (Except.error err, s1, t1) := by
        show M.bind m k s = _
        simp [M.bind, hx]
      rw [hrun]
      refine ⟨h1.1, fun t heq => ?_⟩
      have herr : err = Err.opcodeNotImplemented t := by simpa using heq
      exact h1.2 t (by simp [herr])

theorem pres_ite {α : Type} (c : Prop) [Decidable c] {t e : M α}
    (ht : Preserving t) (he : Preserving e) : Preserving (if c then t else e) := by
  by_cases h : c
  · simpa [h] using ht
  · simpa [h] using he

theorem pres_pure {α : Type} (x : α) : Preserving (pure x : M α) := by
  intro s
  exact ⟨Or.inr rfl, fun t => by simp [Pure.pure, M.pure]⟩

theorem pres_readS {α : Type} (g : Cpu → α) : Preserving (readS g) := by
  intro s
  exact ⟨Or.inr rfl, fun t => by simp [readS]⟩

theorem pres_tick : Preserving tick := by
  intro s
  exact ⟨Or.inr rfl, fun t => by simp [tick]⟩

theorem pres_busRead (addr : Nat) : Preserving (busRead addr) := by
  intro s
  exact ⟨Or.inr rfl, fun t => by simp [busRead]⟩

theorem pres_busWrite (addr v : Nat) : Preserving (busWrite addr v) := by
  intro s
  exact ⟨Or.inr (by simp [busWrite]), fun t => by simp [busWrite]⟩

theorem pres_throwIllegal (n : Nat) : Preserving (throwErr (α := Unit) (Err.illegalOpcode n)) := by
  intro s
  refine ⟨Or.inr rfl, fun t => ?_⟩
  simp [throwErr]

theorem pres_setR8 (r : R8) (v : Nat) : Preserving (setR8 r v) := by
  intro s
  refine ⟨Or.inr ?_, fun t => ?_⟩
  · cases r <;> simp [setR8, modS]
  · cases r <;> simp [setR8, modS]

theorem pres_setSP (v : Nat) : Preserving (setSP v) := by
  intro s
  exact ⟨Or.inr (by simp [setSP, modS]), fun t => by simp [setSP, modS]⟩

theorem pres_setPC (v : Nat) : Preserving (setPC v) := by
  intro s
  exact ⟨Or.inr (by simp [setPC, modS]), fun t => by simp [setPC, modS]⟩

theorem pres_incSP : Preserving incSP := by
  intro s
  exact ⟨Or.inr (by simp [incSP, modS]), fun t => by simp [incSP, modS]⟩

theorem pres_decSP : Preserving decSP := by
  intro s
  exact ⟨Or.inr (by simp [decSP, modS]), fun t => by simp [decSP, modS]⟩

theorem pres_setSPlower (v : Nat) : Preserving (setSPlower v) := by
  intro s
  exact ⟨Or.inr (by simp [setSPlower, modS]), fun t => by simp [setSPlower, modS]⟩

theorem pres_setSPupper (v : Nat) : Preserving (setSPupper v) := by
  intro s
  exact ⟨Or.inr (by simp [setSPupper, modS]), fun t => by simp [setSPupper, modS]⟩

theorem pres_setFlag (flag : Nat) (hflag : flag % 16 = 0) (b : Bool) :
    Preserving (setFlag flag b) := by
  intro s
  refine ⟨Or.inr ?_, fun t => by simp [setFlag, modS]⟩
  simp [setFlag, modS, setFlagVal_mod16 _ _ hflag]

theorem pres_setFlagZ (b : Bool) : Preserving (setFlag ZERO b) :=
  pres_setFlag ZERO (by norm_num [ZERO]) b

theorem pres_setFlagN (b : Bool) : Preserving (setFlag NEGATIVE b) :=
  pres_setFlag NEGATIVE (by norm_num [NEGATIVE]) b

theorem pres_setFlagH (b : Bool) : Preserving (setFlag HALF_CARRY b) :=
  pres_setFlag HALF_CARRY (by norm_num [HALF_CARRY]) b

theorem pres_setFlagC (b : Bool) : Preserving (setFlag CARRY b) :=
  pres_setFlag CARRY (by norm_num [CARRY]) b

theorem pres_isSet (flag : Nat) : Preserving (isSet flag) := pres_readS _

theorem pres_getReg (r : R8) : Preserving (getReg r) := pres_readS _

theorem pres_setFmasked (v : Nat) : Preserving (setF (v &&& 0xF0)) := by
  intro s
  refine ⟨Or.inl ?_, fun t => by simp [setF, modS]⟩
  show (v &&& 0xF0) % 256 % 16 = 0
  rw [Nat.mod_mod_of_dvd _ (by norm_num), land_mod16]
  norm_num

theorem pres_advPC : Preserving (modS fun s => { s with pc := (s.pc + 1) % 65536 }) := by
  intro s
  exact ⟨Or.inr (by simp [modS]), fun t => by simp [modS]⟩

theorem pres_rnba : Preserving readNextByteAndAdvance :=
  pres_bind (pres_readS _) fun oldPC => pres_bind pres_advPC fun _ => pres_busRead _

theorem pres_set16lo (t : R16) (v : Nat) : Preserving (set16lo t v) := by
  cases t
  · exact pres_setR8 _ _
  · exact pres_setR8 _ _
  · exact pres_setR8 _ _
  · exact pres_setSPlower _

theorem pres_set16hi (t : R16) (v : Nat) : Preserving (set16hi t v) := by
  cases t
  · exact pres_setR8 _ _
  · exact pres_setR8 _ _
  · exact pres_setR8 _ _
  · exact pres_setSPupper _

theorem pres_INC16 (t : R16) : Preserving (INC16 t) :=
  pres_bind (pres_readS _) fun _ => pres_bind (pres_set16lo _ _) fun _ => pres_bind (pres_tick) fun _ => pres_set16hi _ _

theorem pres_DEC16 (t : R16) : Preserving (DEC16 t) :=
  pres_bind (pres_readS _) fun _ => pres_bind (pres_set16lo _ _) fun _ => pres_bind (pres_tick) fun _ => pres_set16hi _ _

theorem pres_INC8 (r : R8) : Preserving (INC8 r) :=
  pres_bind (pres_getReg _) fun _ => pres_bind (pres_setR8 _ _) fun _ => pres_bind (pres_setFlagZ _) fun _ => pres_bind (pres_setFlagN _) fun _ => pres_setFlagH _

theorem pres_DEC8 (r : R8) : Preserving (DEC8 r) :=
  pres_bind (pres_getReg _) fun _ => pres_bind (pres_setR8 _ _) fun _ => pres_bind (pres_setFlagZ _) fun _ => pres_bind (pres_setFlagN _) fun _ => pres_setFlagH _

theorem pres_ADD8 (v : Nat) : Preserving (ADD8 v) :=
  pres_bind (pres_getReg _) fun _ => pres_bind (pres_setR8 _ _) fun _ => pres_bind (pres_setFlagZ _) fun _ => pres_bind (pres_setFlagN _) fun _ => pres_bind (pres_setFlagH _) fun _ => pres_setFlagC _

theorem pres_ADC8 (v : Nat) : Preserving (ADC8 v) :=
  pres_bind (pres_getReg _) fun _ => pres_bind (pres_isSet _) fun _ => pres_bind (pres_setR8 _ _) fun _ => pres_bind (pres_setFlagZ _) fun _ => pres_bind (pres_setFlagN _) fun _ => pres_bind (pres_setFlagH _) fun _ => pres_setFlagC _

theorem pres_SUB8 (v : Nat) : Preserving (SUB8 v) :=
  pres_bind (pres_getReg _) fun _ => pres_bind (pres_setR8 _ _) fun _ => pres_bind (pres_setFlagZ _) fun _ => pres_bind (pres_setFlagN _) fun _ => pres_bind (pres_setFlagH _) fun _ => pres_setFlagC _

theorem pres_SBC8 (v : Nat) : Preserving (SBC8 v) :=
  pres_bind (pres_getReg _) fun _ => pres_bind (pres_isSet _) fun _ => pres_bind (pres_setR8 _ _) fun _ => pres_bind (pres_setFlagZ _) fun _ => pres_bind (pres_setFlagN _) fun _ => pres_bind (pres_setFlagH _) fun _ => pres_setFlagC _

theorem pres_AND8 (v : Nat) : Preserving (AND8 v) :=
  pres_bind (pres_getReg _) fun _ => pres_bind (pres_setR8 _ _) fun _ => pres_bind (pres_setFlagZ _) fun _ => pres_bind (pres_setFlagN _) fun _ => pres_bind (pres_setFlagH _) fun _ => pres_setFlagC _

theorem pres_XOR8 (v : Nat) : Preserving (XOR8 v) :=
  pres_bind (pres_getReg _) fun _ => pres_bind (pres_setR8 _ _) fun _ => pres_bind (pres_setFlagZ _) fun _ => pres_bind (pres_setFlagN _) fun _ => pres_bind (pres_setFlagH _) fun _ => pres_setFlagC _

theorem pres_OR8 (v : Nat) : Preserving (OR8 v) :=
  pres_bind (pres_getReg _) fun _ => pres_bind (pres_setR8 _ _) fun _ => pres_bind (pres_setFlagZ _) fun _ => pres_bind (pres_setFlagN _) fun _ => pres_bind (pres_setFlagH _) fun _ => pres_setFlagC _

theorem pres_CP8 (v : Nat) : Preserving (CP8 v) :=
  pres_bind (pres_getReg _) fun _ => pres_bind (pres_setFlagZ _) fun _ => pres_bind (pres_setFlagN _) fun _ => pres_bind (pres_setFlagH _) fun _ => pres_setFlagC _

theorem pres_ADDHL (v : Nat) : Preserving (ADDHL v) :=
  pres_bind (pres_readS _) fun _ => pres_bind (pres_setR8 _ _) fun _ => pres_bind (pres_tick) fun _ => pres_bind (pres_setR8 _ _) fun _ => pres_bind (pres_setFlagN _) fun _ => pres_bind (pres_setFlagH _) fun _ => pres_setFlagC _

theorem pres_JRc (b : Bool) : Preserving (JRc b) :=
  pres_bind pres_rnba fun n =>
    pres_ite _ (pres_bind pres_tick fun _ => pres_bind (pres_readS _) fun _ => pres_setPC _)
      (pres_pure _)

theorem pres_JPc (b : Bool) : Preserving (JPc b) :=
  pres_bind pres_rnba fun lo => pres_bind pres_rnba fun hi =>
    pres_ite _ (pres_bind pres_tick fun _ => pres_setPC _) (pres_pure _)

theorem pres_CALLc (b : Bool) : Preserving (CALLc b) :=
  pres_bind pres_rnba fun lo => pres_bind pres_rnba fun hi =>
    pres_ite _
      (pres_bind pres_tick fun _ => pres_bind pres_decSP fun _ =>
        pres_bind (pres_readS _) fun _ => pres_bind (pres_readS _) fun _ =>
          pres_bind (pres_busWrite _ _) fun _ => pres_bind pres_decSP fun _ =>
            pres_bind (pres_readS _) fun _ => pres_bind (pres_readS _) fun _ =>
              pres_bind (pres_busWrite _ _) fun _ => pres_setPC _)
      (pres_pure _)

theorem pres_RETu  : Preserving (RETu) :=
  pres_bind (pres_readS _) fun _ => pres_bind (pres_incSP) fun _ => pres_bind (pres_busRead _) fun _ => pres_bind (pres_readS _) fun _ => pres_bind (pres_incSP) fun _ => pres_bind (pres_busRead _) fun _ => pres_bind (pres_tick) fun _ => pres_setPC _

theorem pres_RETc (b : Bool) : Preserving (RETc b) :=
  pres_bind pres_tick fun _ => pres_ite _ pres_RETu (pres_pure _)

theorem pres_RST (v : Nat) : Preserving (RST v) :=
  pres_bind pres_tick fun _ => pres_bind pres_decSP fun _ =>
    pres_bind (pres_readS _) fun _ => pres_bind (pres_readS _) fun _ =>
      pres_bind (pres_busWrite _ _) fun _ => pres_bind pres_decSP fun _ =>
        pres_bind (pres_readS _) fun _ => pres_bind (pres_readS _) fun _ =>
          pres_bind (pres_busWrite _ _) fun _ => pres_setPC _

theorem pres_PUSH (pr : PR) : Preserving (PUSH pr) :=
  pres_bind pres_tick fun _ => pres_bind pres_decSP fun _ =>
    pres_bind (pres_readS _) fun _ => pres_bind (pres_readS _) fun _ =>
      pres_bind (pres_busWrite _ _) fun _ => pres_bind pres_decSP fun _ =>
        pres_bind (pres_readS _) fun _ => pres_bind (pres_readS _) fun _ =>
          pres_busWrite _ _

theorem pres_prHiSet (pr : PR) (v : Nat) : Preserving (prHiSet pr v) := by
  cases pr <;> exact pres_setR8 _ _

theorem pres_prLoSetBC (v : Nat) : Preserving (prLoSet PR.BC v) := pres_setR8 _ _

theorem pres_prLoSetDE (v : Nat) : Preserving (prLoSet PR.DE v) := pres_setR8 _ _

theorem pres_prLoSetHL (v : Nat) : Preserving (prLoSet PR.HL v) := pres_setR8 _ _

theorem pres_POPBC : Preserving (POP PR.BC) :=
  pres_bind (pres_readS _) fun _ => pres_bind pres_incSP fun _ =>
    pres_bind (pres_busRead _) fun _ => pres_bind (pres_prLoSetBC _) fun _ =>
      pres_bind (pres_readS _) fun _ => pres_bind pres_incSP fun _ =>
        pres_bind (pres_busRead _) fun _ => pres_prHiSet _ _

theorem pres_POPDE : Preserving (POP PR.DE) :=
  pres_bind (pres_readS _) fun _ => pres_bind pres_incSP fun _ =>
    pres_bind (pres_busRead _) fun _ => pres_bind (pres_prLoSetDE _) fun _ =>
      pres_bind (pres_readS _) fun _ => pres_bind pres_incSP fun _ =>
        pres_bind (pres_busRead _) fun _ => pres_prHiSet _ _

theorem pres_POPHL : Preserving (POP PR.HL) :=
  pres_bind (pres_readS _) fun _ => pres_bind pres_incSP fun _ =>
    pres_bind (pres_busRead _) fun _ => pres_bind (pres_prLoSetHL _) fun _ =>
      pres_bind (pres_readS _) fun _ => pres_bind pres_incSP fun _ =>
        pres_bind (pres_busRead _) fun _ => pres_prHiSet _ _

theorem pres_POPAF : Preserving POPAF :=
  pres_bind (pres_readS _) fun _ => pres_bind pres_incSP fun _ =>
    pres_bind (pres_busRead _) fun _ => pres_bind (pres_setFmasked _) fun _ =>
      pres_bind (pres_readS _) fun _ => pres_bind pres_incSP fun _ =>
        pres_bind (pres_busRead _) fun _ => pres_setR8 _ _

theorem pres_shiftFlags (result : Nat) (carry : Bool) : Preserving (shiftFlags result carry) :=
  pres_bind (pres_setFlagZ _) fun _ => pres_bind (pres_setFlagN _) fun _ => pres_bind (pres_setFlagH _) fun _ => pres_setFlagC _

theorem pres_RLCr (r : R8) : Preserving (RLCr r) :=
  pres_bind (pres_getReg _) fun _ => pres_bind (pres_setR8 _ _) fun _ => pres_shiftFlags _ _

theorem pres_RLCm (a : Nat) : Preserving (RLCm a) :=
  pres_bind (pres_busRead _) fun _ => pres_bind (pres_shiftFlags _ _) fun _ => pres_busWrite _ _

theorem pres_RRCr (r : R8) : Preserving (RRCr r) :=
  pres_bind (pres_getReg _) fun _ => pres_bind (pres_setR8 _ _) fun _ => pres_shiftFlags _ _

theorem pres_RRCm (a : Nat) : Preserving (RRCm a) :=
  pres_bind (pres_busRead _) fun _ => pres_bind (pres_shiftFlags _ _) fun _ => pres_busWrite _ _

theorem pres_SLAr (r : R8) : Preserving (SLAr r) :=
  pres_bind (pres_getReg _) fun _ => pres_bind (pres_setR8 _ _) fun _ => pres_shiftFlags _ _

theorem pres_SLAm (a : Nat) : Preserving (SLAm a) :=
  pres_bind (pres_busRead _) fun _ => pres_bind (pres_shiftFlags _ _) fun _ => pres_busWrite _ _

theorem pres_SRAr (r : R8) : Preserving (SRAr r) :=
  pres_bind (pres_getReg _) fun _ => pres_bind (pres_setR8 _ _) fun _ => pres_shiftFlags _ _

theorem pres_SRAm (a : Nat) : Preserving (SRAm a) :=
  pres_bind (pres_busRead _) fun _ => pres_bind (pres_shiftFlags _ _) fun _ => pres_busWrite _ _

theorem pres_SWAPr (r : R8) : Preserving (SWAPr r) :=
  pres_bind (pres_getReg _) fun _ => pres_bind (pres_setR8 _ _) fun _ => pres_shiftFlags _ _

theorem pres_SWAPm (a : Nat) : Preserving (SWAPm a) :=
  pres_bind (pres_busRead _) fun _ => pres_bind (pres_shiftFlags _ _) fun _ => pres_busWrite _ _

theorem pres_SRLr (r : R8) : Preserving (SRLr r) :=
  pres_bind (pres_getReg _) fun _ => pres_bind (pres_setR8 _ _) fun _ => pres_shiftFlags _ _

theorem pres_SRLm (a : Nat) : Preserving (SRLm a) :=
  pres_bind (pres_busRead _) fun _ => pres_bind (pres_shiftFlags _ _) fun _ => pres_busWrite _ _

theorem pres_RLr (r : R8) : Preserving (RLr r) :=
  pres_bind (pres_getReg _) fun _ => pres_bind (pres_isSet _) fun _ => pres_bind (pres_setR8 _ _) fun _ => pres_shiftFlags _ _

theorem pres_RLm (a : Nat) : Preserving (RLm a) :=
  pres_bind (pres_busRead _) fun _ => pres_bind (pres_isSet _) fun _ => pres_bind (pres_shiftFlags _ _) fun _ => pres_busWrite _ _

theorem pres_RRr (r : R8) : Preserving (RRr r) :=
  pres_bind (pres_getReg _) fun _ => pres_bind (pres_isSet _) fun _ => pres_bind (pres_setR8 _ _) fun _ => pres_shiftFlags _ _

theorem pres_RRm (a : Nat) : Preserving (RRm a) :=
  pres_bind (pres_busRead _) fun _ => pres_bind (pres_isSet _) fun _ => pres_bind (pres_shiftFlags _ _) fun _ => pres_busWrite _ _

theorem pres_BITflags (bit value : Nat) : Preserving (BITflags bit value) :=
  pres_bind (pres_setFlagZ _) fun _ => pres_bind (pres_setFlagN _) fun _ => pres_setFlagH _

theorem pres_BITr (bit : Nat) (r : R8) : Preserving (BITr bit r) :=
  pres_bind (pres_getReg _) fun _ => pres_BITflags _ _

theorem pres_BITm (bit a : Nat) : Preserving (BITm bit a) :=
  pres_bind (pres_busRead _) fun _ => pres_BITflags _ _

theorem pres_RESr (bit : Nat) (r : R8) : Preserving (RESr bit r) :=
  pres_bind (pres_getReg _) fun _ => pres_setR8 _ _

theorem pres_RESm (bit a : Nat) : Preserving (RESm bit a) :=
  pres_bind (pres_busRead _) fun _ => pres_busWrite _ _

theorem pres_SETr (bit : Nat) (r : R8) : Preserving (SETr bit r) :=
  pres_bind (pres_getReg _) fun _ => pres_setR8 _ _

theorem pres_SETm (bit a : Nat) : Preserving (SETm bit a) :=
  pres_bind (pres_busRead _) fun _ => pres_busWrite _ _

theorem pres_DAA : Preserving DAA := by
  unfold DAA
  refine pres_bind (pres_readS _) fun s0 => ?_
  refine pres_ite _ ?_ ?_
  · exact pres_bind (pres_setR8 _ _) fun _ => pres_bind (pres_setFlagZ _) fun _ =>
      pres_setFlagH _
  · dsimp only []
    refine pres_ite _ ?_ ?_
    · exact pres_bind (pres_setFlagC _) fun _ => pres_bind (pres_setR8 _ _) fun _ =>
        pres_bind (pres_setFlagZ _) fun _ => pres_setFlagH _
    · exact pres_bind (pres_pure _) fun _ => pres_bind (pres_setR8 _ _) fun _ =>
        pres_bind (pres_setFlagZ _) fun _ => pres_setFlagH _

theorem rnba_run (s : Cpu) :
    readNextByteAndAdvance s =
      (Except.ok (s.mem (s.pc % 65536) % 256), { s with pc := (s.pc + 1) % 65536 },
        [⟨EvKind.rd (s.pc % 65536) (s.mem (s.pc % 65536) % 256),
          { s with pc := (s.pc + 1) % 65536 }⟩]) := by
  simp [readNextByteAndAdvance, readS, modS, busRead, Bind.bind, M.bind]

theorem rnba_then_pres {β : Type} {k : Nat → M β}
    (hk : ∀ x, x < 256 → Preserving (k x)) :
    Preserving (readNextByteAndAdvance >>= k) := by
  intro s
  rcases hy : k (s.mem (s.pc % 65536) % 256) { s with pc := (s.pc + 1) % 65536 } with ⟨r2, s2, t2⟩
  have hrun : (readNextByteAndAdvance >>= k) s =
      (r2, s2,
        ⟨EvKind.rd (s.pc % 65536) (s.mem (s.pc % 65536) % 256),
          { s with pc := (s.pc + 1) % 65536 }⟩ :: t2) := by
    show M.bind _ _ s = _
    simp [M.bind, rnba_run, hy]
  have h2 := hk (s.mem (s.pc % 65536) % 256) (Nat.mod_lt _ (by norm_num))
      { s with pc := (s.pc + 1) % 65536 }
  rw [hy] at h2
  rw [hrun]
  refine ⟨?_, fun t => h2.2 t⟩
  rcases h2.1 with h | h
  · exact Or.inl h
  · exact Or.inr (by simpa using h)

theorem cb_lor : ∀ b : Nat, b < 256 → (0xCB <<< 8) ||| b = 0xCB00 + b := by decide

theorem extRow0_pres (r : Nat) (hr : r < 16) : Preserving (extRow0 (0xCB00 + r)) :=
  match r, hr with
  | 0, _ => pres_RLCr _
  | 1, _ => pres_RLCr _
  | 2, _ => pres_RLCr _
  | 3, _ => pres_RLCr _
  | 4, _ => pres_RLCr _
  | 5, _ => pres_RLCr _
  | 6, _ => pres_bind (pres_readS _) fun _ => pres_RLCm _
  | 7, _ => pres_RLCr _
  | 8, _ => pres_RRCr _
  | 9, _ => pres_RRCr _
  | 10, _ => pres_RRCr _
  | 11, _ => pres_RRCr _
  | 12, _ => pres_RRCr _
  | 13, _ => pres_RRCr _
  | 14, _ => pres_bind (pres_readS _) fun _ => pres_RRCm _
  | 15, _ => pres_RRCr _
  | n + 16, hr => absurd hr (by omega)

theorem extRow1_pres (r : Nat) (hr : r < 16) : Preserving (extRow1 (0xCB10 + r)) :=
  match r, hr with
  | 0, _ => pres_RLr _
  | 1, _ => pres_RLr _
  | 2, _ => pres_RLr _
  | 3, _ => pres_RLr _
  | 4, _ => pres_RLr _
  | 5, _ => pres_RLr _
  | 6, _ => pres_bind (pres_readS _) fun _ => pres_RLm _
  | 7, _ => pres_RLr _
  | 8, _ => pres_RRr _
  | 9, _ => pres_RRr _
  | 10, _ => pres_RRr _
  | 11, _ => pres_RRr _
  | 12, _ => pres_RRr _
  | 13, _ => pres_RRr _
  | 14, _ => pres_bind (pres_readS _) fun _ => pres_RRm _
  | 15, _ => pres_RRr _
  | n + 16, hr => absurd hr (by omega)

theorem extRow2_pres (r : Nat) (hr : r < 16) : Preserving (extRow2 (0xCB20 + r)) :=
  match r, hr with
  | 0, _ => pres_SLAr _
  | 1, _ => pres_SLAr _
  | 2, _ => pres_SLAr _
  | 3, _ => pres_SLAr _
  | 4, _ => pres_SLAr _
  | 5, _ => pres_SLAr _
  | 6, _ => pres_bind (pres_readS _) fun _ => pres_SLAm _
  | 7, _ => pres_SLAr _
  | 8, _ => pres_SRAr _
  | 9, _ => pres_SRAr _
  | 10, _ => pres_SRAr _
  | 11, _ => pres_SRAr _
  | 12, _ => pres_SRAr _
  | 13, _ => pres_SRAr _
  | 14, _ => pres_bind (pres_readS _) fun _ => pres_SRAm _
  | 15, _ => pres_SRAr _
  | n + 16, hr => absurd hr (by omega)

theorem extRow3_pres (r : Nat) (hr : r < 16) : Preserving (extRow3 (0xCB30 + r)) :=
  match r, hr with
  | 0, _ => pres_SWAPr _
  | 1, _ => pres_SWAPr _
  | 2, _ => pres_SWAPr _
  | 3, _ => pres_SWAPr _
  | 4, _ => pres_SWAPr _
  | 5, _ => pres_SWAPr _
  | 6, _ => pres_bind (pres_readS _) fun _ => pres_SWAPm _
  | 7, _ => pres_SWAPr _
  | 8, _ => pres_SRLr _
  | 9, _ => pres_SRLr _
  | 10, _ => pres_SRLr _
  | 11, _ => pres_SRLr _
  | 12, _ => pres_SRLr _
  | 13, _ => pres_SRLr _
  | 14, _ => pres_bind (pres_readS _) fun _ => pres_SRLm _
  | 15, _ => pres_SRLr _
  | n + 16, hr => absurd hr (by omega)

theorem extRow4_pres (r : Nat) (hr : r < 16) : Preserving (extRow4 (0xCB40 + r)) :=
  match r, hr with
  | 0, _ => pres_BITr _ _
  | 1, _ => pres_BITr _ _
  | 2, _ => pres_BITr _ _
  | 3, _ => pres_BITr _ _
  | 4, _ => pres_BITr _ _
  | 5, _ => pres_BITr _ _
  | 6, _ => pres_bind (pres_readS _) fun _ => pres_BITm _ _
  | 7, _ => pres_BITr _ _
  | 8, _ => pres_BITr _ _
  | 9, _ => pres_BITr _ _
  | 10, _ => pres_BITr _ _
  | 11, _ => pres_BITr _ _
  | 12, _ => pres_BITr _ _
  | 13, _ => pres_BITr _ _
  | 14, _ => pres_bind (pres_readS _) fun _ => pres_BITm _ _
  | 15, _ => pres_BITr _ _
  | n + 16, hr => absurd hr (by omega)

theorem extRow5_pres (r : Nat) (hr : r < 16) : Preserving (extRow5 (0xCB50 + r)) :=
  match r, hr with
  | 0, _ => pres_BITr _ _
  | 1, _ => pres_BITr _ _
  | 2, _ => pres_BITr _ _
  | 3, _ => pres_BITr _ _
  | 4, _ => pres_BITr _ _
  | 5, _ => pres_BITr _ _
  | 6, _ => pres_bind (pres_readS _) fun _ => pres_BITm _ _
  | 7, _ => pres_BITr _ _
  | 8, _ => pres_BITr _ _
  | 9, _ => pres_BITr _ _
  | 10, _ => pres_BITr _ _
  | 11, _ => pres_BITr _ _
  | 12, _ => pres_BITr _ _
  | 13, _ => pres_BITr _ _
  | 14, _ => pres_bind (pres_readS _) fun _ => pres_BITm _ _
  | 15, _ => pres_BITr _ _
  | n + 16, hr => absurd hr (by omega)

theorem extRow6_pres (r : Nat) (hr : r < 16) : Preserving (extRow6 (0xCB60 + r)) :=
  match r, hr with
  | 0, _ => pres_BITr _ _
  | 1, _ => pres_BITr _ _
  | 2, _ => pres_BITr _ _
  | 3, _ => pres_BITr _ _
  | 4, _ => pres_BITr _ _
  | 5, _ => pres_BITr _ _
  | 6, _ => pres_bind (pres_readS _) fun _ => pres_BITm _ _
  | 7, _ => pres_BITr _ _
  | 8, _ => pres_BITr _ _
  | 9, _ => pres_BITr _ _
  | 10, _ => pres_BITr _ _
  | 11, _ => pres_BITr _ _
  | 12, _ => pres_BITr _ _
  | 13, _ => pres_BITr _ _
  | 14, _ => pres_bind (pres_readS _) fun _ => pres_BITm _ _
  | 15, _ => pres_BITr _ _
  | n + 16, hr => absurd hr (by omega)

theorem extRow7_pres (r : Nat) (hr : r < 16) : Preserving (extRow7 (0xCB70 + r)) :=
  match r, hr with
  | 0, _ => pres_BITr _ _
  | 1, _ => pres_BITr _ _
  | 2, _ => pres_BITr _ _
  | 3, _ => pres_BITr _ _
  | 4, _ => pres_BITr _ _
  | 5, _ => pres_BITr _ _
  | 6, _ => pres_bind (pres_readS _) fun _ => pres_BITm _ _
  | 7, _ => pres_BITr _ _
  | 8, _ => pres_BITr _ _
  | 9, _ => pres_BITr _ _
  | 10, _ => pres_BITr _ _
  | 11, _ => pres_BITr _ _
  | 12, _ => pres_BITr _ _
  | 13, _ => pres_BITr _ _
  | 14, _ => pres_bind (pres_readS _) fun _ => pres_BITm _ _
  | 15, _ => pres_BITr _ _
  | n + 16, hr => absurd hr (by omega)

theorem extRow8_pres (r : Nat) (hr : r < 16) : Preserving (extRow8 (0xCB80 + r)) :=
  match r, hr with
  | 0, _ => pres_RESr _ _
  | 1, _ => pres_RESr _ _
  | 2, _ => pres_RESr _ _
  | 3, _ => pres_RESr _ _
  | 4, _ => pres_RESr _ _
  | 5, _ => pres_RESr _ _
  | 6, _ => pres_bind (pres_readS _) fun _ => pres_RESm _ _
  | 7, _ => pres_RESr _ _
  | 8, _ => pres_RESr _ _
  | 9, _ => pres_RESr _ _
  | 10, _ => pres_RESr _ _
  | 11, _ => pres_RESr _ _
  | 12, _ => pres_RESr _ _
  | 13, _ => pres_RESr _ _
  | 14, _ => pres_bind (pres_readS _) fun _ => pres_RESm _ _
  | 15, _ => pres_RESr _ _
  | n + 16, hr => absurd hr (by omega)

theorem extRow9_pres (r : Nat) (hr : r < 16) : Preserving (extRow9 (0xCB90 + r)) :=
  match r, hr with
  | 0, _ => pres_RESr _ _
  | 1, _ => pres_RESr _ _
  | 2, _ => pres_RESr _ _
  | 3, _ => pres_RESr _ _
  | 4, _ => pres_RESr _ _
  | 5, _ => pres_RESr _ _
  | 6, _ => pres_bind (pres_readS _) fun _ => pres_RESm _ _
  | 7, _ => pres_RESr _ _
  | 8, _ => pres_RESr _ _
  | 9, _ => pres_RESr _ _
  | 10, _ => pres_RESr _ _
  | 11, _ => pres_RESr _ _
  | 12, _ => pres_RESr _ _
  | 13, _ => pres_RESr _ _
  | 14, _ => pres_bind (pres_readS _) fun _ => pres_RESm _ _
  | 15, _ => pres_RESr _ _
  | n + 16, hr => absurd hr (by omega)

theorem extRowA_pres (r : Nat) (hr : r < 16) : Preserving (extRowA (0xCBA0 + r)) :=
  match r, hr with
  | 0, _ => pres_RESr _ _
  | 1, _ => pres_RESr _ _
  | 2, _ => pres_RESr _ _
  | 3, _ => pres_RESr _ _
  | 4, _ => pres_RESr _ _
  | 5, _ => pres_RESr _ _
  | 6, _ => pres_bind (pres_readS _) fun _ => pres_RESm _ _
  | 7, _ => pres_RESr _ _
  | 8, _ => pres_RESr _ _
  | 9, _ => pres_RESr _ _
  | 10, _ => pres_RESr _ _
  | 11, _ => pres_RESr _ _
  | 12, _ => pres_RESr _ _
  | 13, _ => pres_RESr _ _
  | 14, _ => pres_bind (pres_readS _) fun _ => pres_RESm _ _
  | 15, _ => pres_RESr _ _
  | n + 16, hr => absurd hr (by omega)

theorem extRowB_pres (r : Nat) (hr : r < 16) : Preserving (extRowB (0xCBB0 + r)) :=
  match r, hr with
  | 0, _ => pres_RESr _ _
  | 1, _ => pres_RESr _ _
  | 2, _ => pres_RESr _ _
  | 3, _ => pres_RESr _ _
  | 4, _ => pres_RESr _ _
  | 5, _ => pres_RESr _ _
  | 6, _ => pres_bind (pres_readS _) fun _ => pres_RESm _ _
  | 7, _ => pres_RESr _ _
  | 8, _ => pres_RESr _ _
  | 9, _ => pres_RESr _ _
  | 10, _ => pres_RESr _ _
  | 11, _ => pres_RESr _ _
  | 12, _ => pres_RESr _ _
  | 13, _ => pres_RESr _ _
  | 14, _ => pres_bind (pres_readS _) fun _ => pres_RESm _ _
  | 15, _ => pres_RESr _ _
  | n + 16, hr => absurd hr (by omega)

theorem extRowC_pres (r : Nat) (hr : r < 16) : Preserving (extRowC (0xCBC0 + r)) :=
  match r, hr with
  | 0, _ => pres_SETr _ _
  | 1, _ => pres_SETr _ _
  | 2, _ => pres_SETr _ _
  | 3, _ => pres_SETr _ _
  | 4, _ => pres_SETr _ _
  | 5, _ => pres_SETr _ _
  | 6, _ => pres_bind (pres_readS _) fun _ => pres_SETm _ _
  | 7, _ => pres_SETr _ _
  | 8, _ => pres_SETr _ _
  | 9, _ => pres_SETr _ _
  | 10, _ => pres_SETr _ _
  | 11, _ => pres_SETr _ _
  | 12, _ => pres_SETr _ _
  | 13, _ => pres_SETr _ _
  | 14, _ => pres_bind (pres_readS _) fun _ => pres_SETm _ _
  | 15, _ => pres_SETr _ _
  | n + 16, hr => absurd hr (by omega)

theorem extRowD_pres (r : Nat) (hr : r < 16) : Preserving (extRowD (0xCBD0 + r)) :=
  match r, hr with
  | 0, _ => pres_SETr _ _
  | 1, _ => pres_SETr _ _
  | 2, _ => pres_SETr _ _
  | 3, _ => pres_SETr _ _
  | 4, _ => pres_SETr _ _
  | 5, _ => pres_SETr _ _
  | 6, _ => pres_bind (pres_readS _) fun _ => pres_SETm _ _
  | 7, _ => pres_SETr _ _
  | 8, _ => pres_SETr _ _
  | 9, _ => pres_SETr _ _
  | 10, _ => pres_SETr _ _
  | 11, _ => pres_SETr _ _
  | 12, _ => pres_SETr _ _
  | 13, _ => pres_SETr _ _
  | 14, _ => pres_bind (pres_readS _) fun _ => pres_SETm _ _
  | 15, _ => pres_SETr _ _
  | n + 16, hr => absurd hr (by omega)

theorem extRowE_pres (r : Nat) (hr : r < 16) : Preserving (extRowE (0xCBE0 + r)) :=
  match r, hr with
  | 0, _ => pres_SETr _ _
  | 1, _ => pres_SETr _ _
  | 2, _ => pres_SETr _ _
  | 3, _ => pres_SETr _ _
  | 4, _ => pres_SETr _ _
  | 5, _ => pres_SETr _ _
  | 6, _ => pres_bind (pres_readS _) fun _ => pres_SETm _ _
  | 7, _ => pres_SETr _ _
  | 8, _ => pres_SETr _ _
  | 9, _ => pres_SETr _ _
  | 10, _ => pres_SETr _ _
  | 11, _ => pres_SETr _ _
  | 12, _ => pres_SETr _ _
  | 13, _ => pres_SETr _ _
  | 14, _ => pres_bind (pres_readS _) fun _ => pres_SETm _ _
  | 15, _ => pres_SETr _ _
  | n + 16, hr => absurd hr (by omega)

theorem extRowF_pres (r : Nat) (hr : r < 16) : Preserving (extRowF (0xCBF0 + r)) :=
  match r, hr with
  | 0, _ => pres_SETr _ _
  | 1, _ => pres_SETr _ _
  | 2, _ => pres_SETr _ _
  | 3, _ => pres_SETr _ _
  | 4, _ => pres_SETr _ _
  | 5, _ => pres_SETr _ _
  | 6, _ => pres_bind (pres_readS _) fun _ => pres_SETm _ _
  | 7, _ => pres_SETr _ _
  | 8, _ => pres_SETr _ _
  | 9, _ => pres_SETr _ _
  | 10, _ => pres_SETr _ _
  | 11, _ => pres_SETr _ _
  | 12, _ => pres_SETr _ _
  | 13, _ => pres_SETr _ _
  | 14, _ => pres_bind (pres_readS _) fun _ => pres_SETm _ _
  | 15, _ => pres_SETr _ _
  | n + 16, hr => absurd hr (by omega)

theorem executeExtended_pres (b : Nat) (hb : b < 256) :
    Preserving (executeExtended (0xCB00 + b)) := by
  obtain ⟨k, r, hk, hr, rfl⟩ : ∃ k r, k < 16 ∧ r < 16 ∧ b = 16 * k + r :=
    ⟨b / 16, b % 16, by omega, by omega, by omega⟩
  unfold executeExtended
  rw [show (0xCB00 + (16 * k + r)) >>> 4 = 0xCB0 + k by
    rw [Nat.shiftRight_eq_div_pow]; omega]
  interval_cases k
  · rw [show 0xCB00 + (16 * 0 + r) = 0xCB00 + r by omega]
    exact extRow0_pres r hr
  · rw [show 0xCB00 + (16 * 1 + r) = 0xCB10 + r by omega]
    exact extRow1_pres r hr
  · rw [show 0xCB00 + (16 * 2 + r) = 0xCB20 + r by omega]
    exact extRow2_pres r hr
  · rw [show 0xCB00 + (16 * 3 + r) = 0xCB30 + r by omega]
    exact extRow3_pres r hr
  · rw [show 0xCB00 + (16 * 4 + r) = 0xCB40 + r by omega]
    exact extRow4_pres r hr
  · rw [show 0xCB00 + (16 * 5 + r) = 0xCB50 + r by omega]
    exact extRow5_pres r hr
  · rw [show 0xCB00 + (16 * 6 + r) = 0xCB60 + r by omega]
    exact extRow6_pres r hr
  · rw [show 0xCB00 + (16 * 7 + r) = 0xCB70 + r by omega]
    exact extRow7_pres r hr
  · rw [show 0xCB00 + (16 * 8 + r) = 0xCB80 + r by omega]
    exact extRow8_pres r hr
  · rw [show 0xCB00 + (16 * 9 + r) = 0xCB90 + r by omega]
    exact extRow9_pres r hr
  · rw [show 0xCB00 + (16 * 10 + r) = 0xCBA0 + r by omega]
    exact extRowA_pres r hr
  · rw [show 0xCB00 + (16 * 11 + r) = 0xCBB0 + r by omega]
    exact extRowB_pres r hr
  · rw [show 0xCB00 + (16 * 12 + r) = 0xCBC0 + r by omega]
    exact extRowC_pres r hr
  · rw [show 0xCB00 + (16 * 13 + r) = 0xCBD0 + r by omega]
    exact extRowD_pres r hr
  · rw [show 0xCB00 + (16 * 14 + r) = 0xCBE0 + r by omega]
    exact extRowE_pres r hr
  · rw [show 0xCB00 + (16 * 15 + r) = 0xCBF0 + r by omega]
    exact extRowF_pres r hr

theorem pres_CBdispatch :
    Preserving (do
      let offsetPart ← readNextByteAndAdvance
      executeExtended ((0xCB <<< 8) ||| offsetPart)) := by
  refine rnba_then_pres fun b hb => ?_
  rw [cb_lor b hb]
  exact executeExtended_pres _ hb

theorem execRow0_pres (r : Nat) (hr : r < 16) : Preserving (execRow0 (0x00 + r)) :=
  match r, hr with
  | 0, _ => pres_pure _
  | 1, _ => pres_bind (pres_rnba) fun _ => pres_bind (pres_prLoSetBC _) fun _ => pres_bind (pres_rnba) fun _ => pres_prHiSet _ _
  | 2, _ => pres_bind (pres_readS _) fun _ => pres_bind (pres_getReg _) fun _ => pres_busWrite _ _
  | 3, _ => pres_INC16 _
  | 4, _ => pres_INC8 _
  | 5, _ => pres_DEC8 _
  | 6, _ => pres_bind (pres_rnba) fun _ => pres_setR8 _ _
  | 7, _ => pres_bind (pres_getReg _) fun _ => pres_bind (pres_setR8 _ _) fun _ => pres_bind (pres_setFlagZ _) fun _ => pres_bind (pres_setFlagN _) fun _ => pres_bind (pres_setFlagH _) fun _ => pres_setFlagC _
  | 8, _ => pres_bind (pres_rnba) fun _ => pres_bind (pres_rnba) fun _ => pres_bind (pres_readS _) fun _ => pres_bind (pres_busWrite _ _) fun _ => pres_bind (pres_readS _) fun _ => pres_busWrite _ _
  | 9, _ => pres_bind (pres_readS _) fun _ => pres_ADDHL _
  | 10, _ => pres_bind (pres_readS _) fun _ => pres_bind (pres_busRead _) fun _ => pres_setR8 _ _
  | 11, _ => pres_DEC16 _
  | 12, _ => pres_INC8 _
  | 13, _ => pres_DEC8 _
  | 14, _ => pres_bind (pres_rnba) fun _ => pres_setR8 _ _
  | 15, _ => pres_bind (pres_getReg _) fun _ => pres_bind (pres_setR8 _ _) fun _ => pres_bind (pres_setFlagZ _) fun _ => pres_bind (pres_setFlagN _) fun _ => pres_bind (pres_setFlagH _) fun _ => pres_setFlagC _
  | n + 16, hr => absurd hr (by omega)

theorem execRow1_pres (r : Nat) (hr : r < 16) : Preserving (execRow1 (0x10 + r)) :=
  match r, hr with
  | 0, _ => pres_bind (pres_tick) fun _ => pres_tick
  | 1, _ => pres_bind (pres_rnba) fun _ => pres_bind (pres_prLoSetDE _) fun _ => pres_bind (pres_rnba) fun _ => pres_prHiSet _ _
  | 2, _ => pres_bind (pres_readS _) fun _ => pres_bind (pres_getReg _) fun _ => pres_busWrite _ _
  | 3, _ => pres_INC16 _
  | 4, _ => pres_INC8 _
  | 5, _ => pres_DEC8 _
  | 6, _ => pres_bind (pres_rnba) fun _ => pres_setR8 _ _
  | 7, _ => pres_bind (pres_getReg _) fun _ => pres_bind (pres_isSet _) fun _ => pres_bind (pres_setR8 _ _) fun _ => pres_bind (pres_setFlagZ _) fun _ => pres_bind (pres_setFlagN _) fun _ => pres_bind (pres_setFlagH _) fun _ => pres_setFlagC _
  | 8, _ => pres_JRc _
  | 9, _ => pres_bind (pres_readS _) fun _ => pres_ADDHL _
  | 10, _ => pres_bind (pres_readS _) fun _ => pres_bind (pres_busRead _) fun _ => pres_setR8 _ _
  | 11, _ => pres_DEC16 _
  | 12, _ => pres_INC8 _
  | 13, _ => pres_DEC8 _
  | 14, _ => pres_bind (pres_rnba) fun _ => pres_setR8 _ _
  | 15, _ => pres_bind (pres_getReg _) fun _ => pres_bind (pres_isSet _) fun _ => pres_bind (pres_setR8 _ _) fun _ => pres_bind (pres_setFlagZ _) fun _ => pres_bind (pres_setFlagN _) fun _ => pres_bind (pres_setFlagH _) fun _ => pres_setFlagC _
  | n + 16, hr => absurd hr (by omega)

theorem execRow2_pres (r : Nat) (hr : r < 16) : Preserving (execRow2 (0x20 + r)) :=
  match r, hr with
  | 0, _ => pres_bind (pres_isSet _) fun _ => pres_JRc _
  | 1, _ => pres_bind (pres_rnba) fun _ => pres_bind (pres_prLoSetHL _) fun _ => pres_bind (pres_rnba) fun _ => pres_prHiSet _ _
  | 2, _ => pres_bind (pres_readS _) fun _ => pres_bind (pres_setR8 _ _) fun _ => pres_bind (pres_setR8 _ _) fun _ => pres_bind (pres_getReg _) fun _ => pres_busWrite _ _
  | 3, _ => pres_INC16 _
  | 4, _ => pres_INC8 _
  | 5, _ => pres_DEC8 _
  | 6, _ => pres_bind (pres_rnba) fun _ => pres_setR8 _ _
  | 7, _ => pres_DAA
  | 8, _ => pres_bind (pres_isSet _) fun _ => pres_JRc _
  | 9, _ => pres_bind (pres_readS _) fun _ => pres_ADDHL _
  | 10, _ => pres_bind (pres_readS _) fun _ => pres_bind (pres_setR8 _ _) fun _ => pres_bind (pres_setR8 _ _) fun _ => pres_bind (pres_busRead _) fun _ => pres_setR8 _ _
  | 11, _ => pres_DEC16 _
  | 12, _ => pres_INC8 _
  | 13, _ => pres_DEC8 _
  | 14, _ => pres_bind (pres_rnba) fun _ => pres_setR8 _ _
  | 15, _ => pres_bind (pres_getReg _) fun _ => pres_bind (pres_setR8 _ _) fun _ => pres_bind (pres_setFlagN _) fun _ => pres_setFlagH _
  | n + 16, hr => absurd hr (by omega)

theorem execRow3_pres (r : Nat) (hr : r < 16) : Preserving (execRow3 (0x30 + r)) :=
  match r, hr with
  | 0, _ => pres_bind (pres_isSet _) fun _ => pres_JRc _
  | 1, _ => pres_bind (pres_rnba) fun _ => pres_bind (pres_setSPlower _) fun _ => pres_bind (pres_rnba) fun _ => pres_setSPupper _
  | 2, _ => pres_bind (pres_readS _) fun _ => pres_bind (pres_setR8 _ _) fun _ => pres_bind (pres_setR8 _ _) fun _ => pres_bind (pres_getReg _) fun _ => pres_busWrite _ _
  | 3, _ => pres_INC16 _
  | 4, _ => pres_bind (pres_readS _) fun _ => pres_bind (pres_busRead _) fun _ => pres_bind (pres_setFlagZ _) fun _ => pres_bind (pres_setFlagN _) fun _ => pres_bind (pres_setFlagH _) fun _ => pres_busWrite _ _
  | 5, _ => pres_bind (pres_readS _) fun _ => pres_bind (pres_busRead _) fun _ => pres_bind (pres_setFlagZ _) fun _ => pres_bind (pres_setFlagN _) fun _ => pres_bind (pres_setFlagH _) fun _ => pres_busWrite _ _
  | 6, _ => pres_bind (pres_rnba) fun _ => pres_bind (pres_readS _) fun _ => pres_busWrite _ _
  | 7, _ => pres_bind (pres_setFlagN _) fun _ => pres_bind (pres_setFlagH _) fun _ => pres_setFlagC _
  | 8, _ => pres_bind (pres_isSet _) fun _ => pres_JRc _
  | 9, _ => pres_bind (pres_readS _) fun _ => pres_ADDHL _
  | 10, _ => pres_bind (pres_readS _) fun _ => pres_bind (pres_setR8 _ _) fun _ => pres_bind (pres_setR8 _ _) fun _ => pres_bind (pres_busRead _) fun _ => pres_setR8 _ _
  | 11, _ => pres_DEC16 _
  | 12, _ => pres_INC8 _
  | 13, _ => pres_DEC8 _
  | 14, _ => pres_bind (pres_rnba) fun _ => pres_setR8 _ _
  | 15, _ => pres_bind (pres_setFlagN _) fun _ => pres_bind (pres_setFlagH _) fun _ => pres_bind (pres_isSet _) fun _ => pres_setFlagC _
  | n + 16, hr => absurd hr (by omega)

theorem execRow4_pres (r : Nat) (hr : r < 16) : Preserving (execRow4 (0x40 + r)) :=
  match r, hr with
  | 0, _ => pres_bind (pres_getReg _) fun _ => pres_setR8 _ _
  | 1, _ => pres_bind (pres_getReg _) fun _ => pres_setR8 _ _
  | 2, _ => pres_bind (pres_getReg _) fun _ => pres_setR8 _ _
  | 3, _ => pres_bind (pres_getReg _) fun _ => pres_setR8 _ _
  | 4, _ => pres_bind (pres_getReg _) fun _ => pres_setR8 _ _
  | 5, _ => pres_bind (pres_getReg _) fun _ => pres_setR8 _ _
  | 6, _ => pres_bind (pres_readS _) fun _ => pres_bind (pres_busRead _) fun _ => pres_setR8 _ _
  | 7, _ => pres_bind (pres_getReg _) fun _ => pres_setR8 _ _
  | 8, _ => pres_bind (pres_getReg _) fun _ => pres_setR8 _ _
  | 9, _ => pres_bind (pres_getReg _) fun _ => pres_setR8 _ _
  | 10, _ => pres_bind (pres_getReg _) fun _ => pres_setR8 _ _
  | 11, _ => pres_bind (pres_getReg _) fun _ => pres_setR8 _ _
  | 12, _ => pres_bind (pres_getReg _) fun _ => pres_setR8 _ _
  | 13, _ => pres_bind (pres_getReg _) fun _ => pres_setR8 _ _
  | 14, _ => pres_bind (pres_readS _) fun _ => pres_bind (pres_busRead _) fun _ => pres_setR8 _ _
  | 15, _ => pres_bind (pres_getReg _) fun _ => pres_setR8 _ _
  | n + 16, hr => absurd hr (by omega)

theorem execRow5_pres (r : Nat) (hr : r < 16) : Preserving (execRow5 (0x50 + r)) :=
  match r, hr with
  | 0, _ => pres_bind (pres_getReg _) fun _ => pres_setR8 _ _
  | 1, _ => pres_bind (pres_getReg _) fun _ => pres_setR8 _ _
  | 2, _ => pres_bind (pres_getReg _) fun _ => pres_setR8 _ _
  | 3, _ => pres_bind (pres_getReg _) fun _ => pres_setR8 _ _
  | 4, _ => pres_bind (pres_getReg _) fun _ => pres_setR8 _ _
  | 5, _ => pres_bind (pres_getReg _) fun _ => pres_setR8 _ _
  | 6, _ => pres_bind (pres_readS _) fun _ => pres_bind (pres_busRead _) fun _ => pres_setR8 _ _
  | 7, _ => pres_bind (pres_getReg _) fun _ => pres_setR8 _ _
  | 8, _ => pres_bind (pres_getReg _) fun _ => pres_setR8 _ _
  | 9, _ => pres_bind (pres_getReg _) fun _ => pres_setR8 _ _
  | 10, _ => pres_bind (pres_getReg _) fun _ => pres_setR8 _ _
  | 11, _ => pres_bind (pres_getReg _) fun _ => pres_setR8 _ _
  | 12, _ => pres_bind (pres_getReg _) fun _ => pres_setR8 _ _
  | 13, _ => pres_bind (pres_getReg _) fun _ => pres_setR8 _ _
  | 14, _ => pres_bind (pres_readS _) fun _ => pres_bind (pres_busRead _) fun _ => pres_setR8 _ _
  | 15, _ => pres_bind (pres_getReg _) fun _ => pres_setR8 _ _
  | n + 16, hr => absurd hr (by omega)

theorem execRow6_pres (r : Nat) (hr : r < 16) : Preserving (execRow6 (0x60 + r)) :=
  match r, hr with
  | 0, _ => pres_bind (pres_getReg _) fun _ => pres_setR8 _ _
  | 1, _ => pres_bind (pres_getReg _) fun _ => pres_setR8 _ _
  | 2, _ => pres_bind (pres_getReg _) fun _ => pres_setR8 _ _
  | 3, _ => pres_bind (pres_getReg _) fun _ => pres_setR8 _ _
  | 4, _ => pres_bind (pres_getReg _) fun _ => pres_setR8 _ _
  | 5, _ => pres_bind (pres_getReg _) fun _ => pres_setR8 _ _
  | 6, _ => pres_bind (pres_readS _) fun _ => pres_bind (pres_busRead _) fun _ => pres_setR8 _ _
  | 7, _ => pres_bind (pres_getReg _) fun _ => pres_setR8 _ _
  | 8, _ => pres_bind (pres_getReg _) fun _ => pres_setR8 _ _
  | 9, _ => pres_bind (pres_getReg _) fun _ => pres_setR8 _ _
  | 10, _ => pres_bind (pres_getReg _) fun _ => pres_setR8 _ _
  | 11, _ => pres_bind (pres_getReg _) fun _ => pres_setR8 _ _
  | 12, _ => pres_bind (pres_getReg _) fun _ => pres_setR8 _ _
  | 13, _ => pres_bind (pres_getReg _) fun _ => pres_setR8 _ _
  | 14, _ => pres_bind (pres_readS _) fun _ => pres_bind (pres_busRead _) fun _ => pres_setR8 _ _
  | 15, _ => pres_bind (pres_getReg _) fun _ => pres_setR8 _ _
  | n + 16, hr => absurd hr (by omega)

theorem execRow7_pres (r : Nat) (hr : r < 16) : Preserving (execRow7 (0x70 + r)) :=
  match r, hr with
  | 0, _ => pres_bind (pres_readS _) fun _ => pres_bind (pres_getReg _) fun _ => pres_busWrite _ _
  | 1, _ => pres_bind (pres_readS _) fun _ => pres_bind (pres_getReg _) fun _ => pres_busWrite _ _
  | 2, _ => pres_bind (pres_readS _) fun _ => pres_bind (pres_getReg _) fun _ => pres_busWrite _ _
  | 3, _ => pres_bind (pres_readS _) fun _ => pres_bind (pres_getReg _) fun _ => pres_busWrite _ _
  | 4, _ => pres_bind (pres_readS _) fun _ => pres_bind (pres_getReg _) fun _ => pres_busWrite _ _
  | 5, _ => pres_bind (pres_readS _) fun _ => pres_bind (pres_getReg _) fun _ => pres_busWrite _ _
  | 6, _ => pres_bind (pres_tick) fun _ => pres_tick
  | 7, _ => pres_bind (pres_readS _) fun _ => pres_bind (pres_getReg _) fun _ => pres_busWrite _ _
  | 8, _ => pres_bind (pres_getReg _) fun _ => pres_setR8 _ _
  | 9, _ => pres_bind (pres_getReg _) fun _ => pres_setR8 _ _
  | 10, _ => pres_bind (pres_getReg _) fun _ => pres_setR8 _ _
  | 11, _ => pres_bind (pres_getReg _) fun _ => pres_setR8 _ _
  | 12, _ => pres_bind (pres_getReg _) fun _ => pres_setR8 _ _
  | 13, _ => pres_bind (pres_getReg _) fun _ => pres_setR8 _ _
  | 14, _ => pres_bind (pres_readS _) fun _ => pres_bind (pres_busRead _) fun _ => pres_setR8 _ _
  | 15, _ => pres_bind (pres_getReg _) fun _ => pres_setR8 _ _
  | n + 16, hr => absurd hr (by omega)

theorem execRow8_pres (r : Nat) (hr : r < 16) : Preserving (execRow8 (0x80 + r)) :=
  match r, hr with
  | 0, _ => pres_bind (pres_getReg _) fun _ => pres_ADD8 _
  | 1, _ => pres_bind (pres_getReg _) fun _ => pres_ADD8 _
  | 2, _ => pres_bind (pres_getReg _) fun _ => pres_ADD8 _
  | 3, _ => pres_bind (pres_getReg _) fun _ => pres_ADD8 _
  | 4, _ => pres_bind (pres_getReg _) fun _ => pres_ADD8 _
  | 5, _ => pres_bind (pres_getReg _) fun _ => pres_ADD8 _
  | 6, _ => pres_bind (pres_readS _) fun _ => pres_bind (pres_busRead _) fun _ => pres_ADD8 _
  | 7, _ => pres_bind (pres_getReg _) fun _ => pres_ADD8 _
  | 8, _ => pres_bind (pres_getReg _) fun _ => pres_ADC8 _
  | 9, _ => pres_bind (pres_getReg _) fun _ => pres_ADC8 _
  | 10, _ => pres_bind (pres_getReg _) fun _ => pres_ADC8 _
  | 11, _ => pres_bind (pres_getReg _) fun _ => pres_ADC8 _
  | 12, _ => pres_bind (pres_getReg _) fun _ => pres_ADC8 _
  | 13, _ => pres_bind (pres_getReg _) fun _ => pres_ADC8 _
  | 14, _ => pres_bind (pres_readS _) fun _ => pres_bind (pres_busRead _) fun _ => pres_ADC8 _
  | 15, _ => pres_bind (pres_getReg _) fun _ => pres_ADC8 _
  | n + 16, hr => absurd hr (by omega)

theorem execRow9_pres (r : Nat) (hr : r < 16) : Preserving (execRow9 (0x90 + r)) :=
  match r, hr with
  | 0, _ => pres_bind (pres_getReg _) fun _ => pres_SUB8 _
  | 1, _ => pres_bind (pres_getReg _) fun _ => pres_SUB8 _
  | 2, _ => pres_bind (pres_getReg _) fun _ => pres_SUB8 _
  | 3, _ => pres_bind (pres_getReg _) fun _ => pres_SUB8 _
  | 4, _ => pres_bind (pres_getReg _) fun _ => pres_SUB8 _
  | 5, _ => pres_bind (pres_getReg _) fun _ => pres_SUB8 _
  | 6, _ => pres_bind (pres_readS _) fun _ => pres_bind (pres_busRead _) fun _ => pres_SUB8 _
  | 7, _ => pres_bind (pres_getReg _) fun _ => pres_SUB8 _
  | 8, _ => pres_bind (pres_getReg _) fun _ => pres_SBC8 _
  | 9, _ => pres_bind (pres_getReg _) fun _ => pres_SBC8 _
  | 10, _ => pres_bind (pres_getReg _) fun _ => pres_SBC8 _
  | 11, _ => pres_bind (pres_getReg _) fun _ => pres_SBC8 _
  | 12, _ => pres_bind (pres_getReg _) fun _ => pres_SBC8 _
  | 13, _ => pres_bind (pres_getReg _) fun _ => pres_SBC8 _
  | 14, _ => pres_bind (pres_readS _) fun _ => pres_bind (pres_busRead _) fun _ => pres_SBC8 _
  | 15, _ => pres_bind (pres_getReg _) fun _ => pres_SBC8 _
  | n + 16, hr => absurd hr (by omega)

theorem execRowA_pres (r : Nat) (hr : r < 16) : Preserving (execRowA (0xA0 + r)) :=
  match r, hr with
  | 0, _ => pres_bind (pres_getReg _) fun _ => pres_AND8 _
  | 1, _ => pres_bind (pres_getReg _) fun _ => pres_AND8 _
  | 2, _ => pres_bind (pres_getReg _) fun _ => pres_AND8 _
  | 3, _ => pres_bind (pres_getReg _) fun _ => pres_AND8 _
  | 4, _ => pres_bind (pres_getReg _) fun _ => pres_AND8 _
  | 5, _ => pres_bind (pres_getReg _) fun _ => pres_AND8 _
  | 6, _ => pres_bind (pres_readS _) fun _ => pres_bind (pres_busRead _) fun _ => pres_AND8 _
  | 7, _ => pres_bind (pres_getReg _) fun _ => pres_AND8 _
  | 8, _ => pres_bind (pres_getReg _) fun _ => pres_XOR8 _
  | 9, _ => pres_bind (pres_getReg _) fun _ => pres_XOR8 _
  | 10, _ => pres_bind (pres_getReg _) fun _ => pres_XOR8 _
  | 11, _ => pres_bind (pres_getReg _) fun _ => pres_XOR8 _
  | 12, _ => pres_bind (pres_getReg _) fun _ => pres_XOR8 _
  | 13, _ => pres_bind (pres_getReg _) fun _ => pres_XOR8 _
  | 14, _ => pres_bind (pres_readS _) fun _ => pres_bind (pres_busRead _) fun _ => pres_XOR8 _
  | 15, _ => pres_bind (pres_getReg _) fun _ => pres_XOR8 _
  | n + 16, hr => absurd hr (by omega)

theorem execRowB_pres (r : Nat) (hr : r < 16) : Preserving (execRowB (0xB0 + r)) :=
  match r, hr with
  | 0, _ => pres_bind (pres_getReg _) fun _ => pres_OR8 _
  | 1, _ => pres_bind (pres_getReg _) fun _ => pres_OR8 _
  | 2, _ => pres_bind (pres_getReg _) fun _ => pres_OR8 _
  | 3, _ => pres_bind (pres_getReg _) fun _ => pres_OR8 _
  | 4, _ => pres_bind (pres_getReg _) fun _ => pres_OR8 _
  | 5, _ => pres_bind (pres_getReg _) fun _ => pres_OR8 _
  | 6, _ => pres_bind (pres_readS _) fun _ => pres_bind (pres_busRead _) fun _ => pres_OR8 _
  | 7, _ => pres_bind (pres_getReg _) fun _ => pres_OR8 _
  | 8, _ => pres_bind (pres_getReg _) fun _ => pres_CP8 _
  | 9, _ => pres_bind (pres_getReg _) fun _ => pres_CP8 _
  | 10, _ => pres_bind (pres_getReg _) fun _ => pres_CP8 _
  | 11, _ => pres_bind (pres_getReg _) fun _ => pres_CP8 _
  | 12, _ => pres_bind (pres_getReg _) fun _ => pres_CP8 _
  | 13, _ => pres_bind (pres_getReg _) fun _ => pres_CP8 _
  | 14, _ => pres_bind (pres_readS _) fun _ => pres_bind (pres_busRead _) fun _ => pres_CP8 _
  | 15, _ => pres_bind (pres_getReg _) fun _ => pres_CP8 _
  | n + 16, hr => absurd hr (by omega)

theorem execRowC_pres (r : Nat) (hr : r < 16) : Preserving (execRowC (0xC0 + r)) :=
  match r, hr with
  | 0, _ => pres_bind (pres_isSet _) fun _ => pres_RETc _
  | 1, _ => pres_POPBC
  | 2, _ => pres_bind (pres_isSet _) fun _ => pres_JPc _
  | 3, _ => pres_JPc _
  | 4, _ => pres_bind (pres_isSet _) fun _ => pres_CALLc _
  | 5, _ => pres_PUSH _
  | 6, _ => pres_bind (pres_rnba) fun _ => pres_ADD8 _
  | 7, _ => pres_RST _
  | 8, _ => pres_bind (pres_isSet _) fun _ => pres_RETc _
  | 9, _ => pres_RETu
  | 10, _ => pres_bind (pres_isSet _) fun _ => pres_JPc _
  | 11, _ => pres_CBdispatch
  | 12, _ => pres_bind (pres_isSet _) fun _ => pres_CALLc _
  | 13, _ => pres_CALLc _
  | 14, _ => pres_bind (pres_rnba) fun _ => pres_ADC8 _
  | 15, _ => pres_RST _
  | n + 16, hr => absurd hr (by omega)

theorem execRowD_pres (r : Nat) (hr : r < 16) : Preserving (execRowD (0xD0 + r)) :=
  match r, hr with
  | 0, _ => pres_bind (pres_isSet _) fun _ => pres_RETc _
  | 1, _ => pres_POPDE
  | 2, _ => pres_bind (pres_isSet _) fun _ => pres_JPc _
  | 3, _ => pres_throwIllegal _
  | 4, _ => pres_bind (pres_isSet _) fun _ => pres_CALLc _
  | 5, _ => pres_PUSH _
  | 6, _ => pres_bind (pres_rnba) fun _ => pres_SUB8 _
  | 7, _ => pres_RST _
  | 8, _ => pres_bind (pres_isSet _) fun _ => pres_RETc _
  | 9, _ => pres_RETu
  | 10, _ => pres_bind (pres_isSet _) fun _ => pres_JPc _
  | 11, _ => pres_throwIllegal _
  | 12, _ => pres_bind (pres_isSet _) fun _ => pres_CALLc _
  | 13, _ => pres_throwIllegal _
  | 14, _ => pres_bind (pres_rnba) fun _ => pres_SBC8 _
  | 15, _ => pres_RST _
  | n + 16, hr => absurd hr (by omega)

theorem execRowE_pres (r : Nat) (hr : r < 16) : Preserving (execRowE (0xE0 + r)) :=
  match r, hr with
  | 0, _ => pres_bind (pres_rnba) fun _ => pres_bind (pres_getReg _) fun _ => pres_busWrite _ _
  | 1, _ => pres_POPHL
  | 2, _ => pres_bind (pres_getReg _) fun _ => pres_bind (pres_getReg _) fun _ => pres_busWrite _ _
  | 3, _ => pres_throwIllegal _
  | 4, _ => pres_throwIllegal _
  | 5, _ => pres_PUSH _
  | 6, _ => pres_bind (pres_rnba) fun _ => pres_AND8 _
  | 7, _ => pres_RST _
  | 8, _ => pres_bind (pres_rnba) fun _ => pres_bind (pres_readS _) fun _ => pres_bind (pres_tick) fun _ => pres_bind (pres_setSPlower _) fun _ => pres_bind (pres_tick) fun _ => pres_bind (pres_setSPupper _) fun _ => pres_bind (pres_setFlagZ _) fun _ => pres_bind (pres_setFlagN _) fun _ => pres_bind (pres_setFlagH _) fun _ => pres_setFlagC _
  | 9, _ => pres_bind (pres_readS _) fun _ => pres_setPC _
  | 10, _ => pres_bind (pres_rnba) fun _ => pres_bind (pres_rnba) fun _ => pres_bind (pres_getReg _) fun _ => pres_busWrite _ _
  | 11, _ => pres_throwIllegal _
  | 12, _ => pres_throwIllegal _
  | 13, _ => pres_throwIllegal _
  | 14, _ => pres_bind (pres_rnba) fun _ => pres_XOR8 _
  | 15, _ => pres_RST _
  | n + 16, hr => absurd hr (by omega)

theorem execRowF_pres (r : Nat) (hr : r < 16) : Preserving (execRowF (0xF0 + r)) :=
  match r, hr with
  | 0, _ => pres_bind (pres_rnba) fun _ => pres_bind (pres_busRead _) fun _ => pres_setR8 _ _
  | 1, _ => pres_POPAF
  | 2, _ => pres_bind (pres_getReg _) fun _ => pres_bind (pres_busRead _) fun _ => pres_setR8 _ _
  | 3, _ => pres_pure _
  | 4, _ => pres_throwIllegal _
  | 5, _ => pres_PUSH _
  | 6, _ => pres_bind (pres_rnba) fun _ => pres_OR8 _
  | 7, _ => pres_RST _
  | 8, _ => pres_bind (pres_rnba) fun _ => pres_bind (pres_readS _) fun _ => pres_bind (pres_setR8 _ _) fun _ => pres_bind (pres_tick) fun _ => pres_bind (pres_setR8 _ _) fun _ => pres_bind (pres_setFlagZ _) fun _ => pres_bind (pres_setFlagN _) fun _ => pres_bind (pres_setFlagH _) fun _ => pres_setFlagC _
  | 9, _ => pres_bind (pres_tick) fun _ => pres_bind (pres_readS _) fun _ => pres_setSP _
  | 10, _ => pres_bind (pres_rnba) fun _ => pres_bind (pres_rnba) fun _ => pres_bind (pres_busRead _) fun _ => pres_setR8 _ _
  | 11, _ => pres_pure _
  | 12, _ => pres_throwIllegal _
  | 13, _ => pres_throwIllegal _
  | 14, _ => pres_bind (pres_rnba) fun _ => pres_CP8 _
  | 15, _ => pres_RST _
  | n + 16, hr => absurd hr (by omega)

theorem execute_pres (b : Nat) (hb : b < 256) : Preserving (execute b) := by
  obtain ⟨k, r, hk, hr, rfl⟩ : ∃ k r, k < 16 ∧ r < 16 ∧ b = 16 * k + r :=
    ⟨b / 16, b % 16, by omega, by omega, by omega⟩
  unfold execute
  rw [show (16 * k + r) >>> 4 = k by rw [Nat.shiftRight_eq_div_pow]; omega]
  interval_cases k
  · rw [show 16 * 0 + r = 0x00 + r by omega]
    exact execRow0_pres r hr
  · rw [show 16 * 1 + r = 0x10 + r by omega]
    exact execRow1_pres r hr
  · rw [show 16 * 2 + r = 0x20 + r by omega]
    exact execRow2_pres r hr
  · rw [show 16 * 3 + r = 0x30 + r by omega]
    exact execRow3_pres r hr
  · rw [show 16 * 4 + r = 0x40 + r by omega]
    exact execRow4_pres r hr
  · rw [show 16 * 5 + r = 0x50 + r by omega]
    exact execRow5_pres r hr
  · rw [show 16 * 6 + r = 0x60 + r by omega]
    exact execRow6_pres r hr
  · rw [show 16 * 7 + r = 0x70 + r by omega]
    exact execRow7_pres r hr
  · rw [show 16 * 8 + r = 0x80 + r by omega]
    exact execRow8_pres r hr
  · rw [show 16 * 9 + r = 0x90 + r by omega]
    exact execRow9_pres r hr
  · rw [show 16 * 10 + r = 0xA0 + r by omega]
    exact execRowA_pres r hr
  · rw [show 16 * 11 + r = 0xB0 + r by omega]
    exact execRowB_pres r hr
  · rw [show 16 * 12 + r = 0xC0 + r by omega]
    exact execRowC_pres r hr
  · rw [show 16 * 13 + r = 0xD0 + r by omega]
    exact execRowD_pres r hr
  · rw [show 16 * 14 + r = 0xE0 + r by omega]
    exact execRowE_pres r hr
  · rw [show 16 * 15 + r = 0xF0 + r by omega]
    exact execRowF_pres r hr

theorem pres_step : Preserving step := by
  unfold step
  exact rnba_then_pres fun b hb => execute_pres b hb

theorem land_mod_pow2 (n x y : Nat) : (x &&& y) % 2 ^ n = (x % 2 ^ n) &&& (y % 2 ^ n) := by
  apply Nat.eq_of_testBit_eq
  intro i
  simp only [Nat.testBit_mod_two_pow, Nat.testBit_and]
  cases decide (i < n) <;> simp

theorem lor_mod_pow2 (n x y : Nat) : (x ||| y) % 2 ^ n = (x % 2 ^ n) ||| (y % 2 ^ n) := by
  apply Nat.eq_of_testBit_eq
  intro i
  simp only [Nat.testBit_mod_two_pow, Nat.testBit_or]
  cases decide (i < n) <;> simp

theorem xor_mod_pow2 (n x y : Nat) : (x ^^^ y) % 2 ^ n = (x % 2 ^ n) ^^^ (y % 2 ^ n) := by
  apply Nat.eq_of_testBit_eq
  intro i
  simp only [Nat.testBit_mod_two_pow, Nat.testBit_xor]
  cases decide (i < n) <;> simp

theorem land_lor_right (x y z : Nat) : (x ||| y) &&& z = (x &&& z) ||| (y &&& z) := by
  apply Nat.eq_of_testBit_eq
  intro i
  simp only [Nat.testBit_and, Nat.testBit_or]
  cases x.testBit i <;> cases y.testBit i <;> cases z.testBit i <;> simp

theorem shiftRight_lor (x y k : Nat) : (x ||| y) >>> k = (x >>> k) ||| (y >>> k) := by
  apply Nat.eq_of_testBit_eq
  intro i
  simp [Nat.testBit_shiftRight, Nat.testBit_or]

theorem land_255 (x : Nat) : x &&& 255 = x % 256 := Nat.and_pow_two_sub_one_eq_mod x 8

theorem land_15 (x : Nat) : x &&& 15 = x % 16 := Nat.and_pow_two_sub_one_eq_mod x 4

theorem land_mod256 (x y : Nat) : (x &&& y) % 256 = (x % 256) &&& (y % 256) := by
  have := land_mod_pow2 8 x y
  norm_num at this
  exact this

theorem lor_mod256 (x y : Nat) : (x ||| y) % 256 = (x % 256) ||| (y % 256) := by
  have := lor_mod_pow2 8 x y
  norm_num at this
  exact this

theorem lor_mod65536 (x y : Nat) : (x ||| y) % 65536 = (x % 65536) ||| (y % 65536) := by
  have := lor_mod_pow2 16 x y
  norm_num at this
  exact this

/-- Composing a high and a low byte with shift and or is ordinary
arithmetic: (h <<< 8) ||| l = 256 * h + l for a byte l. -/
theorem hi_lo_lor (h l : Nat) (hl : l < 256) : (h <<< 8) ||| l = 256 * h + l := by
  have hsh : h <<< 8 = h * 256 := by rw [Nat.shiftLeft_eq]; try norm_num
  have hmod : (h * 256 ||| l) % 256 = l := by
    rw [lor_mod256, Nat.mul_mod_left, Nat.mod_eq_of_lt hl]
    try simp
  have hdiv : (h * 256 ||| l) / 256 = h := by
    have hdg : (h * 256 ||| l) >>> 8 = (h * 256) >>> 8 ||| l >>> 8 := shiftRight_lor _ _ _
    have h1 : (h * 256) >>> 8 = h := by
      rw [Nat.shiftRight_eq_div_pow]
      norm_num
    have h2 : l >>> 8 = 0 := by
      rw [Nat.shiftRight_eq_div_pow]
      exact Nat.div_eq_of_lt (by simpa using hl)
    have h3 : (h * 256 ||| l) >>> 8 = (h * 256 ||| l) / 256 := by
      rw [Nat.shiftRight_eq_div_pow]
      try norm_num
    rw [h3] at hdg
    rw [hdg, h1, h2]
    simp
  rw [hsh]
  omega

/-- A 16-bit value is recomposed exactly from its two bytes. -/
theorem recompose16 (x : Nat) (hx : x < 65536) :
    ((((x >>> 8) &&& 0xFF) <<< 8) ||| (x &&& 0xFF)) = x := by
  have h1 : (x >>> 8) &&& 0xFF = x / 256 := by
    rw [land_255, Nat.shiftRight_eq_div_pow]
    norm_num
    omega
  have h2 : x &&& 0xFF = x % 256 := land_255 x
  rw [h1, h2, hi_lo_lor _ _ (Nat.mod_lt _ (by norm_num))]
  omega

theorem pair_lt_65536 (h l : Nat) (hh : h < 256) (hl : l < 256) : (h <<< 8) ||| l < 65536 := by
  rw [hi_lo_lor _ _ hl]
  omega

/-- Carry into bit 4 of a 16-bit addition, read off the xor identity used
by ADD SP,e and LD HL,SP+e. -/
theorem xor_carry_bit4 (x y : Nat) (hx : x < 65536) (hy : y < 65536) :
    ((x ^^^ y ^^^ ((x + y) % 65536)) &&& 0x10 ≠ 0) ↔ 0x0F < x % 16 + y % 16 := by
  have hand := Nat.and_two_pow (x ^^^ y ^^^ ((x + y) % 65536)) 4
  norm_num at hand
  have hmod : ((x + y) % 65536).testBit 4 = (x + y).testBit 4 := by
    have h16 : (65536 : Nat) = 2 ^ 16 := by norm_num
    rw [h16, Nat.testBit_mod_two_pow]
    simp
  rw [hand, hmod]
  simp only [Nat.testBit_to_div_mod]
  norm_num
  by_cases h1 : x / 16 % 2 = 1 <;> by_cases h2 : y / 16 % 2 = 1 <;>
    by_cases h3 : (x + y) / 16 % 2 = 1 <;>
    simp [h1, h2, h3] <;> omega

/-- Carry into bit 8 of a 16-bit addition, read off the same xor identity. -/
theorem xor_carry_bit8 (x y : Nat) (hx : x < 65536) (hy : y < 65536) :
    ((x ^^^ y ^^^ ((x + y) % 65536)) &&& 0x100 ≠ 0) ↔ 0xFF < x % 256 + y % 256 := by
  have hand := Nat.and_two_pow (x ^^^ y ^^^ ((x + y) % 65536)) 8
  norm_num at hand
  have hmod : ((x + y) % 65536).testBit 8 = (x + y).testBit 8 := by
    have h16 : (65536 : Nat) = 2 ^ 16 := by norm_num
    rw [h16, Nat.testBit_mod_two_pow]
    simp
  rw [hand, hmod]
  simp only [Nat.testBit_to_div_mod]
  norm_num
  by_cases h1 : x / 256 % 2 = 1 <;> by_cases h2 : y / 256 % 2 = 1 <;>
    by_cases h3 : (x + y) / 256 % 2 = 1 <;>
    simp [h1, h2, h3] <;> omega

theorem land_assoc (x y z : Nat) : x &&& y &&& z = x &&& (y &&& z) := by
  apply Nat.eq_of_testBit_eq
  intro i
  simp only [Nat.testBit_and]
  cases x.testBit i <;> cases y.testBit i <;> cases z.testBit i <;> simp

/-- Reading back the very flag just written by FlagRegister::setFlag. -/
theorem sfv_and_same (f flag : Nat) (b : Bool)
    (h1 : (0xFF ^^^ flag) &&& flag = 0) (h2 : flag &&& flag = flag) :
    setFlagVal f flag b &&& flag = flag * (if b then 1 else 0) := by
  unfold setFlagVal
  rw [land_lor_right, land_assoc, h1]
  cases b
  · simp
  · simpa using h2

/-- FlagRegister::setFlag leaves every other flag bit alone. -/
theorem sfv_and_other (f flag flag' : Nat) (b : Bool)
    (h1 : (0xFF ^^^ flag) &&& flag' = flag') (h2 : flag &&& flag' = 0) :
    setFlagVal f flag b &&& flag' = f &&& flag' := by
  unfold setFlagVal
  rw [land_lor_right, land_assoc, h1]
  cases b
  · simp
  · simp [h2]

/-- The Z/N/H/C write sequence shared by the ALU helpers: each flag reads
back exactly the boolean that was stored. -/
theorem flagChain_readout (f : Nat) (bz bn bh bc : Bool) :
    ((setFlagVal (setFlagVal (setFlagVal (setFlagVal f
        ZERO bz) NEGATIVE bn) HALF_CARRY bh) CARRY bc &&& ZERO != 0) = bz ∧
     (setFlagVal (setFlagVal (setFlagVal (setFlagVal f
        ZERO bz) NEGATIVE bn) HALF_CARRY bh) CARRY bc &&& NEGATIVE != 0) = bn ∧
     (setFlagVal (setFlagVal (setFlagVal (setFlagVal f
        ZERO bz) NEGATIVE bn) HALF_CARRY bh) CARRY bc &&& HALF_CARRY != 0) = bh ∧
     (setFlagVal (setFlagVal (setFlagVal (setFlagVal f
        ZERO bz) NEGATIVE bn) HALF_CARRY bh) CARRY bc &&& CARRY != 0) = bc) := by
  refine ⟨?_, ?_, ?_, ?_⟩
  · rw [sfv_and_other _ CARRY ZERO _ (by decide) (by decide),
      sfv_and_other _ HALF_CARRY ZERO _ (by decide) (by decide),
      sfv_and_other _ NEGATIVE ZERO _ (by decide) (by decide),
      sfv_and_same _ ZERO _ (by decide) (by decide)]
    cases bz <;> simp [ZERO]
  · rw [sfv_and_other _ CARRY NEGATIVE _ (by decide) (by decide),
      sfv_and_other _ HALF_CARRY NEGATIVE _ (by decide) (by decide),
      sfv_and_same _ NEGATIVE _ (by decide) (by decide)]
    cases bn <;> simp [NEGATIVE]
  · rw [sfv_and_other _ CARRY HALF_CARRY _ (by decide) (by decide),
      sfv_and_same _ HALF_CARRY _ (by decide) (by decide)]
    cases bh <;> simp [HALF_CARRY]
  · rw [sfv_and_same _ CARRY _ (by decide) (by decide)]
    cases bc <;> simp [CARRY]

/-- A sum below 48 has a bit above 0x0F exactly when it exceeds 0x0F. -/
theorem and_f0_carry : ∀ n : Nat, n < 48 → ((n &&& 0xF0 ≠ 0) ↔ 0x0F < n) := by decide

/-- A sum below 520 has a bit above 0xFF exactly when it exceeds 0xFF. -/
theorem and_ff00_carry : ∀ n : Nat, n < 520 → ((n &&& 0xFF00 ≠ 0) ↔ 0xFF < n) := by decide

/-- C6: ADC A,x sets A to the low byte of A+x+Cin with flags Z iff zero
result, N=0, H iff low-nibble sum exceeds 0x0F, C iff full sum exceeds
0xFF; and the concrete scenario A=0x80, F=0x10, opcode 0x8F yields
A=0x01, F=0x10, PC advanced by one with a single tick. -/
theorem C6_adc (s : Cpu) (x : Nat) (ha : s.a < 256) (hx : x < 256) :
    ((runState (ADC8 x) s).a = (s.a + x + adcCin s) % 256 ∧
     (isSetF (runState (ADC8 x) s) ZERO = true ↔ (s.a + x + adcCin s) % 256 = 0) ∧
     isSetF (runState (ADC8 x) s) NEGATIVE = false ∧
     (isSetF (runState (ADC8 x) s) HALF_CARRY = true ↔
       0x0F < s.a % 16 + x % 16 + adcCin s) ∧
     (isSetF (runState (ADC8 x) s) CARRY = true ↔ 0xFF < s.a + x + adcCin s)) ∧
    (runResult step adcS = Except.ok () ∧
     (runState step adcS).a = 0x01 ∧ (runState step adcS).f = 0x10 ∧
     (runState step adcS).pc = 0x0101 ∧ (runTrace step adcS).length = 1) := by
  refine ⟨?_, ?_⟩
  case refine_2 =>
    refine ⟨?_, ?_, ?_, ?_, ?_⟩ <;>
      (simp [runResult, runState, runTrace, step, Bind.bind, M.bind, rnba_run, adcS, reset,
        oneOpMem8F, execute, execRow8, ADC8, getReg, getR8, isSet, isSetF, readS, modS,
        setR8, setFlag, setFlagVal, ZERO, NEGATIVE, HALF_CARRY, CARRY,
        Pure.pure, M.pure]
       try decide)
  have hcin : adcCin s ≤ 1 := by unfold adcCin; split <;> omega
  have hstate : runState (ADC8 x) s =
      { s with a := ((s.a + x + adcCin s) &&& 0xFF) % 256,
               f := setFlagVal (setFlagVal (setFlagVal (setFlagVal s.f
                      ZERO (((s.a + x + adcCin s) &&& 0xFF) == 0))
                      NEGATIVE false)
                      HALF_CARRY ((((s.a &&& 0x0F) + (x &&& 0x0F) + adcCin s) &&& 0xF0) != 0))
                      CARRY (((s.a + x + adcCin s) &&& 0xFF00) != 0) } := by
    simp [runState, ADC8, adcCin, Bind.bind, M.bind, getReg, getR8, isSet, isSetF, readS,
      modS, setR8, setFlag, Pure.pure, M.pure]
  rw [hstate]
  have hro := flagChain_readout s.f (((s.a + x + adcCin s) &&& 0xFF) == 0) false
    ((((s.a &&& 0x0F) + (x &&& 0x0F) + adcCin s) &&& 0xF0) != 0)
    (((s.a + x + adcCin s) &&& 0xFF00) != 0)
  refine ⟨?_, ?_, ?_, ?_, ?_⟩
  · show ((s.a + x + adcCin s) &&& 0xFF) % 256 = (s.a + x + adcCin s) % 256
    rw [land_255]
    omega
  · show (_ != 0) = true ↔ _
    rw [hro.1]
    rw [show ((s.a + x + adcCin s) &&& 0xFF) = (s.a + x + adcCin s) % 256 from land_255 _]
    simp
  · show (_ != 0) = false
    rw [hro.2.1]
  · show (_ != 0) = true ↔ _
    rw [hro.2.2.1]
    rw [land_15, land_15]
    have hlt : s.a % 16 + x % 16 + adcCin s < 48 := by omega
    have := and_f0_carry _ hlt
    simp only [bne_iff_ne, ne_eq]
    exact this
  · show (_ != 0) = true ↔ _
    rw [hro.2.2.2]
    have hlt : s.a + x + adcCin s < 520 := by omega
    have := and_ff00_carry _ hlt
    simp only [bne_iff_ne, ne_eq]
    exact this

theorem mod256_land (x : Nat) : (x % 256) &&& 255 = x % 256 := by
  rw [land_255]
  omega

theorem shr8_land (res : Nat) (hres : res < 65536) : res >>> 8 &&& 255 = res / 256 := by
  rw [land_255, Nat.shiftRight_eq_div_pow]
  norm_num
  omega

/-- Recombining the two bytes written into H and L by LD HL,SP+e. -/
theorem hl_recompose (res : Nat) (hres : res < 65536) :
    ((((res >>> 8 &&& 255) % 256) <<< 8) ||| ((res &&& 255) % 256)) = res := by
  have h2 : (res &&& 255) % 256 = res % 256 := by rw [land_255]; omega
  have h3 : (res / 256) % 256 = res / 256 := by omega
  rw [shr8_land res hres, h2, h3, hi_lo_lor _ _ (by omega)]
  omega

/-- Recombining the two bytes written into SP by ADD SP,e via
setLower and setUpper. -/
theorem sp_recompose (sp res : Nat) (hres : res < 65536) :
    (sp &&& 65280 ||| (res &&& 255) % 256) &&& 255 |||
      ((res >>> 8 &&& 255) % 256) <<< 8 = res := by
  have hlo : (res &&& 255) % 256 = res % 256 := by rw [land_255]; omega
  have hz : (65280 : Nat) &&& 255 = 0 := by decide
  have inner : (sp &&& 65280 ||| (res &&& 255) % 256) &&& 255 = res % 256 := by
    rw [land_lor_right, land_assoc, hz, hlo, mod256_land]
    simp
  rw [inner, Nat.lor_comm, ← hlo]
  exact hl_recompose res hres

/-- A value masked to bit 4 equals 0x10 exactly when it is nonzero. -/
theorem and16_eq_iff_ne (z : Nat) : z &&& 16 = 16 ↔ z &&& 16 ≠ 0 := by
  have h := Nat.and_two_pow z 4
  norm_num at h
  rw [h]
  cases z.testBit 4 <;> simp

/-- A value masked to bit 8 equals 0x100 exactly when it is nonzero. -/
theorem and256_eq_iff_ne (z : Nat) : z &&& 256 = 256 ↔ z &&& 256 ≠ 0 := by
  have h := Nat.and_two_pow z 8
  norm_num at h
  rw [h]
  cases z.testBit 8 <;> simp

theorem sx8_lt (e : Nat) : sx8 e < 65536 := by
  unfold sx8
  split <;> omega

theorem sx8_mod16 (e : Nat) : sx8 e % 16 = e % 16 := by
  unfold sx8
  split <;> omega

theorem sx8_mod256 (e : Nat) : sx8 e % 256 = e % 256 := by
  unfold sx8
  split <;> omega

/-- C7: ADD SP,e (4 cycles) and LD HL,SP+e (3 cycles) compute SP plus the
sign-extended displacement modulo 2^16, force Z=N=0, and set H and C from
the xor formulas, equivalently the unsigned half-carry and carry of the
low byte. -/
theorem C7_add_sp_ld_hl (s : Cpu) (e : Nat) (hwf : Wf s) (he : e < 256)
    (hm2 : s.mem ((s.pc + 1) % 65536) = e) :
    (s.mem s.pc = 0xE8 →
      runResult step s = Except.ok () ∧
      (runState step s).sp = (s.sp + sx8 e) % 65536 ∧
      (runTrace step s).length = 4 ∧
      isSetF (runState step s) ZERO = false ∧
      isSetF (runState step s) NEGATIVE = false ∧
      (isSetF (runState step s) HALF_CARRY = true ↔
        (s.sp ^^^ sx8 e ^^^ (s.sp + sx8 e) % 65536) &&& 0x10 ≠ 0) ∧
      (isSetF (runState step s) HALF_CARRY = true ↔ 0x0F < s.sp % 16 + e % 16) ∧
      (isSetF (runState step s) CARRY = true ↔
        (s.sp ^^^ sx8 e ^^^ (s.sp + sx8 e) % 65536) &&& 0x100 ≠ 0) ∧
      (isSetF (runState step s) CARRY = true ↔ 0xFF < s.sp % 256 + e % 256)) ∧
    (s.mem s.pc = 0xF8 →
      runResult step s = Except.ok () ∧
      (runState step s).hl = (s.sp + sx8 e) % 65536 ∧
      (runState step s).sp = s.sp ∧
      (runTrace step s).length = 3 ∧
      isSetF (runState step s) ZERO = false ∧
      isSetF (runState step s) NEGATIVE = false ∧
      (isSetF (runState step s) HALF_CARRY = true ↔
        (s.sp ^^^ sx8 e ^^^ (s.sp + sx8 e) % 65536) &&& 0x10 ≠ 0) ∧
      (isSetF (runState step s) HALF_CARRY = true ↔ 0x0F < s.sp % 16 + e % 16) ∧
      (isSetF (runState step s) CARRY = true ↔
        (s.sp ^^^ sx8 e ^^^ (s.sp + sx8 e) % 65536) &&& 0x100 ≠ 0) ∧
      (isSetF (runState step s) CARRY = true ↔ 0xFF < s.sp % 256 + e % 256)) := by
  obtain ⟨ha, hb, hc, hd, hee, hf, hh, hl, hsp, hpc⟩ := hwf
  have hm : s.pc % 65536 = s.pc := Nat.mod_eq_of_lt hpc
  have hme : e % 256 = e := Nat.mod_eq_of_lt he
  have hres : (s.sp + sx8 e) % 65536 < 65536 := Nat.mod_lt _ (by norm_num)
  have hspm : s.sp % 65536 = s.sp := Nat.mod_eq_of_lt hsp
  have hro := flagChain_readout s.f false false
    ((s.sp ^^^ sx8 e ^^^ (s.sp + sx8 e) % 65536) &&& 16 == 16)
    ((s.sp ^^^ sx8 e ^^^ (s.sp + sx8 e) % 65536) &&& 256 == 256)
  have hxc4 := xor_carry_bit4 s.sp (sx8 e) hsp (sx8_lt e)
  have hxc8 := xor_carry_bit8 s.sp (sx8 e) hsp (sx8_lt e)
  constructor
  · intro hm1
    have hstate : runState step s =
        { s with
          f := setFlagVal (setFlagVal (setFlagVal (setFlagVal s.f ZERO false) NEGATIVE false)
                 HALF_CARRY ((s.sp ^^^ sx8 e ^^^ (s.sp + sx8 e) % 65536) &&& 16 == 16))
                 CARRY ((s.sp ^^^ sx8 e ^^^ (s.sp + sx8 e) % 65536) &&& 256 == 256),
          sp := (s.sp &&& 65280 ||| ((s.sp + sx8 e) % 65536 &&& 255) % 256) &&& 255 |||
                ((((s.sp + sx8 e) % 65536) >>> 8 &&& 255) % 256) <<< 8,
          pc := (s.pc + 1 + 1) % 65536 } := by
      simp [runState, step, Bind.bind, M.bind, rnba_run, hm, hm1, hm2, hme,
        execute, execRowE, tick, setSPlower, setSPupper, setFlag, readS, modS,
        Pure.pure, M.pure]
    refine ⟨?_, ?_, ?_, ?_, ?_, ?_, ?_, ?_, ?_⟩
    · simp [runResult, step, Bind.bind, M.bind, rnba_run, hm, hm1, hm2, hme,
        execute, execRowE, tick, setSPlower, setSPupper, setFlag, readS, modS,
        Pure.pure, M.pure]
    · rw [hstate]
      exact sp_recompose s.sp _ hres
    · simp [runTrace, step, Bind.bind, M.bind, rnba_run, hm, hm1, hm2, hme,
        execute, execRowE, tick, setSPlower, setSPupper, setFlag, readS, modS,
        Pure.pure, M.pure]
    · rw [hstate]
      show (_ &&& ZERO != 0) = false
      rw [hro.1]
    · rw [hstate]
      show (_ &&& NEGATIVE != 0) = false
      rw [hro.2.1]
    · rw [hstate]
      show (_ &&& HALF_CARRY != 0) = true ↔ _
      rw [hro.2.2.1]
      simp only [beq_iff_eq]
      rw [and16_eq_iff_ne]
    · rw [hstate]
      show (_ &&& HALF_CARRY != 0) = true ↔ _
      rw [hro.2.2.1]
      simp only [beq_iff_eq]
      rw [and16_eq_iff_ne]
      have h10 : (16 : Nat) = 0x10 := by norm_num
      rw [h10]
      rw [show (0x0F < s.sp % 16 + e % 16) = (0x0F < s.sp % 16 + sx8 e % 16) by
        rw [sx8_mod16]]
      exact hxc4
    · rw [hstate]
      show (_ &&& CARRY != 0) = true ↔ _
      rw [hro.2.2.2]
      simp only [beq_iff_eq]
      rw [and256_eq_iff_ne]
    · rw [hstate]
      show (_ &&& CARRY != 0) = true ↔ _
      rw [hro.2.2.2]
      simp only [beq_iff_eq]
      rw [and256_eq_iff_ne]
      have h100 : (256 : Nat) = 0x100 := by norm_num
      rw [h100]
      rw [show (0xFF < s.sp % 256 + e % 256) = (0xFF < s.sp % 256 + sx8 e % 256) by
        rw [sx8_mod256]]
      exact hxc8
  · intro hm1
    have hstate : runState step s =
        { s with
          f := setFlagVal (setFlagVal (setFlagVal (setFlagVal s.f ZERO false) NEGATIVE false)
                 HALF_CARRY ((s.sp ^^^ sx8 e ^^^ (s.sp + sx8 e) % 65536) &&& 16 == 16))
                 CARRY ((s.sp ^^^ sx8 e ^^^ (s.sp + sx8 e) % 65536) &&& 256 == 256),
          h := (((s.sp + sx8 e) % 65536) >>> 8 &&& 255) % 256,
          l := (((s.sp + sx8 e) % 65536) &&& 255) % 256,
          pc := (s.pc + 1 + 1) % 65536 } := by
      simp [runState, step, Bind.bind, M.bind, rnba_run, hm, hm1, hm2, hme,
        execute, execRowF, tick, setR8, setFlag, readS, modS,
        Pure.pure, M.pure]
    refine ⟨?_, ?_, ?_, ?_, ?_, ?_, ?_, ?_, ?_, ?_⟩
    · simp [runResult, step, Bind.bind, M.bind, rnba_run, hm, hm1, hm2, hme,
        execute, execRowF, tick, setR8, setFlag, readS, modS,
        Pure.pure, M.pure]
    · rw [hstate]
      show ((((((s.sp + sx8 e) % 65536) >>> 8 &&& 255) % 256) <<< 8) |||
        ((((s.sp + sx8 e) % 65536) &&& 255) % 256)) = _
      exact hl_recompose _ hres
    · rw [hstate]
    · simp [runTrace, step, Bind.bind, M.bind, rnba_run, hm, hm1, hm2, hme,
        execute, execRowF, tick, setR8, setFlag, readS, modS,
        Pure.pure, M.pure]
    · rw [hstate]
      show (_ &&& ZERO != 0) = false
      rw [hro.1]
    · rw [hstate]
      show (_ &&& NEGATIVE != 0) = false
      rw [hro.2.1]
    · rw [hstate]
      show (_ &&& HALF_CARRY != 0) = true ↔ _
      rw [hro.2.2.1]
      simp only [beq_iff_eq]
      rw [and16_eq_iff_ne]
    · rw [hstate]
      show (_ &&& HALF_CARRY != 0) = true ↔ _
      rw [hro.2.2.1]
      simp only [beq_iff_eq]
      rw [and16_eq_iff_ne]
      have h10 : (16 : Nat) = 0x10 := by norm_num
      rw [h10]
      rw [show (0x0F < s.sp % 16 + e % 16) = (0x0F < s.sp % 16 + sx8 e % 16) by
        rw [sx8_mod16]]
      exact hxc4
    · rw [hstate]
      show (_ &&& CARRY != 0) = true ↔ _
      rw [hro.2.2.2]
      simp only [beq_iff_eq]
      rw [and256_eq_iff_ne]
    · rw [hstate]
      show (_ &&& CARRY != 0) = true ↔ _
      rw [hro.2.2.2]
      simp only [beq_iff_eq]
      rw [and256_eq_iff_ne]
      have h100 : (256 : Nat) = 0x100 := by norm_num
      rw [h100]
      rw [show (0xFF < s.sp % 256 + e % 256) = (0xFF < s.sp % 256 + sx8 e % 256) by
        rw [sx8_mod256]]
      exact hxc8

/-- Result and state of a bind, from the components (trace-agnostic). -/
theorem bind_parts {α β : Type} (m : M α) (k : α → M β) (s : Cpu) (x : α)
    (hres : (m s).1 = Except.ok x) :
    ((m >>= k) s).1 = (k x (m s).2.1).1 ∧ ((m >>= k) s).2.1 = (k x (m s).2.1).2.1 := by
  show (M.bind m k s).1 = _ ∧ (M.bind m k s).2.1 = _
  rcases hx : m s with ⟨r, s1, t1⟩
  rw [hx] at hres
  simp only at hres
  subst hres
  rcases hy : k x s1 with ⟨r2, s2, t2⟩
  simp [M.bind, hx, hy]

/-- C3: PUSH rr immediately followed by the matching POP restores the
pair and SP exactly, except that POP AF masks the loaded low byte with
0xF0. -/
theorem C3_push_pop (s : Cpu) (p : PR) (hwf : Wf s) :
    runResult (PUSH p >>= fun _ => popInstr p) s = Except.ok () ∧
    (runState (PUSH p >>= fun _ => popInstr p) s).sp = s.sp ∧
    prHiGet p (runState (PUSH p >>= fun _ => popInstr p) s) = prHiGet p s ∧
    prLoGet p (runState (PUSH p >>= fun _ => popInstr p) s) =
      (if p = PR.AF then prLoGet p s &&& 0xF0 else prLoGet p s) := by
  obtain ⟨ha, hb, hc, hd, hee, hf, hh, hl, hsp, hpc⟩ := hwf
  have h1 : ((s.sp + 65535 + 65535) % 65536 + 1) % 65536 = (s.sp + 65535) % 65536 := by omega
  have hne : (s.sp + 65535) % 65536 ≠ (s.sp + 65535 + 65535) % 65536 := by omega
  have hfand : (s.f &&& 240) % 256 = s.f &&& 240 :=
    Nat.mod_eq_of_lt (lt_of_le_of_lt Nat.and_le_left hf)
  cases p
  case AF =>
    have hpushr : (PUSH PR.AF s).1 = Except.ok () := by
      simp [PUSH, Bind.bind, M.bind, tick, decSP, busWrite, readS, modS, prHiGet, prLoGet]
    have hpushs : (PUSH PR.AF s).2.1 = { s with sp := (s.sp + 65535 + 65535) % 65536, mem := fun x => if x = (s.sp + 65535 + 65535) % 65536 then s.f % 256 else if x = (s.sp + 65535) % 65536 then s.a % 256 else s.mem x } := by
      simp [PUSH, Bind.bind, M.bind, tick, decSP, busWrite, readS, modS, prHiGet, prLoGet]
    have hpopr : (popInstr PR.AF { s with sp := (s.sp + 65535 + 65535) % 65536, mem := fun x => if x = (s.sp + 65535 + 65535) % 65536 then s.f % 256 else if x = (s.sp + 65535) % 65536 then s.a % 256 else s.mem x }).1 = Except.ok () := by
      simp [popInstr, POPAF, Bind.bind, M.bind, incSP, busRead, readS, modS, setF, setR8,
        h1, hne]
    have hpops : (popInstr PR.AF { s with sp := (s.sp + 65535 + 65535) % 65536, mem := fun x => if x = (s.sp + 65535 + 65535) % 65536 then s.f % 256 else if x = (s.sp + 65535) % 65536 then s.a % 256 else s.mem x }).2.1 = { s with a := s.a % 256 % 256, f := (s.f % 256 &&& 240) % 256, sp := (s.sp + 65535 + 1) % 65536, mem := fun x => if x = (s.sp + 65535 + 65535) % 65536 then s.f % 256 else if x = (s.sp + 65535) % 65536 then s.a % 256 else s.mem x } := by
      simp [popInstr, POPAF, Bind.bind, M.bind, incSP, busRead, readS, modS, setF, setR8,
        h1, hne]
    have hbp := bind_parts (PUSH PR.AF) (fun _ => popInstr PR.AF) s () hpushr
    rw [hpushs] at hbp
    have hrs : runState (PUSH PR.AF >>= fun _ => popInstr PR.AF) s = { s with a := s.a % 256 % 256, f := (s.f % 256 &&& 240) % 256, sp := (s.sp + 65535 + 1) % 65536, mem := fun x => if x = (s.sp + 65535 + 65535) % 65536 then s.f % 256 else if x = (s.sp + 65535) % 65536 then s.a % 256 else s.mem x } := by
      show ((PUSH PR.AF >>= fun _ => popInstr PR.AF) s).2.1 = _
      rw [hbp.2, hpops]
    refine ⟨?_, ?_, ?_, ?_⟩
    · show ((PUSH PR.AF >>= fun _ => popInstr PR.AF) s).1 = _
      rw [hbp.1, hpopr]
    · rw [hrs]
      show (s.sp + 65535 + 1) % 65536 = s.sp
      omega
    · rw [hrs]
      simp only [prHiGet]
      omega
    · rw [hrs]
      simp only [prLoGet]
      rw [Nat.mod_eq_of_lt hf, hfand]
      simp
  case BC =>
    have hpushr : (PUSH PR.BC s).1 = Except.ok () := by
      simp [PUSH, Bind.bind, M.bind, tick, decSP, busWrite, readS, modS, prHiGet, prLoGet]
    have hpushs : (PUSH PR.BC s).2.1 = { s with sp := (s.sp + 65535 + 65535) % 65536, mem := fun x => if x = (s.sp + 65535 + 65535) % 65536 then s.c % 256 else if x = (s.sp + 65535) % 65536 then s.b % 256 else s.mem x } := by
      simp [PUSH, Bind.bind, M.bind, tick, decSP, busWrite, readS, modS, prHiGet, prLoGet]
    have hpopr : (popInstr PR.BC { s with sp := (s.sp + 65535 + 65535) % 65536, mem := fun x => if x = (s.sp + 65535 + 65535) % 65536 then s.c % 256 else if x = (s.sp + 65535) % 65536 then s.b % 256 else s.mem x }).1 = Except.ok () := by
      simp [popInstr, POP, Bind.bind, M.bind, incSP, busRead, readS, modS, prLoSet, prHiSet, setR8,
        h1, hne]
    have hpops : (popInstr PR.BC { s with sp := (s.sp + 65535 + 65535) % 65536, mem := fun x => if x = (s.sp + 65535 + 65535) % 65536 then s.c % 256 else if x = (s.sp + 65535) % 65536 then s.b % 256 else s.mem x }).2.1 = { s with b := s.b % 256 % 256, c := s.c % 256 % 256, sp := (s.sp + 65535 + 1) % 65536, mem := fun x => if x = (s.sp + 65535 + 65535) % 65536 then s.c % 256 else if x = (s.sp + 65535) % 65536 then s.b % 256 else s.mem x } := by
      simp [popInstr, POP, Bind.bind, M.bind, incSP, busRead, readS, modS, prLoSet, prHiSet, setR8,
        h1, hne]
    have hbp := bind_parts (PUSH PR.BC) (fun _ => popInstr PR.BC) s () hpushr
    rw [hpushs] at hbp
    have hrs : runState (PUSH PR.BC >>= fun _ => popInstr PR.BC) s = { s with b := s.b % 256 % 256, c := s.c % 256 % 256, sp := (s.sp + 65535 + 1) % 65536, mem := fun x => if x = (s.sp + 65535 + 65535) % 65536 then s.c % 256 else if x = (s.sp + 65535) % 65536 then s.b % 256 else s.mem x } := by
      show ((PUSH PR.BC >>= fun _ => popInstr PR.BC) s).2.1 = _
      rw [hbp.2, hpops]
    refine ⟨?_, ?_, ?_, ?_⟩
    · show ((PUSH PR.BC >>= fun _ => popInstr PR.BC) s).1 = _
      rw [hbp.1, hpopr]
    · rw [hrs]
      show (s.sp + 65535 + 1) % 65536 = s.sp
      omega
    · rw [hrs]
      simp only [prHiGet]
      omega
    · rw [hrs]
      simp only [prLoGet]
      rw [if_neg (by decide)]
      omega
  case DE =>
    have hpushr : (PUSH PR.DE s).1 = Except.ok () := by
      simp [PUSH, Bind.bind, M.bind, tick, decSP, busWrite, readS, modS, prHiGet, prLoGet]
    have hpushs : (PUSH PR.DE s).2.1 = { s with sp := (s.sp + 65535 + 65535) % 65536, mem := fun x => if x = (s.sp + 65535 + 65535) % 65536 then s.e % 256 else if x = (s.sp + 65535) % 65536 then s.d % 256 else s.mem x } := by
      simp [PUSH, Bind.bind, M.bind, tick, decSP, busWrite, readS, modS, prHiGet, prLoGet]
    have hpopr : (popInstr PR.DE { s with sp := (s.sp + 65535 + 65535) % 65536, mem := fun x => if x = (s.sp + 65535 + 65535) % 65536 then s.e % 256 else if x = (s.sp + 65535) % 65536 then s.d % 256 else s.mem x }).1 = Except.ok () := by
      simp [popInstr, POP, Bind.bind, M.bind, incSP, busRead, readS, modS, prLoSet, prHiSet, setR8,
        h1, hne]
    have hpops : (popInstr PR.DE { s with sp := (s.sp + 65535 + 65535) % 65536, mem := fun x => if x = (s.sp + 65535 + 65535) % 65536 then s.e % 256 else if x = (s.sp + 65535) % 65536 then s.d % 256 else s.mem x }).2.1 = { s with d := s.d % 256 % 256, e := s.e % 256 % 256, sp := (s.sp + 65535 + 1) % 65536, mem := fun x => if x = (s.sp + 65535 + 65535) % 65536 then s.e % 256 else if x = (s.sp + 65535) % 65536 then s.d % 256 else s.mem x } := by
      simp [popInstr, POP, Bind.bind, M.bind, incSP, busRead, readS, modS, prLoSet, prHiSet, setR8,
        h1, hne]
    have hbp := bind_parts (PUSH PR.DE) (fun _ => popInstr PR.DE) s () hpushr
    rw [hpushs] at hbp
    have hrs : runState (PUSH PR.DE >>= fun _ => popInstr PR.DE) s = { s with d := s.d % 256 % 256, e := s.e % 256 % 256, sp := (s.sp + 65535 + 1) % 65536, mem := fun x => if x = (s.sp + 65535 + 65535) % 65536 then s.e % 256 else if x = (s.sp + 65535) % 65536 then s.d % 256 else s.mem x } := by
      show ((PUSH PR.DE >>= fun _ => popInstr PR.DE) s).2.1 = _
      rw [hbp.2, hpops]
    refine ⟨?_, ?_, ?_, ?_⟩
    · show ((PUSH PR.DE >>= fun _ => popInstr PR.DE) s).1 = _
      rw [hbp.1, hpopr]
    · rw [hrs]
      show (s.sp + 65535 + 1) % 65536 = s.sp
      omega
    · rw [hrs]
      simp only [prHiGet]
      omega
    · rw [hrs]
      simp only [prLoGet]
      rw [if_neg (by decide)]
      omega
  case HL =>
    have hpushr : (PUSH PR.HL s).1 = Except.ok () := by
      simp [PUSH, Bind.bind, M.bind, tick, decSP, busWrite, readS, modS, prHiGet, prLoGet]
    have hpushs : (PUSH PR.HL s).2.1 = { s with sp := (s.sp + 65535 + 65535) % 65536, mem := fun x => if x = (s.sp + 65535 + 65535) % 65536 then s.l % 256 else if x = (s.sp + 65535) % 65536 then s.h % 256 else s.mem x } := by
      simp [PUSH, Bind.bind, M.bind, tick, decSP, busWrite, readS, modS, prHiGet, prLoGet]
    have hpopr : (popInstr PR.HL { s with sp := (s.sp + 65535 + 65535) % 65536, mem := fun x => if x = (s.sp + 65535 + 65535) % 65536 then s.l % 256 else if x = (s.sp + 65535) % 65536 then s.h % 256 else s.mem x }).1 = Except.ok () := by
      simp [popInstr, POP, Bind.bind, M.bind, incSP, busRead, readS, modS, prLoSet, prHiSet, setR8,
        h1, hne]
    have hpops : (popInstr PR.HL { s with sp := (s.sp + 65535 + 65535) % 65536, mem := fun x => if x = (s.sp + 65535 + 65535) % 65536 then s.l % 256 else if x = (s.sp + 65535) % 65536 then s.h % 256 else s.mem x }).2.1 = { s with h := s.h % 256 % 256, l := s.l % 256 % 256, sp := (s.sp + 65535 + 1) % 65536, mem := fun x => if x = (s.sp + 65535 + 65535) % 65536 then s.l % 256 else if x = (s.sp + 65535) % 65536 then s.h % 256 else s.mem x } := by
      simp [popInstr, POP, Bind.bind, M.bind, incSP, busRead, readS, modS, prLoSet, prHiSet, setR8,
        h1, hne]
    have hbp := bind_parts (PUSH PR.HL) (fun _ => popInstr PR.HL) s () hpushr
    rw [hpushs] at hbp
    have hrs : runState (PUSH PR.HL >>= fun _ => popInstr PR.HL) s = { s with h := s.h % 256 % 256, l := s.l % 256 % 256, sp := (s.sp + 65535 + 1) % 65536, mem := fun x => if x = (s.sp + 65535 + 65535) % 65536 then s.l % 256 else if x = (s.sp + 65535) % 65536 then s.h % 256 else s.mem x } := by
      show ((PUSH PR.HL >>= fun _ => popInstr PR.HL) s).2.1 = _
      rw [hbp.2, hpops]
    refine ⟨?_, ?_, ?_, ?_⟩
    · show ((PUSH PR.HL >>= fun _ => popInstr PR.HL) s).1 = _
      rw [hbp.1, hpopr]
    · rw [hrs]
      show (s.sp + 65535 + 1) % 65536 = s.sp
      omega
    · rw [hrs]
      simp only [prHiGet]
      omega
    · rw [hrs]
      simp only [prLoGet]
      rw [if_neg (by decide)]
      omega

/-- C9: the OpcodeNotImplementedException paths of execute and
executeExtended are unreachable: no step ever fails with
opcodeNotImplemented. -/
theorem C9_no_not_implemented :
    ∀ (s : Cpu) (t : Nat), runResult step s ≠ Except.error (Err.opcodeNotImplemented t) := by
  intro s t
  unfold runResult
  exact (pres_step s).2 t

/-- C1: the low-nibble-zero rule on F. A step preserves a zero low
nibble of F, POP AF forces it to zero, and each single-flag write
preserves the low nibble; the reset path does NOT mask F, so the claim
as stated (over everything reset can install) fails, see the
counterexample. -/
theorem C1_flag_low_nibble :
    (∀ s : Cpu, s.f % 16 = 0 → (runState step s).f % 16 = 0) ∧
    (∀ s : Cpu, (runState POPAF s).f % 16 = 0) ∧
    (∀ (f : Nat) (b : Bool),
      setFlagVal f ZERO b % 16 = f % 16 ∧ setFlagVal f NEGATIVE b % 16 = f % 16 ∧
      setFlagVal f HALF_CARRY b % 16 = f % 16 ∧ setFlagVal f CARRY b % 16 = f % 16) := by
  refine ⟨?_, ?_, ?_⟩
  · intro s hf
    unfold runState
    rcases (pres_step s).1 with h | h
    · exact h
    · rw [h, hf]
  · intro s
    have h : (runState POPAF s).f
        = (s.mem (s.sp % 65536) % 256 &&& 0xF0) % 256 := by
      simp [runState, POPAF, Bind.bind, M.bind, readS, modS, busRead, incSP, setF, setR8]
    rw [h, Nat.mod_mod_of_dvd _ (by norm_num), land_mod16]
    norm_num
  · intro f b
    refine ⟨?_, ?_, ?_, ?_⟩ <;>
      exact setFlagVal_mod16 _ _ (by norm_num [ZERO, NEGATIVE, HALF_CARRY, CARRY]) b

theorem C1_witness :
    sampleS.f % 16 = 0 ∧ (runState step sampleS).f % 16 = 0 :=
  ⟨by norm_num [sampleS], C1_flag_low_nibble.1 sampleS (by norm_num [sampleS])⟩

theorem C1_counterexample :
    (reset { F := 0x01 } zeroMem).f % 16 ≠ 0 ∧
    runResult step (reset { F := 0x01 } zeroMem) = Except.ok () ∧
    (runState step (reset { F := 0x01 } zeroMem)).f % 16 ≠ 0 := by
  refine ⟨by norm_num [reset], ?_, ?_⟩ <;>
    simp [runResult, runState, step, Bind.bind, M.bind, rnba_run, reset, zeroMem,
      execute, execRow0, Pure.pure, M.pure]

/-- C2: each of the eleven reserved opcode bytes makes step fail with
IllegalOpcodeException carrying that byte, after the fetch advanced PC. -/
theorem C2_illegal_opcodes (s : Cpu) (b : Nat) (hpc : s.pc < 65536)
    (hb : b ∈ illegalBytes) (hop : s.mem s.pc = b) :
    runResult step s = Except.error (Err.illegalOpcode b) ∧
    runState step s = { s with pc := (s.pc + 1) % 65536 } := by
  have hm : s.pc % 65536 = s.pc := Nat.mod_eq_of_lt hpc
  simp only [illegalBytes, List.mem_cons, List.mem_singleton, List.not_mem_nil, or_false] at hb
  rcases hb with rfl | rfl | rfl | rfl | rfl | rfl | rfl | rfl | rfl | rfl | rfl <;>
    refine ⟨?_, ?_⟩ <;>
      simp [runResult, runState, step, Bind.bind, M.bind, rnba_run, hm, hop,
        execute, execRowD, execRowE, execRowF, throwErr]

theorem C2_witness :
    illS.pc < 65536 ∧ (0xD3 : Nat) ∈ illegalBytes ∧ illS.mem illS.pc = 0xD3 ∧
    runResult step illS = Except.error (Err.illegalOpcode 0xD3) :=
  ⟨by norm_num [illS, sampleS], by decide, by norm_num [illS, sampleS, oneOpMem],
    (C2_illegal_opcodes illS 0xD3 (by norm_num [illS, sampleS]) (by decide)
      (by norm_num [illS, sampleS, oneOpMem])).1⟩

/-- C5: HALT (0x76) and STOP (0x10) advance PC past the opcode, change
nothing else, and the trace is exactly the fetch tick plus two internal
ticks (three ticks total). -/
theorem C5_halt_stop (s : Cpu) (op : Nat) (hpc : s.pc < 65536)
    (hop : op = 0x76 ∨ op = 0x10) (hmem : s.mem s.pc = op) :
    runResult step s = Except.ok () ∧
    runState step s = { s with pc := (s.pc + 1) % 65536 } ∧
    runTrace step s =
      [⟨EvKind.rd s.pc op, { s with pc := (s.pc + 1) % 65536 }⟩,
       ⟨EvKind.internal, { s with pc := (s.pc + 1) % 65536 }⟩,
       ⟨EvKind.internal, { s with pc := (s.pc + 1) % 65536 }⟩] := by
  have hm : s.pc % 65536 = s.pc := Nat.mod_eq_of_lt hpc
  rcases hop with rfl | rfl <;>
    (refine ⟨?_, ?_, ?_⟩ <;>
      simp [runResult, runState, runTrace, step, Bind.bind, M.bind, rnba_run, hm, hmem,
        execute, execRow7, execRow1, tick, Pure.pure, M.pure])

theorem C5_witness :
    haltS.pc < 65536 ∧ ((0x76 : Nat) = 0x76 ∨ (0x76 : Nat) = 0x10) ∧ haltS.mem haltS.pc = 0x76 ∧
    runState step haltS = { haltS with pc := (haltS.pc + 1) % 65536 } :=
  ⟨by norm_num [haltS, sampleS], Or.inl rfl, by norm_num [haltS, sampleS, oneOpMem],
    (C5_halt_stop haltS 0x76 (by norm_num [haltS, sampleS]) (Or.inl rfl)
      (by norm_num [haltS, sampleS, oneOpMem])).2.1⟩

theorem pair_hi (h l : Nat) (hh : h < 256) (hl : l < 256) :
    (((h <<< 8) ||| l) >>> 8) &&& 0xFF = h := by
  rw [hi_lo_lor _ _ hl, land_255, Nat.shiftRight_eq_div_pow]
  norm_num
  omega

theorem testBit_ff00 (i : Nat) : (0xFF00 : Nat).testBit i = (decide (8 ≤ i) && decide (i < 16)) := by
  rcases Nat.lt_or_ge i 16 with h | h
  · interval_cases i <;> decide
  · have h1 : (0xFF00 : Nat) < 2 ^ i := by
      calc (0xFF00 : Nat) < 2 ^ 16 := by norm_num
        _ ≤ 2 ^ i := Nat.pow_le_pow_right (by norm_num) h
    rw [Nat.testBit_lt_two_pow h1]
    simp
    omega

theorem testBit_ff (i : Nat) : (0xFF : Nat).testBit i = decide (i < 8) := by
  rcases Nat.lt_or_ge i 8 with h | h
  · interval_cases i <;> decide
  · have h1 : (0xFF : Nat) < 2 ^ i := by
      calc (0xFF : Nat) < 2 ^ 8 := by norm_num
        _ ≤ 2 ^ i := Nat.pow_le_pow_right (by norm_num) h
    rw [Nat.testBit_lt_two_pow h1]
    simp
    omega

theorem and_ff00_eq (x : Nat) : x &&& 0xFF00 = ((x >>> 8) &&& 0xFF) <<< 8 := by
  apply Nat.eq_of_testBit_eq
  intro i
  rw [Nat.testBit_and, testBit_ff00, Nat.testBit_shiftLeft, Nat.testBit_and,
    Nat.testBit_shiftRight]
  rcases Nat.lt_or_ge i 8 with h8 | h8
  · simp [Nat.not_le.mpr h8]
  · have he : 8 + (i - 8) = i := by omega
    rw [he]
    rcases Nat.lt_or_ge i 16 with h16 | h16
    · have ht : (0xFF : Nat).testBit (i - 8) = true := by
        rw [testBit_ff]
        simp
        omega
      simp [ht, h8, h16]
    · have hfalse : (0xFF : Nat).testBit (i - 8) = false := by
        rw [testBit_ff]
        simp
        omega
      simp [hfalse, h8, Nat.not_lt.mpr h16]

/-- C10: during INC rr / DEC rr the internal tick observes a torn pair:
the low byte already updated, the high byte still old. -/
theorem C10_inc_dec_torn (s : Cpu) (t : R16) (hwf : Wf s) :
    (s.mem s.pc = inc16op t →
      ∃ e1 est, runTrace step s = [e1, ⟨EvKind.internal, est⟩] ∧
        get16 t est =
          ((((get16 t s) >>> 8) &&& 0xFF) <<< 8) ||| (((get16 t s + 1) % 65536) &&& 0xFF)) ∧
    (s.mem s.pc = dec16op t →
      ∃ e1 est, runTrace step s = [e1, ⟨EvKind.internal, est⟩] ∧
        get16 t est =
          ((((get16 t s) >>> 8) &&& 0xFF) <<< 8) ||| (((get16 t s + 65535) % 65536) &&& 0xFF)) := by
  obtain ⟨ha, hb, hc, hd, he, hf, hh, hl, hsp, hpc⟩ := hwf
  have hm : s.pc % 65536 = s.pc := Nat.mod_eq_of_lt hpc
  cases t
  case BC =>
    refine ⟨?_, ?_⟩
    · intro hmem
      refine ⟨⟨EvKind.rd s.pc 0x03, { s with pc := (s.pc + 1) % 65536 }⟩,
        { s with pc := (s.pc + 1) % 65536, c := (((s.bc + 1) % 65536) &&& 0xFF) % 256 }, ?_, ?_⟩
      · simp [runTrace, step, Bind.bind, M.bind, rnba_run, hm, hmem, inc16op, dec16op, execute, execRow0,
          INC16, DEC16, get16, set16lo, set16hi, setR8, readS, modS, tick, Cpu.bc, Cpu.de, Cpu.hl,
          Pure.pure, M.pure]
      · simp only [get16, Cpu.bc]
        rw [pair_hi s.b s.c hb hc]
        simp [land_255, Nat.mod_mod_of_dvd]
    · intro hmem
      refine ⟨⟨EvKind.rd s.pc 0x0B, { s with pc := (s.pc + 1) % 65536 }⟩,
        { s with pc := (s.pc + 1) % 65536, c := (((s.bc + 65535) % 65536) &&& 0xFF) % 256 }, ?_, ?_⟩
      · simp [runTrace, step, Bind.bind, M.bind, rnba_run, hm, hmem, inc16op, dec16op, execute, execRow0,
          INC16, DEC16, get16, set16lo, set16hi, setR8, readS, modS, tick, Cpu.bc, Cpu.de, Cpu.hl,
          Pure.pure, M.pure]
      · simp only [get16, Cpu.bc]
        rw [pair_hi s.b s.c hb hc]
        simp [land_255, Nat.mod_mod_of_dvd]
  case DE =>
    refine ⟨?_, ?_⟩
    · intro hmem
      refine ⟨⟨EvKind.rd s.pc 0x13, { s with pc := (s.pc + 1) % 65536 }⟩,
        { s with pc := (s.pc + 1) % 65536, e := (((s.de + 1) % 65536) &&& 0xFF) % 256 }, ?_, ?_⟩
      · simp [runTrace, step, Bind.bind, M.bind, rnba_run, hm, hmem, inc16op, dec16op, execute, execRow1,
          INC16, DEC16, get16, set16lo, set16hi, setR8, readS, modS, tick, Cpu.bc, Cpu.de, Cpu.hl,
          Pure.pure, M.pure]
      · simp only [get16, Cpu.de]
        rw [pair_hi s.d s.e hd he]
        simp [land_255, Nat.mod_mod_of_dvd]
    · intro hmem
      refine ⟨⟨EvKind.rd s.pc 0x1B, { s with pc := (s.pc + 1) % 65536 }⟩,
        { s with pc := (s.pc + 1) % 65536, e := (((s.de + 65535) % 65536) &&& 0xFF) % 256 }, ?_, ?_⟩
      · simp [runTrace, step, Bind.bind, M.bind, rnba_run, hm, hmem, inc16op, dec16op, execute, execRow1,
          INC16, DEC16, get16, set16lo, set16hi, setR8, readS, modS, tick, Cpu.bc, Cpu.de, Cpu.hl,
          Pure.pure, M.pure]
      · simp only [get16, Cpu.de]
        rw [pair_hi s.d s.e hd he]
        simp [land_255, Nat.mod_mod_of_dvd]
  case HL =>
    refine ⟨?_, ?_⟩
    · intro hmem
      refine ⟨⟨EvKind.rd s.pc 0x23, { s with pc := (s.pc + 1) % 65536 }⟩,
        { s with pc := (s.pc + 1) % 65536, l := (((s.hl + 1) % 65536) &&& 0xFF) % 256 }, ?_, ?_⟩
      · simp [runTrace, step, Bind.bind, M.bind, rnba_run, hm, hmem, inc16op, dec16op, execute, execRow2,
          INC16, DEC16, get16, set16lo, set16hi, setR8, readS, modS, tick, Cpu.bc, Cpu.de, Cpu.hl,
          Pure.pure, M.pure]
      · simp only [get16, Cpu.hl]
        rw [pair_hi s.h s.l hh hl]
        simp [land_255, Nat.mod_mod_of_dvd]
    · intro hmem
      refine ⟨⟨EvKind.rd s.pc 0x2B, { s with pc := (s.pc + 1) % 65536 }⟩,
        { s with pc := (s.pc + 1) % 65536, l := (((s.hl + 65535) % 65536) &&& 0xFF) % 256 }, ?_, ?_⟩
      · simp [runTrace, step, Bind.bind, M.bind, rnba_run, hm, hmem, inc16op, dec16op, execute, execRow2,
          INC16, DEC16, get16, set16lo, set16hi, setR8, readS, modS, tick, Cpu.bc, Cpu.de, Cpu.hl,
          Pure.pure, M.pure]
      · simp only [get16, Cpu.hl]
        rw [pair_hi s.h s.l hh hl]
        simp [land_255, Nat.mod_mod_of_dvd]
  case SP =>
    refine ⟨?_, ?_⟩
    · intro hmem
      refine ⟨⟨EvKind.rd s.pc 0x33, { s with pc := (s.pc + 1) % 65536 }⟩,
        { s with pc := (s.pc + 1) % 65536, sp := (s.sp &&& 0xFF00) ||| ((((s.sp + 1) % 65536) &&& 0xFF) % 256) }, ?_, ?_⟩
      · simp [runTrace, step, Bind.bind, M.bind, rnba_run, hm, hmem, inc16op, dec16op, execute, execRow3,
          INC16, DEC16, get16, set16lo, set16hi, setSPlower, setSPupper, readS, modS, tick,
          Pure.pure, M.pure]
      · simp only [get16]
        rw [← and_ff00_eq s.sp]
        simp [land_255, Nat.mod_mod_of_dvd]
    · intro hmem
      refine ⟨⟨EvKind.rd s.pc 0x3B, { s with pc := (s.pc + 1) % 65536 }⟩,
        { s with pc := (s.pc + 1) % 65536, sp := (s.sp &&& 0xFF00) ||| ((((s.sp + 65535) % 65536) &&& 0xFF) % 256) }, ?_, ?_⟩
      · simp [runTrace, step, Bind.bind, M.bind, rnba_run, hm, hmem, inc16op, dec16op, execute, execRow3,
          INC16, DEC16, get16, set16lo, set16hi, setSPlower, setSPupper, readS, modS, tick,
          Pure.pure, M.pure]
      · simp only [get16]
        rw [← and_ff00_eq s.sp]
        simp [land_255, Nat.mod_mod_of_dvd]

theorem recompose16m (x : Nat) (hx : x < 65536) :
    (((x >>> 8) % 256) <<< 8) ||| (x % 256) = x := by
  have h := recompose16 x hx
  rw [land_255, land_255] at h
  exact h

/-- C4: the four (HL+)/(HL-) opcodes perform their single bus access at
the pre-update HL address, with exactly two machine cycles (fetch plus
one access) and HL rewritten to HL plus or minus one. -/
theorem C4_hl_access_preupdate (s : Cpu) (hwf : Wf s) :
    (s.mem s.pc = 0x22 →
      (runTrace step s).map Ev.kind = [EvKind.rd s.pc 0x22, EvKind.wr s.hl s.a] ∧
      (runState step s).hl = (s.hl + 1) % 65536) ∧
    (s.mem s.pc = 0x32 →
      (runTrace step s).map Ev.kind = [EvKind.rd s.pc 0x32, EvKind.wr s.hl s.a] ∧
      (runState step s).hl = (s.hl + 65535) % 65536) ∧
    (s.mem s.pc = 0x2A →
      (runTrace step s).map Ev.kind = [EvKind.rd s.pc 0x2A, EvKind.rd s.hl (s.mem s.hl % 256)] ∧
      (runState step s).hl = (s.hl + 1) % 65536 ∧
      (runState step s).a = s.mem s.hl % 256) ∧
    (s.mem s.pc = 0x3A →
      (runTrace step s).map Ev.kind = [EvKind.rd s.pc 0x3A, EvKind.rd s.hl (s.mem s.hl % 256)] ∧
      (runState step s).hl = (s.hl + 65535) % 65536 ∧
      (runState step s).a = s.mem s.hl % 256) := by
  obtain ⟨ha, hb, hc, hd, he, hf, hh, hl, hsp, hpc⟩ := hwf
  have hm : s.pc % 65536 = s.pc := Nat.mod_eq_of_lt hpc
  have hhl : ((s.h <<< 8) ||| s.l) % 65536 = (s.h <<< 8) ||| s.l :=
    Nat.mod_eq_of_lt (pair_lt_65536 _ _ hh hl)
  have hma : s.a % 256 = s.a := Nat.mod_eq_of_lt ha
  refine ⟨?_, ?_, ?_, ?_⟩ <;> intro hmem <;>
    refine ⟨?_, ?_⟩ <;>
    simp [runTrace, runState, step, Bind.bind, M.bind, rnba_run, hm, hmem,
      execute, execRow2, execRow3, Cpu.hl, hhl, hma, setR8, readS, modS, busWrite, busRead,
      getReg, getR8, Pure.pure, M.pure, land_255] <;>
    rw [recompose16m _ (Nat.mod_lt _ (by norm_num))]

/-- C8: RET cc takes 2 machine cycles (fetch + internal) when the
condition fails and 5 (fetch + internal + two pops + internal) when it
holds, with the internal tick emitted before any stack access. -/
theorem C8_ret_cc (s : Cpu) (op : Nat) (hwf : Wf s)
    (hop : op = 0xC0 ∨ op = 0xC8 ∨ op = 0xD0 ∨ op = 0xD8) (hmem : s.mem s.pc = op) :
    (retccCond op s = false →
      (runTrace step s).map Ev.kind = [EvKind.rd s.pc op, EvKind.internal] ∧
      runState step s = { s with pc := (s.pc + 1) % 65536 }) ∧
    (retccCond op s = true →
      (runTrace step s).map Ev.kind =
        [EvKind.rd s.pc op, EvKind.internal,
         EvKind.rd s.sp (s.mem s.sp % 256),
         EvKind.rd ((s.sp + 1) % 65536) (s.mem ((s.sp + 1) % 65536) % 256),
         EvKind.internal] ∧
      (runState step s).pc =
        ((s.mem ((s.sp + 1) % 65536) % 256) <<< 8) ||| (s.mem s.sp % 256) ∧
      (runState step s).sp = (s.sp + 2) % 65536) := by
  obtain ⟨ha, hb, hc, hd, he, hf, hh, hl, hsp, hpc⟩ := hwf
  have hm : s.pc % 65536 = s.pc := Nat.mod_eq_of_lt hpc
  have hsp0 : s.sp % 65536 = s.sp := Nat.mod_eq_of_lt hsp
  have hsp2 : ((s.sp + 1) % 65536 + 1) % 65536 = (s.sp + 2) % 65536 := by omega
  have hpcm : (((s.mem ((s.sp + 1) % 65536) % 256) <<< 8) ||| (s.mem s.sp % 256)) % 65536 =
      ((s.mem ((s.sp + 1) % 65536) % 256) <<< 8) ||| (s.mem s.sp % 256) :=
    Nat.mod_eq_of_lt (pair_lt_65536 _ _ (Nat.mod_lt _ (by norm_num)) (Nat.mod_lt _ (by norm_num)))
  rcases hop with rfl | rfl | rfl | rfl <;>
    (refine ⟨fun hcnd => ?_, fun hcnd => ?_⟩ <;>
      (simp [retccCond, isSetF, bne_iff_ne] at hcnd;
       refine ⟨?_, ?_⟩ <;>
        simp [runTrace, runState, step, Bind.bind, M.bind, rnba_run, hm, hmem, hcnd,
          execute, execRowC, execRowD, RETc, RETu, isSet, isSetF, tick, incSP, setPC,
          readS, modS, busRead, hsp0, hsp2, hpcm, Pure.pure, M.pure]))

theorem C3_witness :
    Wf sampleS ∧
    (runState (PUSH PR.BC >>= fun _ => popInstr PR.BC) sampleS).sp = sampleS.sp :=
  ⟨by norm_num [Wf, sampleS], (C3_push_pop sampleS PR.BC (by norm_num [Wf, sampleS])).2.1⟩

theorem C4_witness :
    Wf hlS ∧ hlS.mem hlS.pc = 0x22 ∧
    (runTrace step hlS).map Ev.kind = [EvKind.rd hlS.pc 0x22, EvKind.wr hlS.hl hlS.a] :=
  ⟨by norm_num [Wf, hlS, sampleS], by norm_num [hlS, sampleS, oneOpMem],
   ((C4_hl_access_preupdate hlS (by norm_num [Wf, hlS, sampleS])).1
     (by norm_num [hlS, sampleS, oneOpMem])).1⟩

theorem C6_witness :
    sampleS.a < 256 ∧ (5 : Nat) < 256 ∧
    (runState (ADC8 5) sampleS).a = (sampleS.a + 5 + adcCin sampleS) % 256 ∧
    (runState step adcS).a = 0x01 :=
  ⟨by norm_num [sampleS], by norm_num,
   (C6_adc sampleS 5 (by norm_num [sampleS]) (by norm_num)).1.1,
   (C6_adc sampleS 5 (by norm_num [sampleS]) (by norm_num)).2.2.1⟩

theorem C7_witness :
    Wf addSpS ∧ (5 : Nat) < 256 ∧ addSpS.mem ((addSpS.pc + 1) % 65536) = 5 ∧
    addSpS.mem addSpS.pc = 0xE8 ∧
    (runState step addSpS).sp = (addSpS.sp + sx8 5) % 65536 :=
  ⟨by norm_num [Wf, addSpS, sampleS], by norm_num,
   by norm_num [addSpS, sampleS], by norm_num [addSpS, sampleS],
   ((C7_add_sp_ld_hl addSpS 5 (by norm_num [Wf, addSpS, sampleS]) (by norm_num)
       (by norm_num [addSpS, sampleS])).1
     (by norm_num [addSpS, sampleS])).2.1⟩

theorem C8_witness :
    Wf retS ∧ retS.mem retS.pc = 0xC0 ∧ retccCond 0xC0 retS = false ∧
    runState step retS = { retS with pc := (retS.pc + 1) % 65536 } :=
  ⟨by norm_num [Wf, retS, sampleS], by norm_num [retS, sampleS, oneOpMem],
   by simp [retccCond, isSetF, retS, sampleS, ZERO],
   ((C8_ret_cc retS 0xC0 (by norm_num [Wf, retS, sampleS]) (Or.inl rfl)
       (by norm_num [retS, sampleS, oneOpMem])).1
     (by simp [retccCond, isSetF, retS, sampleS, ZERO])).2⟩

theorem C10_witness :
    Wf inc16S ∧ inc16S.mem inc16S.pc = inc16op R16.BC ∧
    (∃ e1 est, runTrace step inc16S = [e1, ⟨EvKind.internal, est⟩] ∧
      get16 R16.BC est =
        ((((get16 R16.BC inc16S) >>> 8) &&& 0xFF) <<< 8) |||
          (((get16 R16.BC inc16S + 1) % 65536) &&& 0xFF)) :=
  ⟨by norm_num [Wf, inc16S, sampleS], by norm_num [inc16S, sampleS, oneOpMem, inc16op],
   (C10_inc_dec_torn inc16S R16.BC (by norm_num [Wf, inc16S, sampleS])).1
     (by norm_num [inc16S, sampleS, oneOpMem, inc16op])⟩

end Fxb
